import Mathlib

/-!
# pico-gc-bridge: wire codec, transform pipeline and stick geometry

A shallow embedding of the Joybus wire codec (`joybus/codec/*.hpp`), the
protocol sanitizers (`joybus/protocol/protocol.hpp`), the transform pipeline
(`domain/transform/pipeline.hpp`) and the stick geometry stages
(`domain/transform/correction.hpp`), followed by the properties proved of them.

Conventions: `uint8_t`, `uint16_t` and `uint32_t` values are natural numbers,
with the truncating casts of the source written as `% 2^w`; `int32_t` values
are integers; `enum class X : uint8_t` values are their underlying bytes, so
that the `static_cast`s of the source are identities; byte arrays and spans
are lists, indexed with `getD`.
-/

namespace GcInput

/-! ## domain/report.hpp, domain/state.hpp, domain/mode.hpp, domain/identity.hpp -/

/-- The pad's meta-state (`domain::PadReport`), with the source's default initialisers. -/
structure PadReport where
  origin_sent : Bool := true
  error_latched : Bool := false
  error_last : Bool := true
  use_controller_origin : Bool := false
deriving DecidableEq

/-- The twelve digital buttons (`domain::ButtonInput`). -/
structure ButtonInput where
  a : Bool := false
  b : Bool := false
  x : Bool := false
  y : Bool := false
  start : Bool := false
  dpad_left : Bool := false
  dpad_right : Bool := false
  dpad_down : Bool := false
  dpad_up : Bool := false
  z : Bool := false
  r : Bool := false
  l : Bool := false
deriving DecidableEq

/-- Constant `AnalogInput::kAxisCenter`. -/
def kAxisCenter : Nat := 0x80

/-- Constant `AnalogInput::kTriggerReleased`. -/
def kTriggerReleased : Nat := 0x00

/-- Constant `AnalogInput::kAnalogButtonReleased`. -/
def kAnalogButtonReleased : Nat := 0x00

/-- The eight analog axes (`domain::AnalogInput`), each a `uint8_t`. -/
structure AnalogInput where
  stick_x : Nat := kAxisCenter
  stick_y : Nat := kAxisCenter
  c_stick_x : Nat := kAxisCenter
  c_stick_y : Nat := kAxisCenter
  l_analog : Nat := kTriggerReleased
  r_analog : Nat := kTriggerReleased
  a_analog : Nat := kAnalogButtonReleased
  b_analog : Nat := kAnalogButtonReleased
deriving DecidableEq

/-- Every axis of the record fits its `uint8_t` field. -/
def AnalogInput.inRange (an : AnalogInput) : Prop :=
  an.stick_x < 256 ∧ an.stick_y < 256 ∧ an.c_stick_x < 256 ∧ an.c_stick_y < 256 ∧
  an.l_analog < 256 ∧ an.r_analog < 256 ∧ an.a_analog < 256 ∧ an.b_analog < 256

instance (an : AnalogInput) : Decidable an.inRange := by
  unfold AnalogInput.inRange; infer_instance

/-- Buttons and axes (`domain::PadInput`). -/
structure PadInput where
  buttons : ButtonInput := {}
  analog : AnalogInput := {}
deriving DecidableEq

/-- The common form of Status, Origin and Recalibrate replies (`domain::PadState`). -/
structure PadState where
  report : PadReport := {}
  input : PadInput := {}
deriving DecidableEq

/-- Underlying byte of a `domain::PollMode` / `joybus::PollMode` value. -/
abbrev PollMode := Nat

/-- Underlying byte of a `domain::RumbleMode` / `joybus::RumbleMode` value. -/
abbrev RumbleMode := Nat

namespace PollMode
def Mode0 : PollMode := 0
def Mode1 : PollMode := 1
def Mode2 : PollMode := 2
def Mode3 : PollMode := 3
def Mode4 : PollMode := 4
/-- The alias `joybus::PollMode::Default = 0x03` of the measure tree. -/
def Default : PollMode := 3
end PollMode

namespace RumbleMode
def Off : RumbleMode := 0
def On : RumbleMode := 1
def Brake : RumbleMode := 2
end RumbleMode

/-- The immutable capabilities (`domain::PadIdentityCapabilities`). -/
structure PadIdentityCapabilities where
  is_gamecube : Bool := true
  is_standard_controller : Bool := true
  rumble_available : Bool := true
  is_wireless : Bool := false
  supports_wireless_receive : Bool := false
  wireless_is_rf : Bool := false
  wireless_state_fixed : Bool := false
deriving DecidableEq

/-- The mutable part of an identity (`domain::PadIdentityRuntime`). -/
structure PadIdentityRuntime where
  report : PadReport := {}
  poll_mode : PollMode := PollMode.Mode3
  rumble_mode : RumbleMode := RumbleMode.Off
deriving DecidableEq

/-- Capabilities and runtime (`domain::PadIdentity`). -/
structure PadIdentity where
  capabilities : PadIdentityCapabilities := {}
  runtime : PadIdentityRuntime := {}
deriving DecidableEq

/-! ## domain::PadButton and the flag bit definitions -/

namespace PadButton
def A : Nat := 1 <<< 0
def B : Nat := 1 <<< 1
def X : Nat := 1 <<< 2
def Y : Nat := 1 <<< 3
def Start : Nat := 1 <<< 4
def DpadLeft : Nat := 1 <<< 8
def DpadRight : Nat := 1 <<< 9
def DpadDown : Nat := 1 <<< 10
def DpadUp : Nat := 1 <<< 11
def Z : Nat := 1 <<< 12
def R : Nat := 1 <<< 13
def L : Nat := 1 <<< 14
end PadButton

namespace StatusWordBits
def OriginNotSent : Nat := 1 <<< 5
def ErrorLatched : Nat := 1 <<< 6
def Always1 : Nat := 1 <<< 7
def UseControllerOrigin : Nat := 1 <<< 15
end StatusWordBits

namespace IdByte3Bits
def OriginNotSent : Nat := 1 <<< 5
def ErrorLatched : Nat := 1 <<< 6
def ErrorLast : Nat := 1 <<< 7
end IdByte3Bits

namespace IdCapabilityBits
def IsWireless : Nat := 1 <<< 15
def SupportsWirelessReceive : Nat := 1 <<< 14
def RumbleNotAvailable : Nat := 1 <<< 13
def IsGamecube : Nat := 1 <<< 11
def WirelessTypeRf : Nat := 1 <<< 10
def WirelessStateFixed : Nat := 1 <<< 9
def IsStandardController : Nat := 1 <<< 8
end IdCapabilityBits

def kPollMask : Nat := 0x07
def kRumbleMask : Nat := 0x18

/-! ## joybus/protocol/protocol.hpp and reply.hpp -/

/-- The command byte of a frame (`joybus::Command`). -/
inductive Command where
  | Id | Status | Origin | Recalibrate | Reset | Invalid
deriving DecidableEq

/-- The wire value of a command. -/
def Command.toByte : Command → Nat
  | .Id => 0x00
  | .Status => 0x40
  | .Origin => 0x41
  | .Recalibrate => 0x42
  | .Reset => 0xFF
  | .Invalid => 0xAA

def kMaxResponseSize : Nat := 10
def kIdResponseSize : Nat := 3
def kOriginResponseSize : Nat := 10
def kStatusResponseSize : Nat := 8

/-- The reply buffer (`JoybusReply`): command, length and ten bytes. -/
structure JoybusReply where
  command : Command := Command.Invalid
  length : Nat := 0
  bytes : List Nat := List.replicate kMaxResponseSize 0
deriving DecidableEq

/-- The constructor `JoybusReply(Command, const std::array<uint8_t, N>&)`:
the `N` bytes are copied to the front of the zeroed buffer. -/
def JoybusReply.ofArray (cmd : Command) (src : List Nat) : JoybusReply :=
  { command := cmd
    length := src.length
    bytes := src ++ List.replicate (kMaxResponseSize - src.length) 0 }

/-- The read-only `view()`: the first `length` bytes. -/
def JoybusReply.view (r : JoybusReply) : List Nat := r.bytes.take r.length

/-- Bridge tree: `sanitize_poll_mode` (fallback `PollMode::Mode3`). -/
def sanitize_poll_mode (v : Nat) : PollMode :=
  if v ≤ PollMode.Mode4 then v else PollMode.Mode3

/-- Bridge tree: `sanitize_rumble_mode` (fallback `RumbleMode::Off`). -/
def sanitize_rumble_mode (v : Nat) : RumbleMode :=
  if v ≤ RumbleMode.Brake then v else RumbleMode.Off

namespace Measure

/-- Measure tree: `sanitize_poll_mode` (fallback `PollMode::Default`). -/
def sanitize_poll_mode (v : Nat) : PollMode :=
  if v ≤ PollMode.Mode4 then v else PollMode.Default

/-- Measure tree: `sanitize_rumble_mode`. -/
def sanitize_rumble_mode (v : Nat) : RumbleMode :=
  if v ≤ RumbleMode.Brake then v else RumbleMode.Off

/-- Measure tree: `clamp_poll_mode`. -/
def clamp_poll_mode (v : Nat) : Nat := if v ≤ 4 then v else 3

/-- Measure tree: `clamp_rumble_mode`. -/
def clamp_rumble_mode (v : Nat) : Nat := if v ≤ 2 then v else 0

end Measure

/-! ## util/endian.hpp (identical to the copies in joybus/codec/common.hpp) -/

/-- Reads two bytes as a little-endian `uint16_t`. -/
def read_u16_le (b : Nat × Nat) : Nat :=
  (b.1 % 65536 ||| (b.2 % 65536) <<< 8) % 65536

/-- Writes a `uint16_t` as two bytes, low byte first. -/
def write_u16_le (v : Nat) : Nat × Nat :=
  ((v &&& 0xFF) % 256, ((v >>> 8) &&& 0xFF) % 256)

/-! ## joybus/codec/report_wire.hpp -/

/-- Decodes the report flags of a status word. -/
def decode_report_from_status_word (byte2 : Nat × Nat) : PadReport :=
  let status_word := read_u16_le byte2
  { origin_sent := (status_word &&& StatusWordBits.OriginNotSent) == 0
    error_latched := (status_word &&& StatusWordBits.ErrorLatched) != 0
    error_last := (status_word &&& StatusWordBits.Always1) != 0
    use_controller_origin := (status_word &&& StatusWordBits.UseControllerOrigin) != 0 }

/-- Updates a report from byte 3 of an Id reply; `use_controller_origin` is not touched. -/
def update_report_from_id_byte3 (report : PadReport) (byte3 : Nat) : PadReport :=
  { report with
    origin_sent := (byte3 &&& IdByte3Bits.OriginNotSent) == 0
    error_latched := (byte3 &&& IdByte3Bits.ErrorLatched) != 0
    error_last := (byte3 &&& IdByte3Bits.ErrorLast) != 0 }

/-! ## joybus/codec/state_wire.hpp -/

def expand4bitTo8bit (value4bit : Nat) : Nat := ((value4bit &&& 0x0F) <<< 4) % 256

def shrink8bitTo4bit (value8bit : Nat) : Nat := (value8bit >>> 4) % 256

def pack4bitsToByte (high4bits low4bits : Nat) : Nat :=
  (((high4bits &&& 0x0F) <<< 4) ||| (low4bits &&& 0x0F)) % 256

/-- Extracts the buttons of a status word. -/
def decode_buttons_from_status_word (byte2 : Nat × Nat) : ButtonInput :=
  let status_word := read_u16_le byte2
  { a := (status_word &&& PadButton.A) != 0
    b := (status_word &&& PadButton.B) != 0
    x := (status_word &&& PadButton.X) != 0
    y := (status_word &&& PadButton.Y) != 0
    start := (status_word &&& PadButton.Start) != 0
    dpad_left := (status_word &&& PadButton.DpadLeft) != 0
    dpad_right := (status_word &&& PadButton.DpadRight) != 0
    dpad_down := (status_word &&& PadButton.DpadDown) != 0
    dpad_up := (status_word &&& PadButton.DpadUp) != 0
    z := (status_word &&& PadButton.Z) != 0
    r := (status_word &&& PadButton.R) != 0
    l := (status_word &&& PadButton.L) != 0 }

/-- The 16-bit value that `encode_to_status_word` accumulates before writing it out. -/
def status_word_of (state : PadState) : Nat :=
  let buttons := state.input.buttons
  let status_word := 0
  let status_word := status_word ||| (if buttons.a then PadButton.A else 0)
  let status_word := status_word ||| (if buttons.b then PadButton.B else 0)
  let status_word := status_word ||| (if buttons.x then PadButton.X else 0)
  let status_word := status_word ||| (if buttons.y then PadButton.Y else 0)
  let status_word := status_word ||| (if buttons.start then PadButton.Start else 0)
  let status_word := status_word ||| (if buttons.dpad_left then PadButton.DpadLeft else 0)
  let status_word := status_word ||| (if buttons.dpad_right then PadButton.DpadRight else 0)
  let status_word := status_word ||| (if buttons.dpad_down then PadButton.DpadDown else 0)
  let status_word := status_word ||| (if buttons.dpad_up then PadButton.DpadUp else 0)
  let status_word := status_word ||| (if buttons.z then PadButton.Z else 0)
  let status_word := status_word ||| (if buttons.r then PadButton.R else 0)
  let status_word := status_word ||| (if buttons.l then PadButton.L else 0)
  let report := state.report
  let status_word := status_word ||| (if report.origin_sent then 0 else StatusWordBits.OriginNotSent)
  let status_word := status_word ||| (if report.error_latched then StatusWordBits.ErrorLatched else 0)
  let status_word := status_word ||| StatusWordBits.Always1
  let status_word :=
    status_word ||| (if report.use_controller_origin then StatusWordBits.UseControllerOrigin else 0)
  status_word % 65536

/-- Writes the status word of a state as two bytes. -/
def encode_to_status_word (state : PadState) : Nat × Nat :=
  write_u16_le (status_word_of state)

/-- The first two bytes of a received span (`rx.first<2>()`). -/
def first2 (rx : List Nat) : Nat × Nat := (rx.getD 0 0, rx.getD 1 0)

/-- Decodes a Status reply for the given poll mode. -/
def decode_status (rx : List Nat) (poll_mode : PollMode) : PadState :=
  let report := decode_report_from_status_word (first2 rx)
  let buttons := decode_buttons_from_status_word (first2 rx)
  let an : AnalogInput := {}
  let an := { an with stick_x := rx.getD 2 0, stick_y := rx.getD 3 0 }
  let an : AnalogInput :=
    match poll_mode with
    | 0 => { an with
        c_stick_x := rx.getD 4 0
        c_stick_y := rx.getD 5 0
        l_analog := expand4bitTo8bit ((rx.getD 6 0 >>> 4) &&& 0x0F)
        r_analog := expand4bitTo8bit (rx.getD 6 0 &&& 0x0F)
        a_analog := expand4bitTo8bit ((rx.getD 7 0 >>> 4) &&& 0x0F)
        b_analog := expand4bitTo8bit (rx.getD 7 0 &&& 0x0F) }
    | 1 => { an with
        c_stick_x := expand4bitTo8bit ((rx.getD 4 0 >>> 4) &&& 0x0F)
        c_stick_y := expand4bitTo8bit (rx.getD 4 0 &&& 0x0F)
        l_analog := rx.getD 5 0
        r_analog := rx.getD 6 0
        a_analog := expand4bitTo8bit ((rx.getD 7 0 >>> 4) &&& 0x0F)
        b_analog := expand4bitTo8bit (rx.getD 7 0 &&& 0x0F) }
    | 2 => { an with
        c_stick_x := expand4bitTo8bit ((rx.getD 4 0 >>> 4) &&& 0x0F)
        c_stick_y := expand4bitTo8bit (rx.getD 4 0 &&& 0x0F)
        l_analog := expand4bitTo8bit ((rx.getD 5 0 >>> 4) &&& 0x0F)
        r_analog := expand4bitTo8bit (rx.getD 5 0 &&& 0x0F)
        a_analog := rx.getD 6 0
        b_analog := rx.getD 7 0 }
    | 3 => { an with
        c_stick_x := rx.getD 4 0
        c_stick_y := rx.getD 5 0
        l_analog := rx.getD 6 0
        r_analog := rx.getD 7 0 }
    | 4 => { an with
        c_stick_x := rx.getD 4 0
        c_stick_y := rx.getD 5 0
        a_analog := rx.getD 6 0
        b_analog := rx.getD 7 0 }
    | _ => an
  { report := report, input := { buttons := buttons, analog := an } }

/-- The eight bytes that `encode_status` hands to the reply constructor. -/
def encode_status_bytes (state : PadState) (poll_mode : PollMode) : List Nat :=
  let w := encode_to_status_word state
  let an := state.input.analog
  let body : List Nat :=
    match poll_mode with
    | 0 => [an.c_stick_x, an.c_stick_y,
            pack4bitsToByte (shrink8bitTo4bit an.l_analog) (shrink8bitTo4bit an.r_analog),
            pack4bitsToByte (shrink8bitTo4bit an.a_analog) (shrink8bitTo4bit an.b_analog)]
    | 1 => [pack4bitsToByte (shrink8bitTo4bit an.c_stick_x) (shrink8bitTo4bit an.c_stick_y),
            an.l_analog, an.r_analog,
            pack4bitsToByte (shrink8bitTo4bit an.a_analog) (shrink8bitTo4bit an.b_analog)]
    | 2 => [pack4bitsToByte (shrink8bitTo4bit an.c_stick_x) (shrink8bitTo4bit an.c_stick_y),
            pack4bitsToByte (shrink8bitTo4bit an.l_analog) (shrink8bitTo4bit an.r_analog),
            an.a_analog, an.b_analog]
    | 3 => [an.c_stick_x, an.c_stick_y, an.l_analog, an.r_analog]
    | 4 => [an.c_stick_x, an.c_stick_y, an.a_analog, an.b_analog]
    | _ => [0, 0, 0, 0]
  [w.1, w.2, an.stick_x, an.stick_y] ++ body

/-- Encodes a state as a Status reply for the given poll mode. -/
def encode_status (state : PadState) (poll_mode : PollMode) : JoybusReply :=
  JoybusReply.ofArray Command.Status (encode_status_bytes state poll_mode)

/-- Decodes an Origin reply (ten bytes, all axes in 8 bits). -/
def decode_origin (rx : List Nat) : PadState :=
  { report := decode_report_from_status_word (first2 rx)
    input :=
      { buttons := decode_buttons_from_status_word (first2 rx)
        analog :=
          { stick_x := rx.getD 2 0
            stick_y := rx.getD 3 0
            c_stick_x := rx.getD 4 0
            c_stick_y := rx.getD 5 0
            l_analog := rx.getD 6 0
            r_analog := rx.getD 7 0
            a_analog := rx.getD 8 0
            b_analog := rx.getD 9 0 } } }

/-- Decodes a Recalibrate reply, which shares the Origin layout. -/
def decode_recalibrate (rx : List Nat) : PadState := decode_origin rx

/-- The ten bytes of an Origin or Recalibrate reply. -/
def encode_origin_byte (state : PadState) : List Nat :=
  let w := encode_to_status_word state
  let an := state.input.analog
  [w.1, w.2, an.stick_x, an.stick_y, an.c_stick_x, an.c_stick_y,
   an.l_analog, an.r_analog, an.a_analog, an.b_analog]

def encode_origin (state : PadState) : JoybusReply :=
  JoybusReply.ofArray Command.Origin (encode_origin_byte state)

def encode_recalibrate (state : PadState) : JoybusReply :=
  JoybusReply.ofArray Command.Recalibrate (encode_origin_byte state)

/-! ## joybus/codec/identity_wire.hpp (bridge tree) -/

/-- The capability word that `encode_identity_bytes` accumulates. -/
def device_capabilities_of (capabilities : PadIdentityCapabilities) : Nat :=
  let device_capabilities := 0
  let device_capabilities :=
    if capabilities.is_wireless then
      (device_capabilities ||| IdCapabilityBits.IsWireless) % 65536
    else device_capabilities
  let device_capabilities :=
    if capabilities.supports_wireless_receive then
      (device_capabilities ||| IdCapabilityBits.SupportsWirelessReceive) % 65536
    else device_capabilities
  let device_capabilities :=
    if !capabilities.rumble_available then
      (device_capabilities ||| IdCapabilityBits.RumbleNotAvailable) % 65536
    else device_capabilities
  let device_capabilities :=
    if capabilities.is_gamecube then
      (device_capabilities ||| IdCapabilityBits.IsGamecube) % 65536
    else device_capabilities
  let device_capabilities :=
    if capabilities.wireless_is_rf then
      (device_capabilities ||| IdCapabilityBits.WirelessTypeRf) % 65536
    else device_capabilities
  let device_capabilities :=
    if capabilities.wireless_state_fixed then
      (device_capabilities ||| IdCapabilityBits.WirelessStateFixed) % 65536
    else device_capabilities
  let device_capabilities :=
    if capabilities.is_standard_controller then
      (device_capabilities ||| IdCapabilityBits.IsStandardController) % 65536
    else device_capabilities
  device_capabilities

/-- The third byte that `encode_identity_bytes` accumulates from the three flags
and the two sanitized modes. -/
def runtime_flags_of (error_last error_latched origin_sent : Bool)
    (poll_mode rumble_mode : Nat) : Nat :=
  let runtime_flags := 0
  let runtime_flags :=
    if error_last then (runtime_flags ||| IdByte3Bits.ErrorLast) % 256 else runtime_flags
  let runtime_flags :=
    if error_latched then (runtime_flags ||| IdByte3Bits.ErrorLatched) % 256 else runtime_flags
  let runtime_flags :=
    if !origin_sent then (runtime_flags ||| IdByte3Bits.OriginNotSent) % 256 else runtime_flags
  let runtime_flags := (runtime_flags ||| ((rumble_mode <<< 3) &&& kRumbleMask)) % 256
  let runtime_flags := (runtime_flags ||| (poll_mode &&& kPollMask)) % 256
  runtime_flags

/-- The three bytes of an Id or Reset reply. -/
def encode_identity_bytes (id : PadIdentity) : List Nat :=
  let device_capabilities := device_capabilities_of id.capabilities
  let runtime := id.runtime
  let poll_mode := sanitize_poll_mode (runtime.poll_mode % 256)
  let rumble_mode := sanitize_rumble_mode (runtime.rumble_mode % 256)
  let runtime_flags :=
    runtime_flags_of runtime.report.error_last runtime.report.error_latched
      runtime.report.origin_sent poll_mode rumble_mode
  let w := write_u16_le device_capabilities
  [w.1, w.2, runtime_flags]

def encode_identity (id : PadIdentity) : JoybusReply :=
  JoybusReply.ofArray Command.Id (encode_identity_bytes id)

/-- A Reset reply has the Id format. -/
def encode_reset_as_id (id : PadIdentity) : JoybusReply :=
  JoybusReply.ofArray Command.Reset (encode_identity_bytes id)

def update_capabilities_from_id_bytes (out : PadIdentity) (rx : List Nat) : PadIdentity :=
  let device_capabilities := read_u16_le (first2 rx)
  { out with
    capabilities :=
      { out.capabilities with
        is_wireless := (device_capabilities &&& IdCapabilityBits.IsWireless) != 0
        supports_wireless_receive :=
          (device_capabilities &&& IdCapabilityBits.SupportsWirelessReceive) != 0
        rumble_available := (device_capabilities &&& IdCapabilityBits.RumbleNotAvailable) == 0
        is_gamecube := (device_capabilities &&& IdCapabilityBits.IsGamecube) != 0
        wireless_is_rf := (device_capabilities &&& IdCapabilityBits.WirelessTypeRf) != 0
        wireless_state_fixed := (device_capabilities &&& IdCapabilityBits.WirelessStateFixed) != 0
        is_standard_controller :=
          (device_capabilities &&& IdCapabilityBits.IsStandardController) != 0 } }

def update_runtime_from_id_byte3 (out : PadIdentity) (byte3 : Nat) : PadIdentity :=
  let runtime_flags := byte3
  { out with
    runtime :=
      { poll_mode := sanitize_poll_mode (runtime_flags &&& kPollMask)
        rumble_mode := sanitize_rumble_mode ((runtime_flags &&& kRumbleMask) >>> 3)
        report := update_report_from_id_byte3 out.runtime.report byte3 } }

def update_identity_from_id_bytes (out : PadIdentity) (rx : List Nat) : PadIdentity :=
  update_runtime_from_id_byte3 (update_capabilities_from_id_bytes out rx) (rx.getD 2 0)

/-! ## domain/transform/pipeline.hpp -/

/-- A pipeline stage: `func` is the function pointer (`none` for `nullptr`); the opaque
`user` context it is called with is captured inside the function. -/
structure Stage where
  func : Option (PadState → PadState) := none

def kMaxStages : Nat := 16

/-- The stage array, the stage count and the 32-bit enable mask of a `Pipeline`. -/
structure Pipeline where
  stages_ : List Stage := List.replicate kMaxStages {}
  stage_count_ : Nat := 0
  enable_mask_ : Nat := 0

/-- Registers a stage and enables it; returns whether it was accepted. -/
def Pipeline.add_stage (p : Pipeline) (stage : Stage) : Bool × Pipeline :=
  if stage.func.isNone then (false, p)
  else if p.stage_count_ ≥ kMaxStages then (false, p)
  else
    let index := p.stage_count_
    (true,
      { stages_ := p.stages_.set index stage
        stage_count_ := p.stage_count_ + 1
        enable_mask_ := (p.enable_mask_ ||| (1 <<< index) % 4294967296) % 4294967296 })

def Pipeline.size (p : Pipeline) : Nat := p.stage_count_

/-- Sets or clears the enable bit of a registered stage; other indices are ignored. -/
def Pipeline.set_stage_enabled (p : Pipeline) (index : Nat) (enable : Bool) : Pipeline :=
  if index ≥ p.stage_count_ then p
  else
    let bit := (1 <<< index) % 4294967296
    if enable then { p with enable_mask_ := (p.enable_mask_ ||| bit) % 4294967296 }
    else { p with enable_mask_ := (p.enable_mask_ &&& (bit ^^^ 0xFFFFFFFF)) % 4294967296 }

def Pipeline.is_stage_enabled (p : Pipeline) (index : Nat) : Bool :=
  if index ≥ p.stage_count_ then false
  else (p.enable_mask_ &&& (1 <<< index) % 4294967296) != 0

/-- One iteration of the loop of `apply_from_isr`. -/
def Pipeline.apply_step (p : Pipeline) (enabled : Nat) (state : PadState) (i : Nat) : PadState :=
  if (enabled &&& (1 <<< i) % 4294967296) == 0 then state
  else
    match (p.stages_.getD i {}).func with
    | none => state
    | some f => f state

/-- Runs the enabled stages over the state, index by index. -/
def Pipeline.apply_from_isr (p : Pipeline) (state : PadState) : PadState :=
  let enabled := p.enable_mask_
  (List.range p.stage_count_).foldl (p.apply_step enabled) state

/-- A run of `add_stage` calls that all return true, from the given pipeline on. -/
def Pipeline.add_stages (p : Pipeline) : List Stage → Option Pipeline
  | [] => some p
  | stage :: rest =>
    match p.add_stage stage with
    | (true, q) => q.add_stages rest
    | (false, _) => none

/-- A run of `set_stage_enabled` calls. -/
def Pipeline.set_stages_enabled (p : Pipeline) (calls : List (Nat × Bool)) : Pipeline :=
  calls.foldl (fun q call => q.set_stage_enabled call.1 call.2) p

/-! ## domain/transform/builtins.hpp and correction.hpp -/

/-- Pins the sticks and triggers to their neutral values. -/
def fix_origin_to_neutral (state : PadState) : PadState :=
  { state with
    input := { state.input with
      analog := { state.input.analog with
        stick_x := kAxisCenter, stick_y := kAxisCenter
        c_stick_x := kAxisCenter, c_stick_y := kAxisCenter
        l_analog := kTriggerReleased, r_analog := kTriggerReleased } } }

def kCos8Q15 : Int := 30274
def kSin8Q15 : Int := 12540
def kApothem125Q15 : Int := 125 * kCos8Q15
def kCenter : Int := 128

/-- The function `std::clamp` on `int32_t`. -/
def clamp (v lo hi : Int) : Int := if v < lo then lo else if hi < v then hi else v

/-- The largest of the four half-plane magnitudes, as `octagon_clamp` computes it. -/
def octagon_max_abs (px py : Int) : Int :=
  let c0 := kCos8Q15 * px + kSin8Q15 * py
  let c1 := kCos8Q15 * px - kSin8Q15 * py
  let c2 := kSin8Q15 * px + kCos8Q15 * py
  let c3 := kSin8Q15 * px - kCos8Q15 * py
  let abs_c0 := if c0 < 0 then -c0 else c0
  let abs_c1 := if c1 < 0 then -c1 else c1
  let abs_c2 := if c2 < 0 then -c2 else c2
  let abs_c3 := if c3 < 0 then -c3 else c3
  let max_abs := abs_c0
  let max_abs := if abs_c1 > max_abs then abs_c1 else max_abs
  let max_abs := if abs_c2 > max_abs then abs_c2 else max_abs
  let max_abs := if abs_c3 > max_abs then abs_c3 else max_abs
  max_abs

/-- The stick coordinates that `octagon_clamp` leaves in the state. All intermediate
values stay below 2^31 in magnitude for coordinates in 0..255, so `int32_t` arithmetic
is integer arithmetic here; `/` on `int32_t` truncates toward zero. -/
def octagon_clamp_axes (stick_x stick_y : Nat) : Nat × Nat :=
  let px : Int := (stick_x : Int) - kCenter
  let py : Int := (stick_y : Int) - kCenter
  if px = 0 ∧ py = 0 then (stick_x, stick_y)
  else
    let max_abs := octagon_max_abs px py
    if max_abs ≤ kApothem125Q15 then (stick_x, stick_y)
    else
      let new_px := Int.tdiv (px * kApothem125Q15) max_abs
      let new_py := Int.tdiv (py * kApothem125Q15) max_abs
      ((clamp (new_px + kCenter) 0 255).toNat % 256, (clamp (new_py + kCenter) 0 255).toNat % 256)

/-- Radial clamp of the main stick onto the octagon of apothem 125. -/
def octagon_clamp (state : PadState) : PadState :=
  let r := octagon_clamp_axes state.input.analog.stick_x state.input.analog.stick_y
  { state with
    input := { state.input with
      analog := { state.input.analog with stick_x := r.1, stick_y := r.2 } } }

/-- The multiply-and-shift of `linear_scale` on a centred coordinate. -/
def scale_centred (p : Int) : Int :=
  if p ≥ 0 then ((p * 4 + 2) * 13108) >>> 16 else -((((-p) * 4 + 2) * 13108) >>> 16)

/-- The value `linear_scale` leaves in one stick axis. -/
def linear_scale_axis (stick : Nat) : Nat :=
  let p : Int := (stick : Int) - kCenter
  let r := scale_centred p
  (clamp (r + kCenter) 0 255).toNat % 256

/-- Linear scaling of the main stick by 4/5 about the centre. -/
def linear_scale (state : PadState) : PadState :=
  { state with
    input := { state.input with
      analog := { state.input.analog with
        stick_x := linear_scale_axis state.input.analog.stick_x
        stick_y := linear_scale_axis state.input.analog.stick_y } } }

/-- The stored neutral position of the stick (`OriginOffsetContext`): two bytes. -/
structure OriginOffsetContext where
  origin_x : Nat := kAxisCenter
  origin_y : Nat := kAxisCenter
deriving DecidableEq

/-- Subtracts the stored neutral offset so that the stick centre sits at (128, 128). -/
def origin_normalize (ctx : OriginOffsetContext) (state : PadState) : PadState :=
  let ox : Int := (ctx.origin_x : Int)
  let oy : Int := (ctx.origin_y : Int)
  let x : Int := (state.input.analog.stick_x : Int) - ox + (kAxisCenter : Int)
  let y : Int := (state.input.analog.stick_y : Int) - oy + (kAxisCenter : Int)
  { state with
    input := { state.input with
      analog := { state.input.analog with
        stick_x := (clamp x 0 255).toNat % 256
        stick_y := (clamp y 0 255).toNat % 256 } } }

/-- Looks the stick position up in the inverse tables. The tables `kInverseLutX` and
`kInverseLutY` come from `inverse_lut_data.hpp`, which is not among the sources, so they
are parameters here: `uint8_t` tables indexed by two bytes. -/
def inverse_lut (kInverseLutX kInverseLutY : Nat → Nat → Nat) (state : PadState) : PadState :=
  let mx := state.input.analog.stick_x
  let my := state.input.analog.stick_y
  { state with
    input := { state.input with
      analog := { state.input.analog with
        stick_x := kInverseLutX mx my
        stick_y := kInverseLutY mx my } } }

/-! ## util/latch.hpp -/

/-- The double buffer `Latch<T>`: two slots and the index of the published one. The index
is a `uint8_t` that starts at 0 and is only ever xor-ed with 1. -/
structure Latch (α : Type) where
  buffer_0 : α
  buffer_1 : α
  index_ : Nat := 0

/-- A value-initialised latch: both slots hold the default value of the type. -/
def Latch.init {α : Type} (d : α) : Latch α := { buffer_0 := d, buffer_1 := d, index_ := 0 }

/-- Writes the other slot, then flips the index. -/
def Latch.publish {α : Type} (l : Latch α) (v : α) : Latch α :=
  let current := l.index_
  let next := (current ^^^ 1) % 256
  if next = 0 then { l with buffer_0 := v, index_ := next }
  else { l with buffer_1 := v, index_ := next }

/-- Returns the slot the index selects. -/
def Latch.load {α : Type} (l : Latch α) : α :=
  let current := l.index_
  if current = 0 then l.buffer_0 else l.buffer_1

/-! ## link/policy.hpp -/

/-- The poll mode used towards the pad. -/
def kPadPollModeForQuery : PollMode := PollMode.Mode3

/-! ## link/shared/shared_console.hpp -/

/-- The console-side intent (`ConsoleState`); `reset_count` is a `uint16_t`. -/
structure ConsoleState where
  poll_mode : PollMode := PollMode.Mode3
  rumble_mode : RumbleMode := RumbleMode.Off
  reset_count : Nat := 0
deriving DecidableEq

/-- The shadow state written by the console interrupt and the latch readers load from. -/
structure SharedConsole where
  shadow_ : ConsoleState := {}
  db_ : Latch ConsoleState := Latch.init {}

def SharedConsole.load (sc : SharedConsole) : ConsoleState := sc.db_.load

/-- Tracks the modes of a Status request and counts Reset requests. -/
def SharedConsole.on_request_isr (sc : SharedConsole) (rx : List Nat) : SharedConsole :=
  if rx.isEmpty then sc
  else
    let command := rx.getD 0 0
    if command = Command.Status.toByte then
      if rx.length ≥ 3 then
        let poll := sanitize_poll_mode (rx.getD 1 0)
        let rumble := sanitize_rumble_mode (rx.getD 2 0)
        if poll ≠ sc.shadow_.poll_mode ∨ rumble ≠ sc.shadow_.rumble_mode then
          let shadow := { sc.shadow_ with poll_mode := poll, rumble_mode := rumble }
          { shadow_ := shadow, db_ := sc.db_.publish shadow }
        else sc
      else sc
    else if command = Command.Reset.toByte then
      let shadow := { sc.shadow_ with reset_count := (sc.shadow_.reset_count + 1) % 65536 }
      { shadow_ := shadow, db_ := sc.db_.publish shadow }
    else sc

/-! ## link/shared/shared_pad.hpp (bridge tree) and shared_pad_hub.hpp (measure tree, the
only copy among the sources; both trees use the hub through the same three operations) -/

/-- The latest decoded pad replies (`PadSnapshot`); `publish_count` is a `uint32_t` and
`last_rx_command` the byte of a `joybus::Command`. -/
structure PadSnapshot where
  publish_count : Nat := 0
  last_rx_command : Nat := Command.Id.toByte
  identity : PadIdentity := {}
  status : PadState := {}
  origin : PadState := {}
deriving DecidableEq

/-- The shadow snapshot written by the pad interrupt and the latch readers load from. -/
structure SharedPad where
  shadow_ : PadSnapshot := {}
  latch_ : Latch PadSnapshot := Latch.init {}

def SharedPad.load (sp : SharedPad) : PadSnapshot := sp.latch_.load

/-- Records a pad reply: decodes it by command when the length matches, then counts and
publishes it. The command arrives as the byte of a `joybus::Command`. -/
def SharedPad.on_response_isr (sp : SharedPad) (command : Nat) (rx : List Nat) : SharedPad :=
  let decoded : Option PadSnapshot :=
    if command = Command.Status.toByte then
      if rx.length ≠ kStatusResponseSize then none
      else
        let decoded := decode_status rx kPadPollModeForQuery
        some { sp.shadow_ with
          status := { sp.shadow_.status with report := decoded.report, input := decoded.input } }
    else if command = Command.Origin.toByte ∨ command = Command.Recalibrate.toByte then
      if rx.length ≠ kOriginResponseSize then none
      else
        let decoded := decode_origin rx
        some { sp.shadow_ with
          origin := { sp.shadow_.origin with report := decoded.report, input := decoded.input } }
    else if command = Command.Id.toByte ∨ command = Command.Reset.toByte then
      if rx.length ≠ kIdResponseSize then none
      else some { sp.shadow_ with
        identity := update_identity_from_id_bytes sp.shadow_.identity rx }
    else none
  match decoded with
  | none => sp
  | some shadow =>
    let shadow :=
      { shadow with
        publish_count := (shadow.publish_count + 1) % 4294967296
        last_rx_command := command }
    { shadow_ := shadow, latch_ := sp.latch_.publish shadow }

/-- The last reply sent to the console, before and after the pipeline (`TxPair`). -/
structure TxPair where
  publish_count : Nat := 0
  raw_publish_count : Nat := 0
  raw : JoybusReply := {}
  modified : JoybusReply := {}
deriving DecidableEq

/-- The hub: the received side, the latch of the transmitted pair and its counter. -/
structure SharedPadHub where
  rx_ : SharedPad := {}
  tx_ : Latch TxPair := Latch.init {}
  tx_publish_count_ : Nat := 0

def SharedPadHub.on_pad_response_isr (hub : SharedPadHub) (command : Nat) (rx : List Nat) :
    SharedPadHub :=
  { hub with rx_ := hub.rx_.on_response_isr command rx }

def SharedPadHub.load_original_snapshot (hub : SharedPadHub) : PadSnapshot := hub.rx_.load

def SharedPadHub.publish_tx_from_isr (hub : SharedPadHub) (raw_publish_count : Nat)
    (raw modified : JoybusReply) : SharedPadHub :=
  let count := (hub.tx_publish_count_ + 1) % 4294967296
  let p : TxPair :=
    { publish_count := count, raw_publish_count := raw_publish_count
      raw := raw, modified := modified }
  { hub with tx_publish_count_ := count, tx_ := hub.tx_.publish p }

def SharedPadHub.load_last_tx (hub : SharedPadHub) : TxPair := hub.tx_.load

/-- Returns the current pair and records its count when it differs from the one last seen. -/
def SharedPadHub.consume_tx_if_new (hub : SharedPadHub) (last_publish_count : Nat)
    (out : TxPair) : Bool × Nat × TxPair :=
  let current := hub.tx_.load
  if current.publish_count ≠ last_publish_count then (true, current.publish_count, current)
  else (false, last_publish_count, out)

/-- The pipelines bundled per command (`PipelineSet`). -/
structure PipelineSet where
  status : Pipeline := {}
  origin : Pipeline := {}
  recalibrate : Pipeline := {}
  id : Pipeline := {}
  reset : Pipeline := {}

/-! ## link/pad_console_link.hpp (bridge tree) -/

/-- The pad connection state as the console side sees it. -/
inductive PadConnectionState where
  | Disconnected | Booting | Ready
deriving DecidableEq

/-- The state shared by the pad-side and console-side clients; the three epochs
are `uint32_t` counters. -/
structure PadConsoleLink where
  pad_state_ : PadConnectionState := PadConnectionState.Disconnected
  reset_epoch_ : Nat := 0
  origin_epoch_ : Nat := 0
  recalibrate_epoch_ : Nat := 0
  real_pad_hub_ : SharedPadHub := {}
  shared_console_ : SharedConsole := {}
  pipelines_ : PipelineSet := {}

namespace PadConsoleLink

def publish_pad_state_from_main (link : PadConsoleLink) (state : PadConnectionState) :
    PadConsoleLink :=
  { link with pad_state_ := state }

def load_pad_state (link : PadConsoleLink) : PadConnectionState := link.pad_state_

def is_pad_ready (link : PadConsoleLink) : Bool :=
  link.load_pad_state == PadConnectionState.Ready

def publish_pad_reset_request_from_isr (link : PadConsoleLink) : PadConsoleLink :=
  { link with reset_epoch_ := (link.reset_epoch_ + 1) % 4294967296 }

def publish_pad_origin_request_from_isr (link : PadConsoleLink) : PadConsoleLink :=
  { link with origin_epoch_ := (link.origin_epoch_ + 1) % 4294967296 }

def publish_pad_recalibrate_request_from_isr (link : PadConsoleLink) : PadConsoleLink :=
  { link with recalibrate_epoch_ := (link.recalibrate_epoch_ + 1) % 4294967296 }

def load_reset_epoch (link : PadConsoleLink) : Nat := link.reset_epoch_

def load_origin_epoch (link : PadConsoleLink) : Nat := link.origin_epoch_

def load_recalibrate_epoch (link : PadConsoleLink) : Nat := link.recalibrate_epoch_

/-- Returns whether a Reset request is pending, and the epoch to remember. -/
def consume_pad_reset_request (link : PadConsoleLink) (last_reset_epoch : Nat) : Bool × Nat :=
  let cur := link.load_reset_epoch
  if cur = last_reset_epoch then (false, last_reset_epoch) else (true, cur)

def consume_pad_origin_request (link : PadConsoleLink) (last_origin_epoch : Nat) : Bool × Nat :=
  let cur := link.load_origin_epoch
  if cur = last_origin_epoch then (false, last_origin_epoch) else (true, cur)

def consume_pad_recalibrate_request (link : PadConsoleLink) (last_recalibrate_epoch : Nat) :
    Bool × Nat :=
  let cur := link.load_recalibrate_epoch
  if cur = last_recalibrate_epoch then (false, last_recalibrate_epoch) else (true, cur)

end PadConsoleLink

/-! ## link/console_client.cpp -/

/-- Copies the reply into the transmit buffer when it fits; returns the number of bytes
written and the buffer. The buffer is the list `tx`, its capacity `tx_max` the length. -/
def ConsoleClient.write_tx (reply : JoybusReply) (tx : List Nat) : Nat × List Nat :=
  let view := reply.view
  let length := view.length
  if length = 0 ∨ tx.length < length then (0, tx)
  else (length, view ++ tx.drop length)

/-- What the switch of `ConsoleClient::callback` produces for a command byte: the link
after the epoch publication, the raw reply and the reply after the pipeline; `none` for
the default case. -/
def ConsoleClient.build_replies (link : PadConsoleLink) (cmd : Nat)
    (original_snapshot : PadSnapshot) (host_poll_mode : PollMode)
    (host_rumble_mode : RumbleMode) : Option (PadConsoleLink × JoybusReply × JoybusReply) :=
  let pipelines := link.pipelines_
  if cmd = Command.Status.toByte then
    let original_state := original_snapshot.status
    let original_reply := encode_status original_state host_poll_mode
    let modified_state := pipelines.status.apply_from_isr original_state
    let modified_reply := encode_status modified_state host_poll_mode
    some (link, original_reply, modified_reply)
  else if cmd = Command.Origin.toByte then
    let link := link.publish_pad_origin_request_from_isr
    let original_state := original_snapshot.origin
    let original_reply := encode_origin original_state
    let modified_state := pipelines.origin.apply_from_isr original_state
    let modified_reply := encode_origin modified_state
    some (link, original_reply, modified_reply)
  else if cmd = Command.Recalibrate.toByte then
    let link := link.publish_pad_recalibrate_request_from_isr
    let original_state := original_snapshot.origin
    let original_reply := encode_recalibrate original_state
    let modified_state := pipelines.recalibrate.apply_from_isr original_state
    let modified_reply := encode_recalibrate modified_state
    some (link, original_reply, modified_reply)
  else if cmd = Command.Id.toByte then
    let identity := original_snapshot.identity
    let identity : PadIdentity :=
      { identity with
        runtime := { identity.runtime with
          poll_mode := host_poll_mode, rumble_mode := host_rumble_mode } }
    let original_reply := encode_identity identity
    some (link, original_reply, original_reply)
  else if cmd = Command.Reset.toByte then
    let link := link.publish_pad_reset_request_from_isr
    let identity := original_snapshot.identity
    let identity : PadIdentity :=
      { identity with
        runtime := { identity.runtime with
          poll_mode := host_poll_mode, rumble_mode := host_rumble_mode } }
    let original_reply := encode_reset_as_id identity
    some (link, original_reply, original_reply)
  else none

/-- The console-side responder: returns the number of reply bytes, the transmit buffer
and the link after the call. The received frame is `rx`, its length `rx_len`. -/
def ConsoleClient.callback (link : PadConsoleLink) (rx : List Nat) (tx : List Nat) :
    Nat × List Nat × PadConsoleLink :=
  if rx.length < 1 then (0, tx, link)
  else
    let link := { link with shared_console_ := link.shared_console_.on_request_isr rx }
    if !link.is_pad_ready then (0, tx, link)
    else
      let original_snapshot := link.real_pad_hub_.load_original_snapshot
      let cmd := rx.getD 0 0
      let host_console := link.shared_console_.load
      let host_poll_mode := host_console.poll_mode
      let host_rumble_mode := host_console.rumble_mode
      match ConsoleClient.build_replies link cmd original_snapshot host_poll_mode
          host_rumble_mode with
      | none => (0, tx, link)
      | some (link, original_reply, modified_reply) =>
        if original_reply.view.isEmpty then (0, tx, link)
        else
          let written := ConsoleClient.write_tx modified_reply tx
          let tx_len := written.1
          if tx_len = 0 then (0, written.2, link)
          else
            let link :=
              { link with
                real_pad_hub_ :=
                  link.real_pad_hub_.publish_tx_from_isr original_snapshot.publish_count
                    original_reply modified_reply }
            (tx_len, written.2, link)

/-! ## joybus/protocol/protocol.hpp: requests (measure tree) -/

def kRecalibrateResponseSize : Nat := kOriginResponseSize
def kResetResponseSize : Nat := kIdResponseSize

/-- Whether a command byte is one of Id, Status, Origin, Recalibrate, Reset. -/
def is_valid_command (command : Nat) : Bool :=
  command == Command.Id.toByte || command == Command.Status.toByte ||
  command == Command.Origin.toByte || command == Command.Recalibrate.toByte ||
  command == Command.Reset.toByte

/-- A request frame and the size of the reply it expects (`Request<N>`). -/
structure Request where
  tx : List Nat
  expected_rx_size : Nat
deriving DecidableEq

def Request.bytes (request : Request) : List Nat := request.tx

def Request.command (request : Request) : Nat := request.tx.getD 0 0

namespace Joybus

def Id : Request := { tx := [Command.Id.toByte], expected_rx_size := kIdResponseSize }

def Origin : Request :=
  { tx := [Command.Origin.toByte], expected_rx_size := kOriginResponseSize }

def Status (poll_mode : PollMode) (rumble_mode : RumbleMode) : Request :=
  { tx := [Command.Status.toByte, poll_mode, rumble_mode]
    expected_rx_size := kStatusResponseSize }

def Recalibrate : Request :=
  { tx := [Command.Recalibrate.toByte, 0x00, 0x00]
    expected_rx_size := kRecalibrateResponseSize }

def Reset : Request :=
  { tx := [Command.Reset.toByte], expected_rx_size := kResetResponseSize }

end Joybus

/-! ## link/pad_console_link.hpp and link/pad_client.hpp, pad_client.cpp (measure tree) -/

namespace Measure

/-- The link of the measure tree: the pad state, the reset epoch, the two hubs, the shared
console, the pipelines and the measurement switch with its epoch. -/
structure PadConsoleLink where
  pad_state_ : PadConnectionState := PadConnectionState.Disconnected
  reset_epoch_ : Nat := 0
  real_pad_hub_ : SharedPadHub := {}
  shared_console_ : SharedConsole := {}
  pipelines_ : PipelineSet := {}
  measure_pad_hub_ : SharedPadHub := {}
  measure_enabled_ : Nat := 0
  measure_epoch_ : Nat := 0

namespace PadConsoleLink

def publish_pad_state_from_main (link : PadConsoleLink) (state : PadConnectionState) :
    PadConsoleLink :=
  { link with pad_state_ := state }

def load_pad_state (link : PadConsoleLink) : PadConnectionState := link.pad_state_

def is_pad_ready (link : PadConsoleLink) : Bool :=
  link.load_pad_state == PadConnectionState.Ready

def publish_pad_reset_request_from_isr (link : PadConsoleLink) : PadConsoleLink :=
  { link with reset_epoch_ := (link.reset_epoch_ + 1) % 4294967296 }

def load_reset_epoch (link : PadConsoleLink) : Nat := link.reset_epoch_

/-- Returns whether a Reset request is pending, and the epoch to remember. -/
def consume_pad_reset_request (link : PadConsoleLink) (last_reset_epoch : Nat) : Bool × Nat :=
  let cur := link.load_reset_epoch
  if cur = last_reset_epoch then (false, last_reset_epoch) else (true, cur)

def is_measure_enabled (link : PadConsoleLink) : Bool := link.measure_enabled_ != 0

def active_pad_hub (link : PadConsoleLink) : SharedPadHub :=
  if link.is_measure_enabled then link.measure_pad_hub_ else link.real_pad_hub_

def enable_measure_from_main (link : PadConsoleLink) : PadConsoleLink :=
  { link with measure_enabled_ := 1, measure_epoch_ := (link.measure_epoch_ + 1) % 4294967296 }

def disable_measure_from_main (link : PadConsoleLink) : PadConsoleLink :=
  { link with measure_enabled_ := 0, measure_epoch_ := (link.measure_epoch_ + 1) % 4294967296 }

def load_measure_epoch (link : PadConsoleLink) : Nat := link.measure_epoch_

def consume_measure_epoch (link : PadConsoleLink) (last : Nat) : Bool × Nat :=
  let cur := link.load_measure_epoch
  if cur = last then (false, last) else (true, cur)

end PadConsoleLink

/-- The states of the pad-side protocol machine (`PadClient::State`). -/
inductive State where
  | Disconnected | Resetting | BootId | BootOrigin | BootRecalibrate | WarmStatus | Ready
deriving DecidableEq

def PAD_TIMEOUT_US : Nat := 100000
def BOOT_TIMEOUT_US : Nat := 30000
def STATUS_PERIOD_US : Nat := 0
def RETRY_DELAY_US : Nat := 0

/-- The fields of `PadClient` other than the link reference and the port; times, counts
and epochs are `uint32_t`, `await_command_` the byte of a `joybus::Command`. -/
structure PadClient where
  state_ : State := State.Disconnected
  await_publish_count_ : Nat := 0
  response_deadline_us_ : Nat := 0
  await_command_ : Nat := Command.Invalid.toByte
  last_seen_us_ : Nat := 0
  last_publish_count_ : Nat := 0
  last_reset_epoch_ : Nat := 0
  next_status_due_us_ : Nat := 0
deriving DecidableEq

namespace PadClient

/-- The constructor: the reset epoch of the link is taken as already handled. -/
def create (link : PadConsoleLink) : PadClient :=
  { last_reset_epoch_ := link.load_reset_epoch }

def load_reset_epoch_ (pc : PadClient) (link : PadConsoleLink) : PadClient :=
  { pc with last_reset_epoch_ := link.load_reset_epoch }

def awaiting_command_ (pc : PadClient) : Nat := pc.await_command_

def waiting_response_ (pc : PadClient) : Bool := is_valid_command pc.awaiting_command_

def abort_wait_ (pc : PadClient) : PadClient :=
  { pc with await_command_ := Command.Invalid.toByte, response_deadline_us_ := 0 }

/-- The wrap-safe deadline test `(int32_t)(now_us - deadline_us) >= 0` on `uint32_t`. -/
def is_timeout_reached (now_us deadline_us : Nat) : Bool :=
  decide ((((now_us : Int) - (deadline_us : Int)) % 4294967296) < 2147483648)

/-- Publishes the connection state that corresponds to the current state. -/
def publish_pad_state_to_link (pc : PadClient) (link : PadConsoleLink) : PadConsoleLink :=
  match pc.state_ with
  | State.Ready => link.publish_pad_state_from_main PadConnectionState.Ready
  | State.BootId | State.BootOrigin | State.BootRecalibrate | State.WarmStatus =>
    link.publish_pad_state_from_main PadConnectionState.Booting
  | State.Disconnected | State.Resetting =>
    link.publish_pad_state_from_main PadConnectionState.Disconnected

def enter_state_ (pc : PadClient) (link : PadConsoleLink) (next : State) :
    PadClient × PadConsoleLink :=
  let pc := { pc with state_ := next }
  let pc := pc.abort_wait_
  (pc, pc.publish_pad_state_to_link link)

end PadClient

end Measure

namespace Measure.PadClient

/-- Sends a request unless one is awaited. `send_ok` is what `send_now` of the port
returns; the result is the return value, the client and the frame handed to the port. -/
def send_request_ (pc : PadClient) (link : PadConsoleLink) (request : Request)
    (now_us timeout_us : Nat) (send_ok : Bool) : Bool × PadClient × Option (List Nat) :=
  if pc.waiting_response_ then (false, pc, none)
  else if request.bytes.isEmpty then (false, pc, none)
  else
    let pc :=
      { pc with
        response_deadline_us_ := (now_us + timeout_us) % 4294967296
        await_command_ := request.command }
    let bytes := request.bytes
    let before_publish_count := link.real_pad_hub_.load_original_snapshot.publish_count
    let pc := { pc with await_publish_count_ := before_publish_count }
    if !send_ok then (false, pc.abort_wait_, some bytes)
    else (true, pc, some bytes)

/-- Whether the awaited reply to `command` has arrived (the lambda `got` of `tick`). -/
def got (pc : PadClient) (pad_snapshot : PadSnapshot) (pad_has_response : Bool)
    (command : Nat) : Bool :=
  pc.waiting_response_ && (pc.awaiting_command_ == command) && pad_has_response &&
    (pad_snapshot.last_rx_command == command)

/-- First part of `tick`: liveness bookkeeping and the fall back to Disconnected. -/
def tick_liveness (pc : PadClient) (link : PadConsoleLink) (pad_snapshot : PadSnapshot)
    (now_us : Nat) : PadClient × PadConsoleLink :=
  let pc :=
    if pad_snapshot.publish_count ≠ pc.last_publish_count_ then
      { pc with last_publish_count_ := pad_snapshot.publish_count, last_seen_us_ := now_us }
    else pc
  let pad_alive :=
    (pc.last_seen_us_ != 0) &&
      !is_timeout_reached now_us ((pc.last_seen_us_ + PAD_TIMEOUT_US) % 4294967296)
  if !pad_alive && pc.state_ != State.Disconnected then
    let entered := pc.enter_state_ link State.Disconnected
    ({ entered.1 with next_status_due_us_ := 0 }, entered.2)
  else (pc, link)

/-- Second part of `tick`: a pending console Reset sends the client to Resetting. The
epoch is consumed whatever the state. -/
def tick_console_reset (pc : PadClient) (link : PadConsoleLink) : PadClient × PadConsoleLink :=
  let pending := link.consume_pad_reset_request pc.last_reset_epoch_
  let pc := { pc with last_reset_epoch_ := pending.2 }
  if pending.1 && pc.state_ != State.Disconnected && pc.state_ != State.Resetting then
    pc.enter_state_ link State.Resetting
  else (pc, link)

/-- The common shape of the boot cases of the switch: send the request when nothing is
awaited, advance when its reply has arrived, give up the wait on the deadline. -/
def tick_boot (pc : PadClient) (link : PadConsoleLink) (pad_snapshot : PadSnapshot)
    (pad_has_response : Bool) (now_us : Nat) (send_ok : Bool) (request : Request)
    (next : State) : PadClient × PadConsoleLink × Option (List Nat) :=
  if !pc.waiting_response_ then
    let sent := pc.send_request_ link request now_us BOOT_TIMEOUT_US send_ok
    (sent.2.1, link, sent.2.2)
  else if pc.got pad_snapshot pad_has_response request.command then
    let entered := pc.enter_state_ link next
    (entered.1, entered.2, none)
  else if is_timeout_reached now_us pc.response_deadline_us_ then
    (pc.abort_wait_, link, none)
  else (pc, link, none)

/-- Third part of `tick`: the switch over the state. -/
def tick_dispatch (pc : PadClient) (link : PadConsoleLink) (pad_snapshot : PadSnapshot)
    (now_us : Nat) (console : ConsoleState) (send_ok : Bool) :
    PadClient × PadConsoleLink × Option (List Nat) :=
  let pad_has_response : Bool := pad_snapshot.publish_count != pc.await_publish_count_
  match pc.state_ with
  | State.Disconnected =>
    tick_boot pc link pad_snapshot pad_has_response now_us send_ok Joybus.Id State.BootOrigin
  | State.Resetting =>
    if !pc.waiting_response_ then
      let sent := pc.send_request_ link Joybus.Reset now_us BOOT_TIMEOUT_US send_ok
      (sent.2.1, link, sent.2.2)
    else if pc.got pad_snapshot pad_has_response Command.Reset.toByte then
      let pc := pc.load_reset_epoch_ link
      let entered := pc.enter_state_ link State.BootId
      (entered.1, entered.2, none)
    else if is_timeout_reached now_us pc.response_deadline_us_ then
      (pc.abort_wait_, link, none)
    else (pc, link, none)
  | State.BootId =>
    tick_boot pc link pad_snapshot pad_has_response now_us send_ok Joybus.Id State.BootOrigin
  | State.BootOrigin =>
    tick_boot pc link pad_snapshot pad_has_response now_us send_ok Joybus.Origin
      State.BootRecalibrate
  | State.BootRecalibrate =>
    tick_boot pc link pad_snapshot pad_has_response now_us send_ok Joybus.Recalibrate
      State.WarmStatus
  | State.WarmStatus =>
    if !pc.waiting_response_ then
      let req := Joybus.Status kPadPollModeForQuery console.rumble_mode
      let sent := pc.send_request_ link req now_us BOOT_TIMEOUT_US send_ok
      (sent.2.1, link, sent.2.2)
    else if pc.got pad_snapshot pad_has_response Command.Status.toByte then
      let entered := pc.enter_state_ link State.Ready
      ({ entered.1 with next_status_due_us_ := (now_us + STATUS_PERIOD_US) % 4294967296 },
        entered.2, none)
    else if is_timeout_reached now_us pc.response_deadline_us_ then
      (pc.abort_wait_, link, none)
    else (pc, link, none)
  | State.Ready =>
    let pending := link.consume_pad_reset_request pc.last_reset_epoch_
    let pc := { pc with last_reset_epoch_ := pending.2 }
    if pending.1 then
      let entered := pc.enter_state_ link State.Resetting
      (entered.1, entered.2, none)
    else if pc.waiting_response_ then
      if pc.got pad_snapshot pad_has_response Command.Status.toByte then
        let pc := { pc with next_status_due_us_ := (now_us + STATUS_PERIOD_US) % 4294967296 }
        (pc.abort_wait_, link, none)
      else if is_timeout_reached now_us pc.response_deadline_us_ then
        let pc := { pc with next_status_due_us_ := (now_us + RETRY_DELAY_US) % 4294967296 }
        (pc.abort_wait_, link, none)
      else (pc, link, none)
    else if pc.next_status_due_us_ == 0 || is_timeout_reached now_us pc.next_status_due_us_ then
      let req := Joybus.Status kPadPollModeForQuery console.rumble_mode
      let sent := pc.send_request_ link req now_us BOOT_TIMEOUT_US send_ok
      if sent.1 then
        ({ sent.2.1 with next_status_due_us_ := (now_us + STATUS_PERIOD_US) % 4294967296 },
          link, sent.2.2)
      else
        ({ sent.2.1 with next_status_due_us_ := (now_us + RETRY_DELAY_US) % 4294967296 },
          link, sent.2.2)
    else (pc, link, none)

/-- One call of `tick`; the link is not written by anyone else while it runs. Returns the
client, the link and the frame handed to the port, if any. -/
def tick (pc : PadClient) (link : PadConsoleLink) (now_us : Nat) (console : ConsoleState)
    (send_ok : Bool) : PadClient × PadConsoleLink × Option (List Nat) :=
  let pad_snapshot := link.real_pad_hub_.load_original_snapshot
  let alive := pc.tick_liveness link pad_snapshot now_us
  let reset := alive.1.tick_console_reset alive.2
  reset.1.tick_dispatch reset.2 pad_snapshot now_us console send_ok

end Measure.PadClient

/-! ## measure/scheduler.hpp -/

namespace Measure

/-- The pattern scheduler (`Schedule`); `interval_us` and `next_due_us_` are `uint32_t`. -/
structure Schedule where
  interval_us : Nat := 16667
  catch_up : Bool := true
  armed_ : Bool := false
  next_due_us_ : Nat := 0
deriving DecidableEq

namespace Schedule

def reset (s : Schedule) : Schedule := { s with armed_ := false }

/-- The wrap-safe test `static_cast<int32_t>(now_us - due_us) >= 0` on `uint32_t`. -/
def has_passed_due (now_us due_us : Nat) : Bool :=
  decide ((((now_us : Int) - (due_us : Int)) % 4294967296) < 2147483648)

/-- Returns the number of intervals that have come due, and the schedule. -/
def poll_steps (s : Schedule) (now_us : Nat) : Nat × Schedule :=
  let interval := if s.interval_us = 0 then 1 else s.interval_us
  let s := if !s.armed_ then { s with armed_ := true, next_due_us_ := now_us } else s
  if !has_passed_due now_us s.next_due_us_ then (0, s)
  else
    let late := (((now_us : Int) - (s.next_due_us_ : Int)) % 4294967296).toNat
    let steps := 1
    if s.catch_up then
      let steps := (steps + late / interval) % 4294967296
      (steps, { s with next_due_us_ := (s.next_due_us_ + steps * interval) % 4294967296 })
    else
      (steps, { s with next_due_us_ := (now_us + interval) % 4294967296 })

end Schedule

end Measure

/-! ## util/latch.hpp, statement by statement -/

/-- The slot `buffer_[i]` of a latch. -/
def Latch.slot {α : Type} (l : Latch α) (i : Nat) : α :=
  if i = 0 then l.buffer_0 else l.buffer_1

/-- First half of `publish`: reads the index, computes `next = current ^ 1` and copies the
value into `buffer_[next]`; returns the latch and `next`. -/
def Latch.publish_copy {α : Type} (l : Latch α) (v : α) : Latch α × Nat :=
  let current := l.index_
  let next := (current ^^^ 1) % 256
  (if next = 0 then { l with buffer_0 := v } else { l with buffer_1 := v }, next)

/-- Second half of `publish`: stores `next` into the index. -/
def Latch.publish_flip {α : Type} (l : Latch α) (next : Nat) : Latch α :=
  { l with index_ := next }

/-- First half of `load`: reads the index. -/
def Latch.load_index {α : Type} (l : Latch α) : Nat := l.index_

/-- Second half of `load`: copies `buffer_[current]`. -/
def Latch.load_copy {α : Type} (l : Latch α) (current : Nat) : α := l.slot current

/-! ## link/pad_client.cpp: the pad-side interrupt callback -/

/-- The callback of the pad-side port (`PadClient::callback`): a reply is recorded under
the awaited command when one is awaited; the returned length is always 0, nothing is sent
back to the pad. -/
def Measure.PadClient.callback (pc : Measure.PadClient) (link : Measure.PadConsoleLink)
    (rx : List Nat) : Nat × Measure.PadConsoleLink :=
  let command := pc.await_command_
  if !is_valid_command command then (0, link)
  else (0, { link with real_pad_hub_ := link.real_pad_hub_.on_pad_response_isr command rx })

/-! ## main.cpp: the pipelines as set up -/

/-- The pipelines as `main` sets them up (main.cpp): the neutral pin for Origin and
Recalibrate; for Status the neutral pin followed by the four correction stages, which
start disabled. The origin context and the inverse tables are parameters. -/
def main_pipelines (ctx : OriginOffsetContext) (lut_x lut_y : Nat → Nat → Nat) : PipelineSet :=
  let origin := (({} : Pipeline).add_stage { func := some fix_origin_to_neutral }).2
  let recalibrate := (({} : Pipeline).add_stage { func := some fix_origin_to_neutral }).2
  let status := (({} : Pipeline).add_stage { func := some fix_origin_to_neutral }).2
  let status := (status.add_stage { func := some (origin_normalize ctx) }).2
  let status := (status.add_stage { func := some octagon_clamp }).2
  let status := (status.add_stage { func := some linear_scale }).2
  let status := (status.add_stage { func := some (inverse_lut lut_x lut_y) }).2
  let status := [1, 2, 3, 4].foldl (fun p i => p.set_stage_enabled i false) status
  { status := status, origin := origin, recalibrate := recalibrate }

/-! ## measure/seed.hpp -/

namespace Measure

/-- Which replies `seed_initial_responses` feeds (`SeedOptions`). -/
structure SeedOptions where
  status : Bool := true
  origin : Bool := true
  recalibrate : Bool := true
  id : Bool := true
  reset : Bool := true

/-- The method `PadInput::clear_buttons`. -/
def clear_buttons (input : PadInput) : PadInput := { input with buttons := {} }

/-- Modelled from the spec: `PadInput::set_analog_neutral` belongs to the measure tree's
domain/state.hpp, which is not among the sources. It is taken to put the sticks at the
centre 0x80 and the triggers and analog buttons at released 0x00, the neutral state that
seed.hpp notes to be the same as the initial values. -/
def set_analog_neutral (input : PadInput) : PadInput :=
  { input with
    analog :=
      { stick_x := kAxisCenter, stick_y := kAxisCenter
        c_stick_x := kAxisCenter, c_stick_y := kAxisCenter
        l_analog := kTriggerReleased, r_analog := kTriggerReleased
        a_analog := kAnalogButtonReleased, b_analog := kAnalogButtonReleased } }

def make_neutral_pad_state : PadState :=
  let state : PadState := {}
  let state := { state with input := clear_buttons state.input }
  let state := { state with input := set_analog_neutral state.input }
  { state with report := {} }

/-- The three bytes of an Id or Reset reply in the measure tree: the modes go through
`clamp_poll_mode` and `clamp_rumble_mode`. -/
def encode_identity_bytes (id : PadIdentity) : List Nat :=
  let device_capabilities := device_capabilities_of id.capabilities
  let runtime := id.runtime
  let poll_mode := clamp_poll_mode (runtime.poll_mode % 256)
  let rumble_mode := clamp_rumble_mode (runtime.rumble_mode % 256)
  let runtime_flags :=
    runtime_flags_of runtime.report.error_last runtime.report.error_latched
      runtime.report.origin_sent poll_mode rumble_mode
  let w := write_u16_le device_capabilities
  [w.1, w.2, runtime_flags]

def encode_identity (id : PadIdentity) : JoybusReply :=
  JoybusReply.ofArray Command.Id (encode_identity_bytes id)

def encode_reset_as_id (id : PadIdentity) : JoybusReply :=
  JoybusReply.ofArray Command.Reset (encode_identity_bytes id)

def make_default_pad_identity_from_console (console : ConsoleState) : PadIdentity :=
  let id : PadIdentity := {}
  { id with
    runtime := { id.runtime with
      poll_mode := console.poll_mode % 256
      rumble_mode := clamp_rumble_mode (console.rumble_mode % 256) } }

/-- Feeds a reply to a hub as if the pad had sent it. -/
def feed_reply_to_hub (hub : SharedPadHub) (reply : JoybusReply) : SharedPadHub :=
  if reply.command = Command.Invalid then hub
  else
    let view := reply.view
    if view.isEmpty then hub
    else hub.on_pad_response_isr reply.command.toByte view

/-- Seeds the measure hub with neutral replies. -/
def seed_initial_responses (link : PadConsoleLink) (console : ConsoleState)
    (options : SeedOptions) : PadConsoleLink :=
  let hub := link.measure_pad_hub_
  let neutral := make_neutral_pad_state
  let hub :=
    if options.status then feed_reply_to_hub hub (encode_status neutral console.poll_mode)
    else hub
  let hub := if options.origin then feed_reply_to_hub hub (encode_origin neutral) else hub
  let hub :=
    if options.recalibrate then feed_reply_to_hub hub (encode_recalibrate neutral) else hub
  let hub :=
    if options.id || options.reset then
      let id := make_default_pad_identity_from_console console
      let hub := if options.id then feed_reply_to_hub hub (encode_identity id) else hub
      if options.reset then feed_reply_to_hub hub (encode_reset_as_id id) else hub
    else hub
  { link with measure_pad_hub_ := hub }

end Measure

/-! ## measure/patterns/stick_grid_sweep.hpp -/

namespace Measure

/-- A range of `uint8_t` values (`Uint8bitRange`); the field `end` of the source is
written `end_`. -/
structure Uint8bitRange where
  begin : Nat := 0
  end_ : Nat := 255
  step : Nat := 1
deriving DecidableEq

/-- Number of elements of the range. -/
def count_range (range : Uint8bitRange) : Nat :=
  if range.step = 0 then 0
  else if range.begin > range.end_ then 0
  else
    let span := (range.end_ - range.begin) % 4294967296
    (span / range.step + 1) % 4294967296

/-- The axes a sweep drives (`StickGridSweep::Target`). -/
inductive StickGridSweep.Target where
  | Joystick
  | Cstick
  | Trigger
deriving DecidableEq

/-- Configuration of a sweep (`StickGridSweep::Config`). -/
structure StickGridSweep.Config where
  x : Uint8bitRange := {}
  y : Uint8bitRange := {}
  loop : Bool := true
  target : StickGridSweep.Target := StickGridSweep.Target.Joystick
  base : PadState := {}
  base_is_custom : Bool := false
deriving DecidableEq

/-- The members of `StickGridSweep`. -/
structure StickGridSweep where
  config_ : StickGridSweep.Config := {}
  x_count_ : Nat := 0
  y_count_ : Nat := 0
  total_ : Nat := 0
  index_ : Nat := 0
deriving DecidableEq

/-- The `uint32_t` quotient `a / b`; `none` when the divisor is zero, where the C++
expression has no defined value. -/
def checked_div (a b : Nat) : Option Nat := if b = 0 then none else some (a / b)

/-- The `uint32_t` remainder `a % b`; `none` when the divisor is zero. -/
def checked_mod (a b : Nat) : Option Nat := if b = 0 then none else some (a % b)

/-- The constructor `StickGridSweep::StickGridSweep`; `none` when it divides by zero. -/
def StickGridSweep.create (config : StickGridSweep.Config) : Option StickGridSweep :=
  let config :=
    if !config.base_is_custom then
      { config with
        base :=
          { input := set_analog_neutral (clear_buttons config.base.input)
            report := {} } }
    else config
  let x_count := count_range config.x
  let y_count := count_range config.y
  (checked_div 4294967295 x_count).map fun q =>
    { config_ := config
      x_count_ := x_count
      y_count_ := y_count
      total_ := if q < y_count then 4294967295 else (x_count * y_count) % 4294967296
      index_ := 0 }

def StickGridSweep.reset (sw : StickGridSweep) : StickGridSweep := { sw with index_ := 0 }

/-- The output index and the advanced sweep of one call: `none` on a division by zero,
`some none` where the call returns `false`. -/
def StickGridSweep.advance (sw : StickGridSweep) (steps : Nat) :
    Option (Option (Nat × StickGridSweep)) :=
  let out_index := (sw.index_ + (steps - 1)) % 4294967296
  if sw.config_.loop then
    (checked_mod out_index sw.total_).bind fun out_index =>
      (checked_mod ((sw.index_ + steps) % 4294967296) sw.total_).map fun index =>
        some (out_index, { sw with index_ := index })
  else if out_index ≥ sw.total_ then some none
  else some (some (out_index, { sw with index_ := (sw.index_ + steps) % 4294967296 }))

/-- Writes the two coordinates to the axes of the target. -/
def StickGridSweep.place (target : StickGridSweep.Target) (base : PadState) (x y : Nat) :
    PadState :=
  match target with
  | StickGridSweep.Target.Joystick =>
    { base with input := { base.input with
        analog := { base.input.analog with stick_x := x % 256, stick_y := y % 256 } } }
  | StickGridSweep.Target.Cstick =>
    { base with input := { base.input with
        analog := { base.input.analog with c_stick_x := x % 256, c_stick_y := y % 256 } } }
  | StickGridSweep.Target.Trigger =>
    { base with input := { base.input with
        analog := { base.input.analog with l_analog := x % 256, r_analog := y % 256 } } }

/-- The method `StickGridSweep::sample_and_advance`: the returned flag, the sweep after
the call and the output parameter; `none` when the call divides by zero. -/
def StickGridSweep.sample_and_advance (sw : StickGridSweep) (out : PadState) (steps : Nat) :
    Option (Bool × StickGridSweep × PadState) :=
  let steps := if steps = 0 then 1 else steps
  if sw.total_ = 0 then some (false, sw, out)
  else
    match sw.advance steps with
    | none => none
    | some none => some (false, sw, out)
    | some (some (out_index, sw)) =>
      (checked_mod out_index sw.x_count_).bind fun x_index =>
        (checked_div out_index sw.x_count_).map fun y_index =>
          let x := (sw.config_.x.begin + (x_index * sw.config_.x.step) % 4294967296) % 4294967296
          let y := (sw.config_.y.begin + (y_index * sw.config_.y.step) % 4294967296) % 4294967296
          (true, sw, StickGridSweep.place sw.config_.target sw.config_.base x y)

def StickGridSweep.total_steps (sw : StickGridSweep) : Nat := sw.total_

end Measure

/-! ## Reference descriptions used in the statements -/

/-- The latest enable setting of stage `i` after a run of `set_stage_enabled` calls: the
flag of the last call addressed to `i`, and enabled when there is none. -/
def latest_setting (calls : List (Nat × Bool)) (i : Nat) : Bool :=
  match (calls.filter (fun call => call.1 == i)).getLast? with
  | some call => call.2
  | none => true

/-- Applies one stage to a state. -/
def Stage.run (stage : Stage) (state : PadState) : PadState :=
  match stage.func with
  | none => state
  | some f => f state

/-- The composition, in ascending insertion index, of exactly the stages whose latest
enable setting is true. -/
def compose_enabled (stages : List Stage) (calls : List (Nat × Bool)) (state : PadState) :
    PadState :=
  (((List.range stages.length).filter (latest_setting calls)).map
    (fun i => stages.getD i {})).foldl (fun st stage => stage.run st) state

/-- The representation invariant of a pipeline holding the stages `fs`, stage `i`
being enabled exactly when `en i`: the count is the number of stages, at most 16 of them
sit at the front of the 16-slot array, and the mask has bit `i` set exactly for the
registered stages with `en i`. -/
def Pipeline.Holds (p : Pipeline) (fs : List Stage) (en : Nat → Bool) : Prop :=
  p.stage_count_ = fs.length ∧ fs.length ≤ 16 ∧ p.stages_.length = 16 ∧
  (∀ i, i < fs.length → p.stages_.getD i {} = fs.getD i {}) ∧
  (∀ i, p.enable_mask_.testBit i = (decide (i < fs.length) && en i))

/-- Three stages used to exercise the pipeline: the neutral pin, the octagon clamp and
the linear scale. -/
def sample_stages : List Stage :=
  [{ func := some fix_origin_to_neutral }, { func := some octagon_clamp },
   { func := some linear_scale }]

/-- The pipeline that three accepted `add_stage` calls leave behind. -/
def sample_pipeline : Pipeline :=
  { stages_ := sample_stages ++ List.replicate 13 {}
    stage_count_ := 3
    enable_mask_ := 7 }

/-- The largest of the four half-plane magnitudes of a centred point, for
c = 30274 and s = 12540. -/
def half_plane_max (px py : Int) : Int :=
  max (max |30274 * px + 12540 * py| |30274 * px - 12540 * py|)
      (max |12540 * px + 30274 * py| |12540 * px - 30274 * py|)

/-- A nibble pair as the mode table describes it: the high nibble of the first
axis over the high nibble of the second. -/
def nibble_pair (first second : Nat) : Nat := ((first >>> 4) <<< 4) ||| (second >>> 4)

/-- The value an axis has after a trip through a 4-bit field: its high nibble,
with a zero low nibble. -/
def high_nibble (v : Nat) : Nat := (v >>> 4) <<< 4

/-- A state with `error_last` cleared and the analog A/B buttons half pressed. -/
def sample_state : PadState :=
  { report := { origin_sent := false, error_latched := true, error_last := false,
                use_controller_origin := true }
    input := { buttons := { a := true, start := true, dpad_up := true, l := true }
               analog := { stick_x := 0x12, stick_y := 0xFE, c_stick_x := 0x9A, c_stick_y := 0x47,
                           l_analog := 0xAB, r_analog := 0x3C, a_analog := 0x55,
                           b_analog := 0x66 } } }

/-- An identity whose report asks for the controller origin, with non-default modes. -/
def sample_identity : PadIdentity :=
  { capabilities := { is_gamecube := true, is_standard_controller := false,
                      rumble_available := false, is_wireless := true,
                      supports_wireless_receive := false, wireless_is_rf := true,
                      wireless_state_fixed := false }
    runtime := { report := { origin_sent := false, error_latched := true, error_last := false,
                             use_controller_origin := true }
                 poll_mode := PollMode.Mode1, rumble_mode := RumbleMode.Brake } }

/-- A state with the main stick at `(x, y)` and everything else at its default. -/
def stick_at (x y : Nat) : PadState :=
  { input := { analog := { stick_x := x, stick_y := y } } }

/-- The state `t` differs from `s` at most in the two main stick axes, which lie in
0..255 in `t`: report flags, buttons, c-stick, triggers and analog buttons agree. -/
def stick_frame (s t : PadState) : Prop :=
  t.report = s.report ∧ t.input.buttons = s.input.buttons ∧
  t.input.analog.c_stick_x = s.input.analog.c_stick_x ∧
  t.input.analog.c_stick_y = s.input.analog.c_stick_y ∧
  t.input.analog.l_analog = s.input.analog.l_analog ∧
  t.input.analog.r_analog = s.input.analog.r_analog ∧
  t.input.analog.a_analog = s.input.analog.a_analog ∧
  t.input.analog.b_analog = s.input.analog.b_analog ∧
  t.input.analog.stick_x < 256 ∧ t.input.analog.stick_y < 256

instance (s t : PadState) : Decidable (stick_frame s t) := by
  unfold stick_frame; infer_instance

/-- A table with byte entries, used to exercise `inverse_lut`. -/
def sample_table (i j : Nat) : Nat := (3 * i + 5 * j + 7) % 256

/-- The shared console is consistent: the latch publishes the shadow state and the modes
lie in the closed enumerations. -/
def SharedConsole.Consistent (sc : SharedConsole) : Prop :=
  sc.load = sc.shadow_ ∧ sc.shadow_.poll_mode ≤ 4 ∧ sc.shadow_.rumble_mode ≤ 2

/-- The shared console after a sequence of console frames, starting from construction. -/
def SharedConsole.after (frames : List (List Nat)) : SharedConsole :=
  frames.foldl SharedConsole.on_request_isr {}

/-- The console state a frame leads to, as described: a Status frame of at least 3 bytes
sets both modes from bytes 1 and 2, a Reset frame adds 1 to the 16-bit reset count, every
other frame changes nothing. -/
def console_state_after (st : ConsoleState) (rx : List Nat) : ConsoleState :=
  if rx.head? = some 0x40 ∧ 3 ≤ rx.length then
    { st with
      poll_mode := sanitize_poll_mode (rx.getD 1 0)
      rumble_mode := sanitize_rumble_mode (rx.getD 2 0) }
  else if rx.head? = some 0xFF then
    { st with reset_count := (st.reset_count + 1) % 65536 }
  else st

/-- The shared pad after a sequence of pad replies (command byte and frame), starting
from construction. -/
def SharedPad.after (replies : List (Nat × List Nat)) : SharedPad :=
  replies.foldl (fun sp reply => sp.on_response_isr reply.1 reply.2) {}

/-- A pad reply is accepted: Status with exactly 8 bytes, Origin or Recalibrate with
exactly 10, Id or Reset with exactly 3. -/
def accepted_reply (cmd : Nat) (rx : List Nat) : Prop :=
  (cmd = 0x40 ∧ rx.length = 8) ∨ ((cmd = 0x41 ∨ cmd = 0x42) ∧ rx.length = 10) ∨
  ((cmd = 0x00 ∨ cmd = 0xFF) ∧ rx.length = 3)

instance (cmd : Nat) (rx : List Nat) : Decidable (accepted_reply cmd rx) := by
  unfold accepted_reply; infer_instance

/-- The snapshot an accepted reply leads to, as described: the count goes up by 1 in 32
bits, the command is recorded, and only the matching part is replaced by the decoded
frame; any other reply leaves the snapshot as it was. -/
def snapshot_after (snap : PadSnapshot) (cmd : Nat) (rx : List Nat) : PadSnapshot :=
  if cmd = 0x40 ∧ rx.length = 8 then
    { snap with
      publish_count := (snap.publish_count + 1) % 2 ^ 32, last_rx_command := cmd
      status := decode_status rx PollMode.Mode3 }
  else if (cmd = 0x41 ∨ cmd = 0x42) ∧ rx.length = 10 then
    { snap with
      publish_count := (snap.publish_count + 1) % 2 ^ 32, last_rx_command := cmd
      origin := decode_origin rx }
  else if (cmd = 0x00 ∨ cmd = 0xFF) ∧ rx.length = 3 then
    { snap with
      publish_count := (snap.publish_count + 1) % 2 ^ 32, last_rx_command := cmd
      identity := update_identity_from_id_bytes snap.identity rx }
  else snap

/-- A link whose pad is Ready, holding `sample_state` as the status part of the pad
snapshot and `sample_identity` as its identity, with the three sample stages in the
Status pipeline. -/
def sample_link : PadConsoleLink :=
  { pad_state_ := PadConnectionState.Ready
    reset_epoch_ := 4294967295
    origin_epoch_ := 7
    real_pad_hub_ :=
      { rx_ :=
          { shadow_ := { publish_count := 5, status := sample_state, identity := sample_identity }
            latch_ := Latch.init
              { publish_count := 5, status := sample_state, identity := sample_identity } } }
    pipelines_ := { status := sample_pipeline } }

/-- The identity `callback` encodes for an Id or Reset frame: the identity of the pad
snapshot with the poll and rumble modes of the console state. -/
def identity_for_console (snapshot : PadSnapshot) (console : ConsoleState) : PadIdentity :=
  { snapshot.identity with
    runtime := { snapshot.identity.runtime with
      poll_mode := console.poll_mode, rumble_mode := console.rumble_mode } }

/-- The connection state that goes with a client state: Ready for Ready, Booting for the
four boot states, Disconnected for Disconnected and Resetting. -/
def Measure.published_state : Measure.State → PadConnectionState
  | Measure.State.Ready => PadConnectionState.Ready
  | Measure.State.BootId => PadConnectionState.Booting
  | Measure.State.BootOrigin => PadConnectionState.Booting
  | Measure.State.BootRecalibrate => PadConnectionState.Booting
  | Measure.State.WarmStatus => PadConnectionState.Booting
  | Measure.State.Disconnected => PadConnectionState.Disconnected
  | Measure.State.Resetting => PadConnectionState.Disconnected

/-- What one tick sees: the time, the console state, the answer of the port to a send,
and the link as the interrupts and the rest of the main loop left it. Its pad state is
not read: only the client writes that field. -/
structure Measure.TickInput where
  now_us : Nat
  console : ConsoleState
  send_ok : Bool
  link_env : Measure.PadConsoleLink

/-- One tick on the link of the input, with the pad state the client published last. -/
def Measure.step (st : Measure.PadClient × Measure.PadConsoleLink) (inp : Measure.TickInput) :
    Measure.PadClient × Measure.PadConsoleLink :=
  ((st.1.tick { inp.link_env with pad_state_ := st.2.pad_state_ } inp.now_us inp.console
      inp.send_ok).1,
   (st.1.tick { inp.link_env with pad_state_ := st.2.pad_state_ } inp.now_us inp.console
      inp.send_ok).2.1)

/-- A client constructed on a link, followed by a sequence of ticks. -/
def Measure.run (link : Measure.PadConsoleLink) (inputs : List Measure.TickInput) :
    Measure.PadClient × Measure.PadConsoleLink :=
  inputs.foldl Measure.step (Measure.PadClient.create link, link)

/-- A link of the measure tree whose real hub has received the given pad replies. -/
def Measure.link_after (replies : List (Nat × List Nat)) : Measure.PadConsoleLink :=
  { real_pad_hub_ := { rx_ := SharedPad.after replies } }

/-- The pad replies of a boot: Id, Origin, Recalibrate, Status. -/
def sample_boot_replies : List (Nat × List Nat) :=
  [(0x00, [0x09, 0x00, 0x03]),
   (0x41, [0x00, 0x80, 0x80, 0x80, 0x80, 0x80, 0x00, 0x00, 0x00, 0x00]),
   (0x42, [0x00, 0x80, 0x80, 0x80, 0x80, 0x80, 0x00, 0x00, 0x00, 0x00]),
   (0x40, [0x00, 0x80, 0x80, 0x80, 0x80, 0x80, 0x00, 0x00])]

/-- Eight ticks of a boot: each request is sent on one tick and its reply is found on
the next. -/
def sample_boot_ticks : List Measure.TickInput :=
  [{ now_us := 1000, console := {}, send_ok := true, link_env := Measure.link_after [] },
   { now_us := 2000, console := {}, send_ok := true
     link_env := Measure.link_after (sample_boot_replies.take 1) },
   { now_us := 3000, console := {}, send_ok := true
     link_env := Measure.link_after (sample_boot_replies.take 1) },
   { now_us := 4000, console := {}, send_ok := true
     link_env := Measure.link_after (sample_boot_replies.take 2) },
   { now_us := 5000, console := {}, send_ok := true
     link_env := Measure.link_after (sample_boot_replies.take 2) },
   { now_us := 6000, console := {}, send_ok := true
     link_env := Measure.link_after (sample_boot_replies.take 3) },
   { now_us := 7000, console := {}, send_ok := true
     link_env := Measure.link_after (sample_boot_replies.take 3) },
   { now_us := 8000, console := {}, send_ok := true
     link_env := Measure.link_after (sample_boot_replies.take 4) }]

/-- The three console-to-pad request epochs of the link. -/
inductive EpochKind where
  | reset | origin | recalibrate
deriving DecidableEq

/-- The current value of the epoch of the given kind. -/
def PadConsoleLink.load_epoch (link : PadConsoleLink) : EpochKind → Nat
  | EpochKind.reset => link.load_reset_epoch
  | EpochKind.origin => link.load_origin_epoch
  | EpochKind.recalibrate => link.load_recalibrate_epoch

/-- The `publish_pad_*_request_from_isr` of the given kind. -/
def PadConsoleLink.publish_request (link : PadConsoleLink) : EpochKind → PadConsoleLink
  | EpochKind.reset => link.publish_pad_reset_request_from_isr
  | EpochKind.origin => link.publish_pad_origin_request_from_isr
  | EpochKind.recalibrate => link.publish_pad_recalibrate_request_from_isr

/-- The `consume_pad_*_request` of the given kind. -/
def PadConsoleLink.consume_request (link : PadConsoleLink) (kind : EpochKind)
    (last_seen : Nat) : Bool × Nat :=
  match kind with
  | EpochKind.reset => link.consume_pad_reset_request last_seen
  | EpochKind.origin => link.consume_pad_origin_request last_seen
  | EpochKind.recalibrate => link.consume_pad_recalibrate_request last_seen

/-- A call in a history of one epoch: a publish by the interrupt or a consume by the
main loop. -/
inductive EpochCall where
  | publish | consume
deriving DecidableEq

/-- A history in progress: the link, the consumer's last-seen value and the number of
consume calls that have returned true. -/
structure EpochRun where
  link : PadConsoleLink
  last_seen : Nat
  trues : Nat

/-- One call of a history. -/
def EpochRun.step (kind : EpochKind) (run : EpochRun) : EpochCall → EpochRun
  | EpochCall.publish => { run with link := run.link.publish_request kind }
  | EpochCall.consume =>
    { run with
      last_seen := (run.link.consume_request kind run.last_seen).2
      trues := run.trues + (if (run.link.consume_request kind run.last_seen).1 then 1 else 0) }

/-- A history that starts with last-seen equal to the epoch. -/
def epoch_history (kind : EpochKind) (link : PadConsoleLink) (calls : List EpochCall) :
    EpochRun :=
  calls.foldl (EpochRun.step kind) { link := link, last_seen := link.load_epoch kind, trues := 0 }

/-- A history in which a consume call follows every publish call before the next publish:
`lead` consume calls, then for each entry `m` of `gaps` one publish followed by `m + 1`
consume calls. -/
def separated_history (lead : Nat) (gaps : List Nat) : List EpochCall :=
  List.replicate lead EpochCall.consume ++
    (gaps.map (fun m => EpochCall.publish :: List.replicate (m + 1) EpochCall.consume)).flatten

/-- The latch after a sequence of publish calls, starting from value initialisation. -/
def Latch.after {α : Type} (d : α) (values : List α) : Latch α :=
  values.foldl Latch.publish (Latch.init d)

/-- The steps of one writer and one reader of a latch: the two halves of `publish` and
the two halves of `load`. -/
inductive LatchStep (α : Type) where
  | publish_copy (v : α)
  | publish_flip
  | load_index
  | load_copy

/-- An interleaving in progress. `writer` holds the `next` of a publish between its two
halves, `reader` the `current` of a load between its two halves. The other fields record
the history: the value of the last completed publish, the value being published, the
last completed value at the moment the load in progress began, the values copied into a
slot since it began, and for every finished load the value it returned together with
those two records. -/
structure LatchRun (α : Type) where
  latch : Latch α
  writer : Option Nat := none
  reader : Option Nat := none
  completed : α
  in_flight : Option α := none
  at_begin : α
  during : List α := []
  loads : List (α × α × List α) := []

/-- One step of an interleaving; a half that cannot come next for its thread (a second
half with no first half pending, a first half while one is pending) leaves the run as
it is. -/
def LatchRun.step {α : Type} (run : LatchRun α) : LatchStep α → LatchRun α
  | LatchStep.publish_copy v =>
    match run.writer with
    | some _ => run
    | none =>
      { run with
        latch := (run.latch.publish_copy v).1
        writer := some (run.latch.publish_copy v).2
        in_flight := some v
        during := v :: run.during }
  | LatchStep.publish_flip =>
    match run.writer, run.in_flight with
    | some next, some v =>
      { run with
        latch := run.latch.publish_flip next
        writer := none, in_flight := none, completed := v }
    | _, _ => run
  | LatchStep.load_index =>
    match run.reader with
    | some _ => run
    | none =>
      { run with
        reader := some run.latch.load_index
        at_begin := run.completed, during := [] }
  | LatchStep.load_copy =>
    match run.reader with
    | none => run
    | some current =>
      { run with
        reader := none
        loads := (run.latch.load_copy current, run.at_begin, run.during) :: run.loads }

/-- An interleaving from a value-initialised latch. -/
def LatchRun.after {α : Type} (d : α) (steps : List (LatchStep α)) : LatchRun α :=
  steps.foldl LatchRun.step { latch := Latch.init d, completed := d, at_begin := d }

/-- What holds of every interleaving in progress: the index is 0 or 1 and selects the slot
that holds the last completed value; a publish between its halves has copied its value
into the other slot; a load between its halves has read an index whose slot holds the
value completed when it began or one copied since; and every finished load returned the
value completed when it began or one copied while it ran. -/
def LatchRun.Sound {α : Type} (run : LatchRun α) : Prop :=
  (run.latch.index_ = 0 ∨ run.latch.index_ = 1) ∧
  run.latch.slot run.latch.index_ = run.completed ∧
  (∀ next, run.writer = some next →
    (next = 0 ∨ next = 1) ∧ next ≠ run.latch.index_ ∧
      run.in_flight = some (run.latch.slot next)) ∧
  (run.writer = none → run.in_flight = none) ∧
  (∀ current, run.reader = some current →
    (current = 0 ∨ current = 1) ∧
      (run.latch.slot current = run.at_begin ∨ run.latch.slot current ∈ run.during)) ∧
  (∀ entry ∈ run.loads, entry.1 = entry.2.1 ∨ entry.1 ∈ entry.2.2)

/-- A call on a pipeline: `add_stage` or `set_stage_enabled`. -/
inductive PipelineCall where
  | add_stage (stage : Stage)
  | set_stage_enabled (index : Nat) (enable : Bool)

/-- The pipeline after a sequence of calls, starting from construction. -/
def Pipeline.after (calls : List PipelineCall) : Pipeline :=
  calls.foldl
    (fun p call =>
      match call with
      | PipelineCall.add_stage stage => (p.add_stage stage).2
      | PipelineCall.set_stage_enabled index enable => p.set_stage_enabled index enable)
    {}

/-- The request a state of the client sends when it is not awaiting a reply. -/
def Measure.request_of (console : ConsoleState) : Measure.State → Request
  | Measure.State.Disconnected => Joybus.Id
  | Measure.State.Resetting => Joybus.Reset
  | Measure.State.BootId => Joybus.Id
  | Measure.State.BootOrigin => Joybus.Origin
  | Measure.State.BootRecalibrate => Joybus.Recalibrate
  | Measure.State.WarmStatus => Joybus.Status kPadPollModeForQuery console.rumble_mode
  | Measure.State.Ready => Joybus.Status kPadPollModeForQuery console.rumble_mode

/-- The state a boot state moves to when the reply to its request has arrived. -/
def Measure.next_of : Measure.State → Measure.State
  | Measure.State.Disconnected => Measure.State.BootOrigin
  | Measure.State.Resetting => Measure.State.BootId
  | Measure.State.BootId => Measure.State.BootOrigin
  | Measure.State.BootOrigin => Measure.State.BootRecalibrate
  | Measure.State.BootRecalibrate => Measure.State.WarmStatus
  | Measure.State.WarmStatus => Measure.State.Ready
  | Measure.State.Ready => Measure.State.Ready

/-- The pad answers the frame a tick has sent, if any, through the interrupt callback. -/
def Measure.answer (reply : List Nat → List Nat)
    (ticked : Measure.PadClient × Measure.PadConsoleLink × Option (List Nat)) :
    Measure.PadClient × Measure.PadConsoleLink :=
  match ticked.2.2 with
  | none => (ticked.1, ticked.2.1)
  | some frame => (ticked.1, (ticked.1.callback ticked.2.1 (reply frame)).2)

/-- One tick with a pad attached: every transmit succeeds and the pad answers the frame
sent, if any, before the next tick. -/
def Measure.boot_step (reply : List Nat → List Nat)
    (st : Measure.PadClient × Measure.PadConsoleLink) (inp : Nat × ConsoleState) :
    Measure.PadClient × Measure.PadConsoleLink :=
  Measure.answer reply (st.1.tick st.2 inp.1 inp.2 true)

/-- A freshly constructed client on a fresh link, taken through the given ticks. -/
def Measure.boot_run (reply : List Nat → List Nat) (inputs : List (Nat × ConsoleState)) :
    Measure.PadClient × Measure.PadConsoleLink :=
  inputs.foldl (Measure.boot_step reply) (Measure.PadClient.create {}, {})

/-- The first `n` ticks of a run with tick `k` at time `t k` under console state `c k`. -/
def Measure.ticks (t : Nat → Nat) (c : Nat → ConsoleState) (n : Nat) :
    List (Nat × ConsoleState) :=
  (List.range n).map (fun k => (t k, c k))

/-- Between ticks, no request awaited: the client is in state `s`, has seen `n` replies,
the last at time `seen`, and the link holds `n` replies and no pending Reset. -/
structure Measure.Idle (s : Measure.State) (n seen : Nat)
    (st : Measure.PadClient × Measure.PadConsoleLink) : Prop where
  state : st.1.state_ = s
  await : st.1.await_command_ = Command.Invalid.toByte
  last : st.1.last_publish_count_ = n
  seen : st.1.last_seen_us_ = seen
  epoch : st.2.reset_epoch_ = st.1.last_reset_epoch_
  shadow : st.2.real_pad_hub_.rx_.load = st.2.real_pad_hub_.rx_.shadow_
  count : st.2.real_pad_hub_.rx_.load.publish_count = n
  published : st.2.pad_state_ = Measure.published_state st.1.state_

/-- Between ticks, a request sent and answered: the client in state `s` awaits the reply
to `command`, sent when `n` replies had been received, and the link holds that reply. -/
structure Measure.Answered (s : Measure.State) (command n : Nat)
    (st : Measure.PadClient × Measure.PadConsoleLink) : Prop where
  state : st.1.state_ = s
  await : st.1.await_command_ = command
  await_count : st.1.await_publish_count_ = n
  last : st.1.last_publish_count_ = n
  epoch : st.2.reset_epoch_ = st.1.last_reset_epoch_
  shadow : st.2.real_pad_hub_.rx_.load = st.2.real_pad_hub_.rx_.shadow_
  count : st.2.real_pad_hub_.rx_.load.publish_count = n + 1
  command : st.2.real_pad_hub_.rx_.load.last_rx_command = command
  published : st.2.pad_state_ = Measure.published_state st.1.state_

/-- The replies of the boot scenario, by the first byte of the request: Id, then Origin
and Recalibrate with every axis at 0x80, then Status. -/
def boot_reply (frame : List Nat) : List Nat :=
  if frame.head? = some 0x00 then [0x09, 0x00, 0x03]
  else if frame.head? = some 0x41 ∨ frame.head? = some 0x42 then
    [0x00, 0x80, 0x80, 0x80, 0x80, 0x80, 0x80, 0x80, 0x80, 0x80]
  else if frame.head? = some 0x40 then [0x80, 0x80, 0x80, 0x80, 0x80, 0x80, 0x00, 0x00]
  else []

/-- The tick times of the sample boot: one tick every millisecond, the first at 1 ms. -/
def sample_boot_time (k : Nat) : Nat := 1000 * (k + 1)

/-- Whether the pad counts as alive on a tick at `now_us` (the `pad_alive` of `tick`): the
last-seen time, taken as `now_us` when the snapshot holds a new reply, is non-zero and
less than the timeout ago. -/
def Measure.PadClient.pad_alive (pc : Measure.PadClient) (link : Measure.PadConsoleLink)
    (now_us : Nat) : Bool :=
  let seen :=
    if link.real_pad_hub_.load_original_snapshot.publish_count ≠ pc.last_publish_count_ then
      now_us
    else pc.last_seen_us_
  (seen != 0) &&
    !Measure.PadClient.is_timeout_reached now_us
      ((seen + Measure.PAD_TIMEOUT_US) % 4294967296)

/-- A client in state Ready that saw its pad last at 5 ms and awaits nothing. -/
def Measure.sample_ready_client : Measure.PadClient :=
  { state_ := Measure.State.Ready, last_seen_us_ := 5000, next_status_due_us_ := 5000 }

/-- A link of the measure tree on which Ready has been published. -/
def Measure.sample_ready_link : Measure.PadConsoleLink :=
  { pad_state_ := PadConnectionState.Ready }

/-- The state a Status round trip in mode `m` returns, as described: report flags other
than error_last, buttons and the full-byte axes as they were, nibble axes with the low
nibble cleared, absent axes 0, error_last true. -/
def status_round_trip (s : PadState) (m : PollMode) : PadState :=
  { report := { s.report with error_last := true }
    input :=
      { buttons := s.input.buttons
        analog :=
          match m with
          | 0 => { s.input.analog with
              l_analog := s.input.analog.l_analog &&& 0xF0
              r_analog := s.input.analog.r_analog &&& 0xF0
              a_analog := s.input.analog.a_analog &&& 0xF0
              b_analog := s.input.analog.b_analog &&& 0xF0 }
          | 1 => { s.input.analog with
              c_stick_x := s.input.analog.c_stick_x &&& 0xF0
              c_stick_y := s.input.analog.c_stick_y &&& 0xF0
              a_analog := s.input.analog.a_analog &&& 0xF0
              b_analog := s.input.analog.b_analog &&& 0xF0 }
          | 2 => { s.input.analog with
              c_stick_x := s.input.analog.c_stick_x &&& 0xF0
              c_stick_y := s.input.analog.c_stick_y &&& 0xF0
              l_analog := s.input.analog.l_analog &&& 0xF0
              r_analog := s.input.analog.r_analog &&& 0xF0 }
          | 3 => { s.input.analog with a_analog := 0x00, b_analog := 0x00 }
          | 4 => { s.input.analog with l_analog := 0x00, r_analog := 0x00 }
          | _ => s.input.analog } }

/-- The poll-mode field of a re-encoded identity byte: bits 2..0 when at most 4, else 3. -/
def reencoded_poll (byte3 : Nat) : Nat := if byte3 &&& 7 ≤ 4 then byte3 &&& 7 else 3

/-- The rumble-mode field of a re-encoded identity byte: bits 4..3 when at most 2, else 0. -/
def reencoded_rumble (byte3 : Nat) : Nat :=
  if (byte3 >>> 3) &&& 3 ≤ 2 then (byte3 >>> 3) &&& 3 else 0

/-- Every stage function registered in the pipeline leaves the report as it was. -/
def Pipeline.KeepsReport (p : Pipeline) : Prop :=
  ∀ i f, (p.stages_.getD i {}).func = some f → ∀ s, (f s).report = s.report

/-- The state whose encoding answers a Status, Origin or Recalibrate frame: the matching
part of the snapshot after the matching pipeline. -/
def ConsoleClient.replied_state (link : PadConsoleLink) (cmd : Nat) (snap : PadSnapshot) :
    PadState :=
  if cmd = 0x40 then link.pipelines_.status.apply_from_isr snap.status
  else if cmd = 0x41 then link.pipelines_.origin.apply_from_isr snap.origin
  else link.pipelines_.recalibrate.apply_from_isr snap.origin

/-- A link whose pad is Ready and whose hub has received a Status and an Origin reply of
the pad, both with the origin-not-sent bit (bit 5) set; the pipelines are those of `main`,
with sample tables. -/
def origin_pending_link : PadConsoleLink :=
  { pad_state_ := PadConnectionState.Ready
    real_pad_hub_ :=
      { rx_ := SharedPad.after
          [(0x40, [0xA0, 0x00, 0x80, 0x80, 0x80, 0x80, 0x00, 0x00]),
           (0x41, [0xA0, 0x00, 0x80, 0x80, 0x80, 0x80, 0x00, 0x00, 0x00, 0x00])] }
    pipelines_ := main_pipelines {} sample_table sample_table }

/-- The client after the bookkeeping every tick does before the switch when neither the
liveness step nor the reset step changes the state: a new reply moves the last-seen count
and time, and the reset epoch of the link is taken over. -/
def Measure.PadClient.bookkept (pc : Measure.PadClient) (link : Measure.PadConsoleLink)
    (now_us : Nat) : Measure.PadClient :=
  { pc with
    last_publish_count_ := link.real_pad_hub_.load_original_snapshot.publish_count
    last_seen_us_ :=
      if link.real_pad_hub_.load_original_snapshot.publish_count ≠ pc.last_publish_count_ then
        now_us
      else pc.last_seen_us_
    last_reset_epoch_ := link.load_reset_epoch }

/-- The last-seen time after the update at the head of a tick: `now_us` when the snapshot
holds a new reply, the stored time otherwise. -/
def Measure.PadClient.seen_after (pc : Measure.PadClient) (link : Measure.PadConsoleLink)
    (now_us : Nat) : Nat :=
  if link.real_pad_hub_.load_original_snapshot.publish_count ≠ pc.last_publish_count_ then now_us
  else pc.last_seen_us_

namespace Measure

/-- Every field of the range fits its `uint8_t`. -/
def Uint8bitRange.inRange (r : Uint8bitRange) : Prop :=
  r.begin < 256 ∧ r.end_ < 256 ∧ r.step < 256

/-- The two coordinates a sample carries on the axes of the target. -/
def StickGridSweep.coordinates (target : StickGridSweep.Target) (out : PadState) : Nat × Nat :=
  match target with
  | StickGridSweep.Target.Joystick => (out.input.analog.stick_x, out.input.analog.stick_y)
  | StickGridSweep.Target.Cstick => (out.input.analog.c_stick_x, out.input.analog.c_stick_y)
  | StickGridSweep.Target.Trigger => (out.input.analog.l_analog, out.input.analog.r_analog)

/-- A sweep as the constructor leaves it for a non-empty x range, at any index. -/
structure StickGridSweep.Built (sw : StickGridSweep) : Prop where
  x_range : sw.config_.x.inRange
  y_range : sw.config_.y.inRange
  x_count : sw.x_count_ = count_range sw.config_.x
  y_count : sw.y_count_ = count_range sw.config_.y
  total : sw.total_ = sw.x_count_ * sw.y_count_
  x_nonempty : sw.x_count_ ≠ 0

end Measure

/-- The interval `poll_steps` works with: `interval_us`, with 0 taken as 1. -/
def Measure.Schedule.interval (s : Measure.Schedule) : Nat :=
  if s.interval_us = 0 then 1 else s.interval_us

/-- How late a call at `now_us` is for the due time, in 32 bits. -/
def Measure.Schedule.late (s : Measure.Schedule) (now_us : Nat) : Nat :=
  (now_us + 4294967296 - s.next_due_us_) % 4294967296

/-- A schedule with a 1 ms interval, armed and due at 10 ms. -/
def Measure.sample_schedule : Measure.Schedule :=
  { interval_us := 1000, catch_up := true, armed_ := true, next_due_us_ := 10000 }

/-! # Properties -/

/-! ## Bit-level lemmas -/

theorem testBit_mod_65536 (x i : Nat) :
    (x % 65536).testBit i = (decide (i < 16) && x.testBit i) :=
  Nat.testBit_mod_two_pow x 16 i

theorem testBit_mod_256 (x i : Nat) :
    (x % 256).testBit i = (decide (i < 8) && x.testBit i) :=
  Nat.testBit_mod_two_pow x 8 i

theorem testBit_255 (i : Nat) : (255 : Nat).testBit i = decide (i < 8) :=
  Nat.testBit_two_pow_sub_one 8 i

theorem testBit_flag (b : Bool) (k i : Nat) :
    (if b = true then 1 <<< k else 0).testBit i = (b && decide (k = i)) := by
  cases b <;> simp [Nat.one_shiftLeft, Nat.testBit_two_pow]

theorem testBit_flag_not (b : Bool) (k i : Nat) :
    (if b = true then 0 else 1 <<< k).testBit i = (!b && decide (k = i)) := by
  cases b <;> simp [Nat.one_shiftLeft, Nat.testBit_two_pow]

theorem and_bit_ne_zero (w k : Nat) : ((w &&& 1 <<< k) != 0) = w.testBit k := by
  rw [Nat.one_shiftLeft, Nat.and_two_pow]
  cases w.testBit k <;> simp

theorem and_bit_eq_zero (w k : Nat) : ((w &&& 1 <<< k) == 0) = !w.testBit k := by
  rw [Nat.one_shiftLeft, Nat.and_two_pow]
  cases w.testBit k <;> simp

theorem read_write_u16_le (v : Nat) (hv : v < 65536) : read_u16_le (write_u16_le v) = v := by
  apply Nat.eq_of_testBit_eq
  intro i
  have hhi : ∀ j, 16 ≤ j → v.testBit j = false := fun j hj =>
    Nat.testBit_lt_two_pow (lt_of_lt_of_le hv (Nat.pow_le_pow_right (by decide : 2 > 0) hj))
  simp only [read_u16_le, write_u16_le, testBit_mod_65536, testBit_mod_256, Nat.testBit_or,
    Nat.testBit_and, Nat.testBit_shiftLeft, Nat.testBit_shiftRight, testBit_255]
  by_cases h8 : i < 8
  · have h16 : i < 16 := by omega
    have : ¬ (i ≥ 8) := by omega
    simp [h8, h16, this]
  · by_cases h16 : i < 16
    · have h1 : i ≥ 8 := by omega
      have h2 : i - 8 < 8 := by omega
      have h3 : 8 + (i - 8) = i := by omega
      have h4 : i - 8 < 16 := by omega
      simp [h8, h16, h1, h2, h3, h4]
    · simp [h16, hhi i (by omega)]

/-! ## The status word -/

theorem JoybusReply.view_ofArray (cmd : Command) (src : List Nat) :
    (JoybusReply.ofArray cmd src).view = src := by
  simp [JoybusReply.view, JoybusReply.ofArray]

theorem status_word_of_lt (s : PadState) : status_word_of s < 65536 :=
  Nat.mod_lt _ (by decide)

theorem status_word_of_testBit (s : PadState) (i : Nat) :
    (status_word_of s).testBit i =
      (decide (i < 16) &&
        (s.input.buttons.a && decide (0 = i) || s.input.buttons.b && decide (1 = i) ||
         s.input.buttons.x && decide (2 = i) || s.input.buttons.y && decide (3 = i) ||
         s.input.buttons.start && decide (4 = i) ||
         s.input.buttons.dpad_left && decide (8 = i) ||
         s.input.buttons.dpad_right && decide (9 = i) ||
         s.input.buttons.dpad_down && decide (10 = i) ||
         s.input.buttons.dpad_up && decide (11 = i) ||
         s.input.buttons.z && decide (12 = i) || s.input.buttons.r && decide (13 = i) ||
         s.input.buttons.l && decide (14 = i) ||
         !s.report.origin_sent && decide (5 = i) ||
         s.report.error_latched && decide (6 = i) || decide (7 = i) ||
         s.report.use_controller_origin && decide (15 = i))) := by
  have h7 : ∀ j, (1 <<< 7 : Nat).testBit j = decide (7 = j) := fun j => by
    rw [Nat.one_shiftLeft, Nat.testBit_two_pow]
  simp only [status_word_of, PadButton.A, PadButton.B, PadButton.X, PadButton.Y, PadButton.Start,
    PadButton.DpadLeft, PadButton.DpadRight, PadButton.DpadDown, PadButton.DpadUp, PadButton.Z,
    PadButton.R, PadButton.L, StatusWordBits.OriginNotSent, StatusWordBits.ErrorLatched,
    StatusWordBits.Always1, StatusWordBits.UseControllerOrigin, testBit_mod_65536,
    Nat.testBit_or, testBit_flag, testBit_flag_not, h7, Nat.zero_testBit, Bool.false_or]

/-- The two bytes written by `encode_to_status_word` read back as the accumulated word. -/
theorem read_encode_to_status_word (s : PadState) :
    read_u16_le (encode_to_status_word s) = status_word_of s :=
  read_write_u16_le _ (status_word_of_lt s)

/-- C4: the first two bytes written by `encode_to_status_word`, read as a little-endian
16-bit word, carry A, B, X, Y, Start in bits 0..4, NOT origin_sent in bit 5, error_latched
in bit 6, the constant 1 in bit 7, DpadLeft, DpadRight, DpadDown, DpadUp, Z, R, L in bits
8..14 and use_controller_origin in bit 15; the word has no further bits, so nothing else
influences it; and these are the first two bytes of every Status, Origin and Recalibrate
reply. -/
theorem status_word_layout (s : PadState) :
    (read_u16_le (encode_to_status_word s)).testBit 0 = s.input.buttons.a ∧
    (read_u16_le (encode_to_status_word s)).testBit 1 = s.input.buttons.b ∧
    (read_u16_le (encode_to_status_word s)).testBit 2 = s.input.buttons.x ∧
    (read_u16_le (encode_to_status_word s)).testBit 3 = s.input.buttons.y ∧
    (read_u16_le (encode_to_status_word s)).testBit 4 = s.input.buttons.start ∧
    (read_u16_le (encode_to_status_word s)).testBit 5 = !s.report.origin_sent ∧
    (read_u16_le (encode_to_status_word s)).testBit 6 = s.report.error_latched ∧
    (read_u16_le (encode_to_status_word s)).testBit 7 = true ∧
    (read_u16_le (encode_to_status_word s)).testBit 8 = s.input.buttons.dpad_left ∧
    (read_u16_le (encode_to_status_word s)).testBit 9 = s.input.buttons.dpad_right ∧
    (read_u16_le (encode_to_status_word s)).testBit 10 = s.input.buttons.dpad_down ∧
    (read_u16_le (encode_to_status_word s)).testBit 11 = s.input.buttons.dpad_up ∧
    (read_u16_le (encode_to_status_word s)).testBit 12 = s.input.buttons.z ∧
    (read_u16_le (encode_to_status_word s)).testBit 13 = s.input.buttons.r ∧
    (read_u16_le (encode_to_status_word s)).testBit 14 = s.input.buttons.l ∧
    (read_u16_le (encode_to_status_word s)).testBit 15 = s.report.use_controller_origin ∧
    read_u16_le (encode_to_status_word s) < 2 ^ 16 ∧
    (∀ m : PollMode, first2 (encode_status s m).view = encode_to_status_word s) ∧
    first2 (encode_origin s).view = encode_to_status_word s ∧
    first2 (encode_recalibrate s).view = encode_to_status_word s := by
  rw [read_encode_to_status_word]
  refine ⟨?_, ?_, ?_, ?_, ?_, ?_, ?_, ?_, ?_, ?_, ?_, ?_, ?_, ?_, ?_, ?_, status_word_of_lt s,
    fun m => ?_, ?_, ?_⟩
  case refine_17 =>
    rw [encode_status, JoybusReply.view_ofArray]
    rfl
  case refine_18 =>
    rw [encode_origin, JoybusReply.view_ofArray]
    rfl
  case refine_19 =>
    rw [encode_recalibrate, JoybusReply.view_ofArray]
    rfl
  all_goals (rw [status_word_of_testBit]; simp)

/-! ## Replies and nibbles -/

theorem shrink_eq : ∀ a < 256, shrink8bitTo4bit a = a >>> 4 ∧ shrink8bitTo4bit a < 16 := by
  decide!

theorem pack_eq : ∀ h < 16, ∀ l < 16, pack4bitsToByte h l = (h <<< 4 ||| l) ∧
    expand4bitTo8bit ((pack4bitsToByte h l >>> 4) &&& 0x0F) = h <<< 4 ∧
    expand4bitTo8bit (pack4bitsToByte h l &&& 0x0F) = l <<< 4 := by
  decide!

theorem pack_shrink (a b : Nat) (ha : a < 256) (hb : b < 256) :
    pack4bitsToByte (shrink8bitTo4bit a) (shrink8bitTo4bit b) = nibble_pair a b := by
  have h1 := shrink_eq a ha
  have h2 := shrink_eq b hb
  have h3 := (pack_eq _ h1.2 _ h2.2).1
  rw [h3, h1.1, h2.1, nibble_pair]

theorem unpack_high (a b : Nat) (ha : a < 256) (hb : b < 256) :
    expand4bitTo8bit ((pack4bitsToByte (shrink8bitTo4bit a) (shrink8bitTo4bit b) >>> 4) &&& 0x0F)
      = high_nibble a := by
  have h1 := shrink_eq a ha
  have h2 := shrink_eq b hb
  rw [(pack_eq _ h1.2 _ h2.2).2.1, h1.1, high_nibble]

theorem unpack_low (a b : Nat) (ha : a < 256) (hb : b < 256) :
    expand4bitTo8bit (pack4bitsToByte (shrink8bitTo4bit a) (shrink8bitTo4bit b) &&& 0x0F)
      = high_nibble b := by
  have h1 := shrink_eq a ha
  have h2 := shrink_eq b hb
  rw [(pack_eq _ h1.2 _ h2.2).2.2, h2.1, high_nibble]

theorem decode_report_encode (s : PadState) :
    decode_report_from_status_word (encode_to_status_word s) =
      { s.report with error_last := true } := by
  simp only [decode_report_from_status_word, read_encode_to_status_word,
    StatusWordBits.OriginNotSent, StatusWordBits.ErrorLatched, StatusWordBits.Always1,
    StatusWordBits.UseControllerOrigin, and_bit_ne_zero, and_bit_eq_zero, status_word_of_testBit]
  simp

theorem decode_buttons_encode (s : PadState) :
    decode_buttons_from_status_word (encode_to_status_word s) = s.input.buttons := by
  simp only [decode_buttons_from_status_word, read_encode_to_status_word,
    PadButton.A, PadButton.B, PadButton.X, PadButton.Y, PadButton.Start,
    PadButton.DpadLeft, PadButton.DpadRight, PadButton.DpadDown, PadButton.DpadUp, PadButton.Z,
    PadButton.R, PadButton.L, and_bit_ne_zero, status_word_of_testBit]
  simp

/-! ## Status round trip -/

/-- C1 (as stated, refuted): in Mode3 no axis travels in 4 bits, so the stated law asks
for `decode_status (encode_status s Mode3) Mode3 = s`; on `sample_state` the decoded
`error_last` is true although the state holds false, and the decoded `a_analog` is 0
although the state holds 0x55. -/
theorem status_round_trip_fails :
    (decode_status (encode_status sample_state PollMode.Mode3).view PollMode.Mode3).report.error_last
        = true ∧
    sample_state.report.error_last = false ∧
    (decode_status (encode_status sample_state PollMode.Mode3).view
        PollMode.Mode3).input.analog.a_analog = 0 ∧
    sample_state.input.analog.a_analog = 0x55 ∧
    decode_status (encode_status sample_state PollMode.Mode3).view PollMode.Mode3
        ≠ sample_state := by
  decide

/-- C1 (amended): for every state with in-range axes, decoding the Status reply encoded
for mode m returns the state's origin_sent, error_latched, use_controller_origin, buttons,
stick_x, stick_y and every axis that mode m carries in 8 bits; an axis carried in 4 bits
comes back as its high nibble over a zero low nibble; error_last comes back true; and the
axes the mode does not carry (a/b_analog in Mode3, l/r_analog in Mode4) come back 0. -/
theorem decode_encode_status (s : PadState) (hs : s.input.analog.inRange) :
    (decode_status (encode_status s PollMode.Mode0).view PollMode.Mode0 =
      { report := { s.report with error_last := true }
        input := { buttons := s.input.buttons
                   analog := { s.input.analog with
                     l_analog := high_nibble s.input.analog.l_analog
                     r_analog := high_nibble s.input.analog.r_analog
                     a_analog := high_nibble s.input.analog.a_analog
                     b_analog := high_nibble s.input.analog.b_analog } } }) ∧
    (decode_status (encode_status s PollMode.Mode1).view PollMode.Mode1 =
      { report := { s.report with error_last := true }
        input := { buttons := s.input.buttons
                   analog := { s.input.analog with
                     c_stick_x := high_nibble s.input.analog.c_stick_x
                     c_stick_y := high_nibble s.input.analog.c_stick_y
                     a_analog := high_nibble s.input.analog.a_analog
                     b_analog := high_nibble s.input.analog.b_analog } } }) ∧
    (decode_status (encode_status s PollMode.Mode2).view PollMode.Mode2 =
      { report := { s.report with error_last := true }
        input := { buttons := s.input.buttons
                   analog := { s.input.analog with
                     c_stick_x := high_nibble s.input.analog.c_stick_x
                     c_stick_y := high_nibble s.input.analog.c_stick_y
                     l_analog := high_nibble s.input.analog.l_analog
                     r_analog := high_nibble s.input.analog.r_analog } } }) ∧
    (decode_status (encode_status s PollMode.Mode3).view PollMode.Mode3 =
      { report := { s.report with error_last := true }
        input := { buttons := s.input.buttons
                   analog := { s.input.analog with a_analog := 0, b_analog := 0 } } }) ∧
    (decode_status (encode_status s PollMode.Mode4).view PollMode.Mode4 =
      { report := { s.report with error_last := true }
        input := { buttons := s.input.buttons
                   analog := { s.input.analog with l_analog := 0, r_analog := 0 } } }) := by
  obtain ⟨-, -, hcx, hcy, hl, hr, ha, hb⟩ := hs
  refine ⟨?_, ?_, ?_, ?_, ?_⟩ <;>
    simp [decode_status, encode_status, JoybusReply.view_ofArray, encode_status_bytes, first2,
      decode_report_encode, decode_buttons_encode, PollMode.Mode0, PollMode.Mode1,
      PollMode.Mode2, PollMode.Mode3, PollMode.Mode4, kAnalogButtonReleased, kTriggerReleased,
      unpack_high _ _ hcx hcy, unpack_low _ _ hcx hcy, unpack_high _ _ hl hr,
      unpack_low _ _ hl hr, unpack_high _ _ ha hb, unpack_low _ _ ha hb]

/-- Witness for C1: the amended law at `sample_state` in Mode0. -/
theorem decode_encode_status_witness :
    sample_state.input.analog.inRange ∧
    decode_status (encode_status sample_state PollMode.Mode0).view PollMode.Mode0 =
      { report := { origin_sent := false, error_latched := true, error_last := true,
                    use_controller_origin := true }
        input := { buttons := { a := true, start := true, dpad_up := true, l := true }
                   analog := { stick_x := 0x12, stick_y := 0xFE, c_stick_x := 0x9A,
                               c_stick_y := 0x47, l_analog := 0xA0, r_analog := 0x30,
                               a_analog := 0x50, b_analog := 0x60 } } } :=
  ⟨by decide, (decode_encode_status sample_state (by decide)).1⟩

/-! ## Origin round trip -/

/-- C2 (as stated, refuted): `decode_origin (encode_origin s)` differs from `s` on
`sample_state`, whose `error_last` is false while the decoded one is true. -/
theorem origin_round_trip_fails :
    (decode_origin (encode_origin sample_state).view).report.error_last = true ∧
    sample_state.report.error_last = false ∧
    decode_origin (encode_origin sample_state).view ≠ sample_state := by
  decide

/-- C2 (amended): decoding an encoded Origin reply returns the state's origin_sent,
error_latched and use_controller_origin, its 12 buttons and all 8 analog axes unchanged,
while error_last comes back true whatever the state holds. -/
theorem decode_encode_origin (s : PadState) :
    decode_origin (encode_origin s).view =
      { s with report := { s.report with error_last := true } } := by
  simp [decode_origin, encode_origin, JoybusReply.view_ofArray, encode_origin_byte, first2,
    decode_report_encode, decode_buttons_encode]

/-! ## Status reply layout -/

/-- C5: for every state with in-range axes and every poll mode, `encode_status` yields a
Status reply of 8 bytes whose bytes 2 and 3 are stick_x and stick_y, and whose bytes 4..7
follow the mode table, a nibble pair being `((first >> 4) << 4) | (second >> 4)`. -/
theorem encode_status_layout (s : PadState) (hs : s.input.analog.inRange) :
    (∀ m : PollMode,
      (encode_status s m).command = Command.Status ∧
      (encode_status s m).length = 8 ∧
      (encode_status s m).view.length = 8 ∧
      (encode_status s m).view.getD 2 0 = s.input.analog.stick_x ∧
      (encode_status s m).view.getD 3 0 = s.input.analog.stick_y) ∧
    (encode_status s PollMode.Mode0).view.drop 4 =
      [s.input.analog.c_stick_x, s.input.analog.c_stick_y,
       nibble_pair s.input.analog.l_analog s.input.analog.r_analog,
       nibble_pair s.input.analog.a_analog s.input.analog.b_analog] ∧
    (encode_status s PollMode.Mode1).view.drop 4 =
      [nibble_pair s.input.analog.c_stick_x s.input.analog.c_stick_y,
       s.input.analog.l_analog, s.input.analog.r_analog,
       nibble_pair s.input.analog.a_analog s.input.analog.b_analog] ∧
    (encode_status s PollMode.Mode2).view.drop 4 =
      [nibble_pair s.input.analog.c_stick_x s.input.analog.c_stick_y,
       nibble_pair s.input.analog.l_analog s.input.analog.r_analog,
       s.input.analog.a_analog, s.input.analog.b_analog] ∧
    (encode_status s PollMode.Mode3).view.drop 4 =
      [s.input.analog.c_stick_x, s.input.analog.c_stick_y,
       s.input.analog.l_analog, s.input.analog.r_analog] ∧
    (encode_status s PollMode.Mode4).view.drop 4 =
      [s.input.analog.c_stick_x, s.input.analog.c_stick_y,
       s.input.analog.a_analog, s.input.analog.b_analog] := by
  obtain ⟨-, -, hcx, hcy, hl, hr, ha, hb⟩ := hs
  refine ⟨fun m => ?_, ?_, ?_, ?_, ?_, ?_⟩
  · have hlen : (encode_status_bytes s m).length = 8 := by
      unfold encode_status_bytes
      split <;> rfl
    refine ⟨rfl, hlen, ?_, ?_, ?_⟩
    · rw [encode_status, JoybusReply.view_ofArray]; exact hlen
    · rw [encode_status, JoybusReply.view_ofArray]; rfl
    · rw [encode_status, JoybusReply.view_ofArray]; rfl
  all_goals
    simp [encode_status, JoybusReply.view_ofArray, encode_status_bytes, PollMode.Mode0,
      PollMode.Mode1, PollMode.Mode2, PollMode.Mode3, PollMode.Mode4,
      pack_shrink _ _ hcx hcy, pack_shrink _ _ hl hr, pack_shrink _ _ ha hb]

/-- Witness for C5: the layout at `sample_state`, read off in Mode1. -/
theorem encode_status_layout_witness :
    sample_state.input.analog.inRange ∧
    (encode_status sample_state PollMode.Mode1).view.drop 4 = [0x94, 0xAB, 0x3C, 0x56] :=
  ⟨by decide, (encode_status_layout sample_state (by decide)).2.2.1⟩

/-! ## Identity bytes -/

theorem device_capabilities_bits :
    ∀ g sc ra w swr rf sf : Bool,
      device_capabilities_of ⟨g, sc, ra, w, swr, rf, sf⟩ < 65536 ∧
      (device_capabilities_of ⟨g, sc, ra, w, swr, rf, sf⟩).testBit 15 = w ∧
      (device_capabilities_of ⟨g, sc, ra, w, swr, rf, sf⟩).testBit 14 = swr ∧
      (device_capabilities_of ⟨g, sc, ra, w, swr, rf, sf⟩).testBit 13 = !ra ∧
      (device_capabilities_of ⟨g, sc, ra, w, swr, rf, sf⟩).testBit 11 = g ∧
      (device_capabilities_of ⟨g, sc, ra, w, swr, rf, sf⟩).testBit 10 = rf ∧
      (device_capabilities_of ⟨g, sc, ra, w, swr, rf, sf⟩).testBit 9 = sf ∧
      (device_capabilities_of ⟨g, sc, ra, w, swr, rf, sf⟩).testBit 8 = sc ∧
      device_capabilities_of ⟨g, sc, ra, w, swr, rf, sf⟩ &&& 0x10FF = 0 := by
  decide!

theorem runtime_flags_bits :
    ∀ el la os : Bool, ∀ pm < 5, ∀ rm < 3,
      runtime_flags_of el la os pm rm < 256 ∧
      runtime_flags_of el la os pm rm &&& 0x07 = pm ∧
      (runtime_flags_of el la os pm rm &&& 0x18) >>> 3 = rm ∧
      (runtime_flags_of el la os pm rm).testBit 5 = !os ∧
      (runtime_flags_of el la os pm rm).testBit 6 = la ∧
      (runtime_flags_of el la os pm rm).testBit 7 = el ∧
      (runtime_flags_of el la os pm rm >>> 3) &&& 0x03 = rm := by
  decide!

theorem sanitize_poll_mode_of_le (v : Nat) (h : v ≤ 4) : sanitize_poll_mode (v % 256) = v := by
  have : v % 256 = v := Nat.mod_eq_of_lt (lt_of_le_of_lt h (by decide))
  simp [sanitize_poll_mode, PollMode.Mode4, this, h]

theorem sanitize_rumble_mode_of_le (v : Nat) (h : v ≤ 2) :
    sanitize_rumble_mode (v % 256) = v := by
  have : v % 256 = v := Nat.mod_eq_of_lt (lt_of_le_of_lt h (by decide))
  simp [sanitize_rumble_mode, RumbleMode.Brake, this, h]

/-- C3 (as stated, refuted): starting from a default target, updating it from the bytes
of `sample_identity` does not give `sample_identity` back: `use_controller_origin` keeps
the target's prior value false while the identity holds true. -/
theorem identity_round_trip_fails :
    (update_identity_from_id_bytes {} (encode_identity_bytes sample_identity)
      ).runtime.report.use_controller_origin = false ∧
    sample_identity.runtime.report.use_controller_origin = true ∧
    sample_identity.runtime.poll_mode ≤ 4 ∧ sample_identity.runtime.rumble_mode ≤ 2 ∧
    update_identity_from_id_bytes {} (encode_identity_bytes sample_identity)
      ≠ sample_identity := by
  decide

/-- C3 (amended): for every identity whose poll mode is in Mode0..Mode4 and whose rumble
mode is in Off/On/Brake, and every prior target, updating the target from the encoded
bytes leaves it equal to the identity in all seven capabilities, poll_mode, rumble_mode,
origin_sent, error_latched and error_last, while use_controller_origin keeps the value
the target had before. -/
theorem update_encode_identity (target id : PadIdentity)
    (hp : id.runtime.poll_mode ≤ PollMode.Mode4) (hr : id.runtime.rumble_mode ≤ RumbleMode.Brake) :
    update_identity_from_id_bytes target (encode_identity_bytes id) =
      { id with
        runtime := { id.runtime with
          report := { id.runtime.report with
            use_controller_origin := target.runtime.report.use_controller_origin } } } := by
  obtain ⟨⟨g, sc, ra, w, swr, rf, sf⟩, ⟨⟨os, la, el, uco⟩, pm, rm⟩⟩ := id
  replace hp : @LE.le Nat _ pm 4 := hp
  replace hr : @LE.le Nat _ rm 2 := hr
  obtain ⟨hlt, h15, h14, h13, h11, h10, h9, h8, -⟩ := device_capabilities_bits g sc ra w swr rf sf
  obtain ⟨-, hpm, hrm, h5, h6, h7, -⟩ :=
    runtime_flags_bits el la os pm (Nat.lt_succ_of_le hp) rm (Nat.lt_succ_of_le hr)
  simp only [update_identity_from_id_bytes, update_runtime_from_id_byte3,
    update_capabilities_from_id_bytes, update_report_from_id_byte3, encode_identity_bytes,
    first2, List.getD_cons_zero, List.getD_cons_succ, Prod.mk.eta, read_write_u16_le _ hlt,
    sanitize_poll_mode_of_le pm hp, sanitize_rumble_mode_of_le rm hr,
    IdCapabilityBits.IsWireless, IdCapabilityBits.SupportsWirelessReceive,
    IdCapabilityBits.RumbleNotAvailable, IdCapabilityBits.IsGamecube,
    IdCapabilityBits.WirelessTypeRf, IdCapabilityBits.WirelessStateFixed,
    IdCapabilityBits.IsStandardController, IdByte3Bits.OriginNotSent, IdByte3Bits.ErrorLatched,
    IdByte3Bits.ErrorLast, and_bit_ne_zero, and_bit_eq_zero, kPollMask, kRumbleMask,
    h15, h14, h13, h11, h10, h9, h8, hpm, hrm, h5, h6, h7, Bool.not_not]
  have e1 := sanitize_poll_mode_of_le pm hp
  have e2 := sanitize_rumble_mode_of_le rm hr
  rw [Nat.mod_eq_of_lt (lt_of_le_of_lt hp (by decide))] at e1
  rw [Nat.mod_eq_of_lt (lt_of_le_of_lt hr (by decide))] at e2
  rw [e1, e2]

/-- Witness for C3: a default target updated from the bytes of `sample_identity`. -/
theorem update_encode_identity_witness :
    sample_identity.runtime.poll_mode ≤ PollMode.Mode4 ∧
    sample_identity.runtime.rumble_mode ≤ RumbleMode.Brake ∧
    update_identity_from_id_bytes {} (encode_identity_bytes sample_identity) =
      { sample_identity with
        runtime := { sample_identity.runtime with
          report := { sample_identity.runtime.report with use_controller_origin := false } } } :=
  ⟨by decide, by decide, update_encode_identity {} sample_identity (by decide) (by decide)⟩

/-- C6: for every identity with modes in the closed enumerations, `encode_identity_bytes`
yields 3 bytes; bytes 0..1 read little-endian hold is_wireless in bit 15,
supports_wireless_receive in bit 14, NOT rumble_available in bit 13, is_gamecube in bit 11,
wireless_is_rf in bit 10, wireless_state_fixed in bit 9, is_standard_controller in bit 8
and no other bit; byte 2 holds the poll mode in bits [2:0], the rumble mode in bits [4:3],
NOT origin_sent in bit 5, error_latched in bit 6 and error_last in bit 7; and
`encode_reset_as_id` carries the same bytes under the Reset command. -/
theorem encode_identity_layout (id : PadIdentity)
    (hp : id.runtime.poll_mode ≤ PollMode.Mode4) (hr : id.runtime.rumble_mode ≤ RumbleMode.Brake) :
    (encode_identity_bytes id).length = 3 ∧
    (read_u16_le (first2 (encode_identity_bytes id))).testBit 15 = id.capabilities.is_wireless ∧
    (read_u16_le (first2 (encode_identity_bytes id))).testBit 14 =
      id.capabilities.supports_wireless_receive ∧
    (read_u16_le (first2 (encode_identity_bytes id))).testBit 13 =
      !id.capabilities.rumble_available ∧
    (read_u16_le (first2 (encode_identity_bytes id))).testBit 11 = id.capabilities.is_gamecube ∧
    (read_u16_le (first2 (encode_identity_bytes id))).testBit 10 =
      id.capabilities.wireless_is_rf ∧
    (read_u16_le (first2 (encode_identity_bytes id))).testBit 9 =
      id.capabilities.wireless_state_fixed ∧
    (read_u16_le (first2 (encode_identity_bytes id))).testBit 8 =
      id.capabilities.is_standard_controller ∧
    read_u16_le (first2 (encode_identity_bytes id)) &&& 0x10FF = 0 ∧
    read_u16_le (first2 (encode_identity_bytes id)) < 2 ^ 16 ∧
    (encode_identity_bytes id).getD 2 0 &&& 0x07 = id.runtime.poll_mode ∧
    ((encode_identity_bytes id).getD 2 0 >>> 3) &&& 0x03 = id.runtime.rumble_mode ∧
    ((encode_identity_bytes id).getD 2 0).testBit 5 = !id.runtime.report.origin_sent ∧
    ((encode_identity_bytes id).getD 2 0).testBit 6 = id.runtime.report.error_latched ∧
    ((encode_identity_bytes id).getD 2 0).testBit 7 = id.runtime.report.error_last ∧
    (encode_identity_bytes id).getD 2 0 < 2 ^ 8 ∧
    (encode_reset_as_id id).command = Command.Reset ∧
    (encode_reset_as_id id).view = encode_identity_bytes id ∧
    (encode_reset_as_id id).view = (encode_identity id).view := by
  obtain ⟨⟨g, sc, ra, w, swr, rf, sf⟩, ⟨⟨os, la, el, uco⟩, pm, rm⟩⟩ := id
  replace hp : @LE.le Nat _ pm 4 := hp
  replace hr : @LE.le Nat _ rm 2 := hr
  obtain ⟨hlt, h15, h14, h13, h11, h10, h9, h8, hno⟩ :=
    device_capabilities_bits g sc ra w swr rf sf
  obtain ⟨hb, hpm, -, h5, h6, h7, hrm⟩ :=
    runtime_flags_bits el la os pm (Nat.lt_succ_of_le hp) rm (Nat.lt_succ_of_le hr)
  have hw : read_u16_le (first2 (encode_identity_bytes
      ⟨⟨g, sc, ra, w, swr, rf, sf⟩, ⟨⟨os, la, el, uco⟩, pm, rm⟩⟩)) =
      device_capabilities_of ⟨g, sc, ra, w, swr, rf, sf⟩ := by
    simp only [encode_identity_bytes, first2, List.getD_cons_zero, List.getD_cons_succ,
      Prod.mk.eta, read_write_u16_le _ hlt]
  have hb2 : (encode_identity_bytes
      ⟨⟨g, sc, ra, w, swr, rf, sf⟩, ⟨⟨os, la, el, uco⟩, pm, rm⟩⟩).getD 2 0 =
      runtime_flags_of el la os pm rm := by
    simp only [encode_identity_bytes, List.getD_cons_zero, List.getD_cons_succ,
      sanitize_poll_mode_of_le pm hp, sanitize_rumble_mode_of_le rm hr]
  rw [hw, hb2]
  refine ⟨rfl, h15, h14, h13, h11, h10, h9, h8, hno, hlt, hpm, hrm, h5, h6, h7, hb, rfl, ?_, ?_⟩
  · rw [encode_reset_as_id, JoybusReply.view_ofArray]
  · rw [encode_reset_as_id, encode_identity, JoybusReply.view_ofArray, JoybusReply.view_ofArray]

/-- Witness for C6: the three bytes of `sample_identity`. -/
theorem encode_identity_layout_witness :
    sample_identity.runtime.poll_mode ≤ PollMode.Mode4 ∧
    sample_identity.runtime.rumble_mode ≤ RumbleMode.Brake ∧
    (encode_identity_bytes sample_identity).getD 2 0 &&& 0x07 = PollMode.Mode1 ∧
    (encode_reset_as_id sample_identity).view = [0x00, 0xAC, 0x71] :=
  ⟨by decide, by decide,
   (encode_identity_layout sample_identity (by decide) (by decide)).2.2.2.2.2.2.2.2.2.2.1,
   (encode_identity_layout sample_identity (by decide) (by decide)).2.2.2.2.2.2.2.2.2.2.2.2.2.2.2.2.2.1⟩

/-! ## Sanitizers -/

/-- C7: `sanitize_poll_mode x` is x when x ≤ 4 and Mode3 otherwise, `sanitize_rumble_mode x`
is x when x ≤ 2 and Off otherwise; both results lie in the closed enumerations, both
functions are idempotent, and the measure tree's sanitizers and `clamp_poll_mode`,
`clamp_rumble_mode` compute the same values. -/
theorem sanitize_modes (x : Nat) :
    sanitize_poll_mode x = (if x ≤ 4 then x else PollMode.Mode3) ∧
    sanitize_rumble_mode x = (if x ≤ 2 then x else RumbleMode.Off) ∧
    sanitize_poll_mode x ≤ PollMode.Mode4 ∧
    sanitize_rumble_mode x ≤ RumbleMode.Brake ∧
    sanitize_poll_mode (sanitize_poll_mode x) = sanitize_poll_mode x ∧
    sanitize_rumble_mode (sanitize_rumble_mode x) = sanitize_rumble_mode x ∧
    Measure.sanitize_poll_mode x = sanitize_poll_mode x ∧
    Measure.sanitize_rumble_mode x = sanitize_rumble_mode x ∧
    Measure.clamp_poll_mode x = sanitize_poll_mode x ∧
    Measure.clamp_rumble_mode x = sanitize_rumble_mode x := by
  refine ⟨rfl, rfl, ?_, ?_, ?_, ?_, rfl, rfl, rfl, rfl⟩ <;>
    simp only [sanitize_poll_mode, sanitize_rumble_mode, PollMode.Mode3, PollMode.Mode4,
      RumbleMode.Off, RumbleMode.Brake] <;>
    split <;> simp_all

/-! ## Octagon clamp -/

theorem ite_neg_eq_abs (c : Int) : (if c < 0 then -c else c) = |c| := by
  rcases abs_cases c with ⟨h, g⟩ | ⟨h, g⟩ <;> rw [h] <;> split_ifs <;> omega

theorem ite_gt_eq_max (a m : Int) : (if a > m then a else m) = max m a := by
  rw [max_def]; split_ifs <;> omega

theorem octagon_max_abs_eq (px py : Int) : octagon_max_abs px py = half_plane_max px py := by
  simp only [octagon_max_abs, half_plane_max, kCos8Q15, kSin8Q15, ite_neg_eq_abs, ite_gt_eq_max,
    max_assoc]

/-- The half-plane maximum is bounded by the weighted sums of the coordinate magnitudes. -/
theorem half_plane_max_le (px py : Int) (a b k : Int) (ha : |px| ≤ a) (hb : |py| ≤ b)
    (h1 : 30274 * a + 12540 * b ≤ k) (h2 : 12540 * a + 30274 * b ≤ k) :
    half_plane_max px py ≤ k := by
  have ha' := abs_le.mp ha
  have hb' := abs_le.mp hb
  simp only [half_plane_max, max_le_iff, abs_le]
  omega

theorem le_half_plane_max (px py : Int) :
    30274 * |px| + 12540 * |py| ≤ half_plane_max px py ∧
    12540 * |px| + 30274 * |py| ≤ half_plane_max px py := by
  simp only [half_plane_max, le_max_iff]
  rcases abs_cases px with ⟨hx, gx⟩ | ⟨hx, gx⟩ <;>
  rcases abs_cases py with ⟨hy, gy⟩ | ⟨hy, gy⟩ <;>
  rw [hx, hy] <;>
  rcases abs_cases (30274 * px + 12540 * py) with ⟨h0, g0⟩ | ⟨h0, g0⟩ <;>
  rcases abs_cases (30274 * px - 12540 * py) with ⟨h1, g1⟩ | ⟨h1, g1⟩ <;>
  rcases abs_cases (12540 * px + 30274 * py) with ⟨h2, g2⟩ | ⟨h2, g2⟩ <;>
  rcases abs_cases (12540 * px - 30274 * py) with ⟨h3, g3⟩ | ⟨h3, g3⟩ <;>
  rw [h0, h1, h2, h3] <;> omega

theorem abs_tdiv_mul_le (a m : Int) : |Int.tdiv a m| * |m| ≤ |a| := by
  rw [Int.abs_eq_natAbs, Int.abs_eq_natAbs, Int.abs_eq_natAbs, Int.natAbs_tdiv]
  exact_mod_cast Nat.div_mul_le_self a.natAbs m.natAbs

theorem clamp_centred (v : Int) : |((clamp (v + 128) 0 255).toNat % 256 : Nat) - (128 : Int)| ≤ |v| := by
  unfold clamp
  rcases abs_cases v with ⟨hv, gv⟩ | ⟨hv, gv⟩ <;> rw [hv] <;> rw [abs_le] <;>
  split_ifs <;> omega

theorem projection_weighted_le (px py m : Int) (hm : 125 * 30274 < m)
    (l1 : 30274 * |px| + 12540 * |py| ≤ m) (l2 : 12540 * |px| + 30274 * |py| ≤ m) :
    30274 * |Int.tdiv (px * (125 * 30274)) m| + 12540 * |Int.tdiv (py * (125 * 30274)) m|
      ≤ 125 * 30274 ∧
    12540 * |Int.tdiv (px * (125 * 30274)) m| + 30274 * |Int.tdiv (py * (125 * 30274)) m|
      ≤ 125 * 30274 := by
  have hmpos : 0 < m := by omega
  have hA := abs_tdiv_mul_le (px * (125 * 30274)) m
  have hB := abs_tdiv_mul_le (py * (125 * 30274)) m
  rw [abs_of_pos hmpos, abs_mul] at hA hB
  have e : |(125 * 30274 : Int)| = 125 * 30274 := by norm_num
  rw [e] at hA hB
  generalize |Int.tdiv (px * (125 * 30274)) m| = A at hA ⊢
  generalize |Int.tdiv (py * (125 * 30274)) m| = B at hB ⊢
  constructor
  · have : (30274 * A + 12540 * B) * m ≤ (125 * 30274) * m := by
      have e1 : (30274 * A + 12540 * B) * m = 30274 * (A * m) + 12540 * (B * m) := by ring
      rw [e1]; linarith
    exact le_of_mul_le_mul_right this hmpos
  · have : (12540 * A + 30274 * B) * m ≤ (125 * 30274) * m := by
      have e1 : (12540 * A + 30274 * B) * m = 12540 * (A * m) + 30274 * (B * m) := by ring
      rw [e1]; linarith
    exact le_of_mul_le_mul_right this hmpos

theorem octagon_clamp_axes_bound (x y : Nat) :
    half_plane_max (((octagon_clamp_axes x y).1 : Int) - 128)
      (((octagon_clamp_axes x y).2 : Int) - 128) ≤ 125 * 30274 := by
  unfold octagon_clamp_axes
  simp only [kCenter, kApothem125Q15, kCos8Q15, octagon_max_abs_eq]
  split_ifs with h0 h1
  · rw [h0.1, h0.2]; decide
  · exact h1
  · have hm := not_le.mp h1
    obtain ⟨l1, l2⟩ := le_half_plane_max ((x : Int) - 128) ((y : Int) - 128)
    obtain ⟨g1, g2⟩ := projection_weighted_le _ _ _ hm l1 l2
    exact half_plane_max_le _ _ _ _ _ (clamp_centred _) (clamp_centred _) g1 g2

theorem octagon_clamp_axes_fixed (x y : Nat)
    (h : half_plane_max ((x : Int) - 128) ((y : Int) - 128) ≤ 125 * 30274) :
    octagon_clamp_axes x y = (x, y) := by
  unfold octagon_clamp_axes
  simp only [kCenter, kApothem125Q15, kCos8Q15, octagon_max_abs_eq]
  split_ifs <;> rfl

/-- For coordinates in 0..255 the products formed by `octagon_clamp` fit an `int32_t`. -/
theorem octagon_no_overflow (x y : Nat) (hx : x < 256) (hy : y < 256) :
    |((x : Int) - kCenter) * kApothem125Q15| < 2 ^ 31 ∧
    |((y : Int) - kCenter) * kApothem125Q15| < 2 ^ 31 ∧
    half_plane_max ((x : Int) - kCenter) ((y : Int) - kCenter) < 2 ^ 31 := by
  simp only [kCenter, kApothem125Q15, kCos8Q15, half_plane_max, max_lt_iff, abs_lt]
  omega

/-- C9: for every stick position in [0,255]^2, the centred output of `octagon_clamp` has
all four half-plane magnitudes at most h = 125 * 30274, and an input that already
satisfies the bound, the centre (128,128) among them, is returned unchanged. -/
theorem octagon_clamp_bound (s : PadState)
    (hx : s.input.analog.stick_x < 256) (hy : s.input.analog.stick_y < 256) :
    half_plane_max (((octagon_clamp s).input.analog.stick_x : Int) - 128)
      (((octagon_clamp s).input.analog.stick_y : Int) - 128) ≤ 125 * 30274 ∧
    (half_plane_max ((s.input.analog.stick_x : Int) - 128) ((s.input.analog.stick_y : Int) - 128)
        ≤ 125 * 30274 → octagon_clamp s = s) ∧
    (s.input.analog.stick_x = 128 → s.input.analog.stick_y = 128 → octagon_clamp s = s) ∧
    (octagon_clamp s).input.analog.stick_x < 256 ∧
    (octagon_clamp s).input.analog.stick_y < 256 := by
  have hfix : octagon_clamp_axes s.input.analog.stick_x s.input.analog.stick_y =
      (s.input.analog.stick_x, s.input.analog.stick_y) → octagon_clamp s = s := by
    intro h
    simp only [octagon_clamp, h]
  refine ⟨octagon_clamp_axes_bound _ _, fun h => hfix (octagon_clamp_axes_fixed _ _ h), ?_,
    ?_, ?_⟩
  · intro h1 h2
    apply hfix
    rw [h1, h2]
    rfl
  · simp only [octagon_clamp, octagon_clamp_axes]
    split_ifs
    · exact hx
    · exact hx
    · exact Nat.mod_lt _ (by decide)
  · simp only [octagon_clamp, octagon_clamp_axes]
    split_ifs
    · exact hy
    · exact hy
    · exact Nat.mod_lt _ (by decide)

/-- Witness for C9: the corner (255,255) is pulled onto the octagon at (216,216). -/
theorem octagon_clamp_bound_witness :
    (octagon_clamp { input := { analog := { stick_x := 255, stick_y := 255 } } }
      ).input.analog.stick_x = 216 ∧
    half_plane_max
      (((octagon_clamp { input := { analog := { stick_x := 255, stick_y := 255 } } }
        ).input.analog.stick_x : Int) - 128)
      (((octagon_clamp { input := { analog := { stick_x := 255, stick_y := 255 } } }
        ).input.analog.stick_y : Int) - 128) ≤ 125 * 30274 :=
  ⟨by decide,
   (octagon_clamp_bound { input := { analog := { stick_x := 255, stick_y := 255 } } }
      (by decide) (by decide)).1⟩

/-! ## Linear scale -/

theorem linear_scale_axis_near :
    ∀ s < 256,
      (linear_scale_axis s : Int) - 128 = scale_centred ((s : Int) - 128) ∧
      -2 ≤ 5 * scale_centred ((s : Int) - 128) - 4 * ((s : Int) - 128) ∧
      5 * scale_centred ((s : Int) - 128) - 4 * ((s : Int) - 128) ≤ 2 := by
  decide!

/-- An integer within 2/5 of `4v/5` is its rounding to nearest. -/
theorem round_four_fifths (v r : Int) (h1 : -2 ≤ 5 * r - 4 * v) (h2 : 5 * r - 4 * v ≤ 2) :
    round ((4 * (v : ℚ)) / 5) = r := by
  rw [round_eq, Int.floor_eq_iff]
  have h1q : (-2 : ℚ) ≤ 5 * (r : ℚ) - 4 * (v : ℚ) := by exact_mod_cast h1
  have h2q : 5 * (r : ℚ) - 4 * (v : ℚ) ≤ 2 := by exact_mod_cast h2
  constructor <;> linarith

/-- The value `4v/5` never lies halfway between two integers. -/
theorem four_fifths_no_tie (v k : Int) : (4 * (v : ℚ)) / 5 ≠ (k : ℚ) + 1 / 2 := by
  intro h
  have h' : (8 * v : ℚ) = 10 * k + 5 := by linarith
  have h'' : 8 * v = 10 * k + 5 := by exact_mod_cast h'
  omega

/-- C10: for every axis value s in 0..255, `linear_scale` maps s to
round(4 (s - 128) / 5) + 128, independently on stick_x and stick_y; the multiply-and-shift
with symmetric negation is the exact round-to-nearest of 4v/5 for every v in [-128, 127],
and 4v/5 is never a tie. -/
theorem linear_scale_rounds (s : PadState)
    (hx : s.input.analog.stick_x < 256) (hy : s.input.analog.stick_y < 256) :
    ((linear_scale s).input.analog.stick_x : Int) =
      round ((4 * (((s.input.analog.stick_x : Int) - 128 : Int) : ℚ)) / 5) + 128 ∧
    ((linear_scale s).input.analog.stick_y : Int) =
      round ((4 * (((s.input.analog.stick_y : Int) - 128 : Int) : ℚ)) / 5) + 128 ∧
    (∀ v : Int, -128 ≤ v → v ≤ 127 → scale_centred v = round ((4 * (v : ℚ)) / 5)) ∧
    (∀ v k : Int, (4 * (v : ℚ)) / 5 ≠ (k : ℚ) + 1 / 2) := by
  refine ⟨?_, ?_, ?_, four_fifths_no_tie⟩
  · obtain ⟨e, h1, h2⟩ := linear_scale_axis_near _ hx
    rw [round_four_fifths _ _ h1 h2, ← e]
    simp [linear_scale]
  · obtain ⟨e, h1, h2⟩ := linear_scale_axis_near _ hy
    rw [round_four_fifths _ _ h1 h2, ← e]
    simp [linear_scale]
  · intro v hlo hhi
    have hs : (v + 128).toNat < 256 := by omega
    obtain ⟨-, h1, h2⟩ := linear_scale_axis_near _ hs
    have hv : (((v + 128).toNat : Nat) : Int) - 128 = v := by omega
    rw [hv] at h1 h2
    exact (round_four_fifths _ _ h1 h2).symm

/-- Witness for C10: the corners and the centre of the stick range. -/
theorem linear_scale_rounds_witness :
    (linear_scale { input := { analog := { stick_x := 0, stick_y := 255 } } }
      ).input.analog.stick_x = 26 ∧
    (linear_scale { input := { analog := { stick_x := 0, stick_y := 255 } } }
      ).input.analog.stick_y = 230 ∧
    ((linear_scale { input := { analog := { stick_x := 0, stick_y := 255 } } }
      ).input.analog.stick_y : Int) = round ((4 * (((255 : Nat) : Int) - 128 : Int) : ℚ) / 5) + 128 :=
  ⟨by decide, by decide,
   (linear_scale_rounds { input := { analog := { stick_x := 0, stick_y := 255 } } }
      (by decide) (by decide)).2.1⟩

/-! ## Transform pipeline -/

theorem one_shiftLeft_mod (i : Nat) (h : i < 32) : (1 <<< i) % 4294967296 = 1 <<< i := by
  rw [Nat.one_shiftLeft]
  exact Nat.mod_eq_of_lt (Nat.pow_lt_pow_right (by decide : 1 < 2) h)

theorem testBit_mod_u32 (x i : Nat) :
    (x % 4294967296).testBit i = (decide (i < 32) && x.testBit i) :=
  Nat.testBit_mod_two_pow x 32 i

theorem testBit_u32_ones (i : Nat) : (0xFFFFFFFF : Nat).testBit i = decide (i < 32) :=
  Nat.testBit_two_pow_sub_one 32 i

theorem testBit_one_shiftLeft (k i : Nat) : (1 <<< k : Nat).testBit i = decide (k = i) := by
  rw [Nat.one_shiftLeft, Nat.testBit_two_pow]

theorem foldl_filter_eq {α β : Type} (q : β → Bool) (f : α → β → α) (l : List β) (a : α) :
    (l.filter q).foldl f a = l.foldl (fun acc b => if q b then f acc b else acc) a := by
  induction l generalizing a with
  | nil => rfl
  | cons b l ih =>
    by_cases hb : q b = true
    · simp [List.filter_cons, hb, ih]
    · simp [List.filter_cons, hb, ih]

theorem Pipeline.holds_empty : Pipeline.Holds {} [] (fun _ => true) := by
  refine ⟨rfl, by decide, rfl, fun i hi => absurd hi (Nat.not_lt_zero i), fun i => ?_⟩
  simp

theorem Pipeline.holds_congr (p : Pipeline) (fs : List Stage) (en en' : Nat → Bool)
    (h : Pipeline.Holds p fs en) (he : ∀ i, i < fs.length → en i = en' i) :
    Pipeline.Holds p fs en' := by
  obtain ⟨h1, h2, h3, h4, h5⟩ := h
  refine ⟨h1, h2, h3, h4, fun i => ?_⟩
  rw [h5 i]
  by_cases hi : i < fs.length
  · rw [he i hi]
  · simp [hi]

theorem Pipeline.holds_add_stage (p q : Pipeline) (fs : List Stage) (stage : Stage)
    (h : Pipeline.Holds p fs (fun _ => true)) (hq : p.add_stage stage = (true, q)) :
    Pipeline.Holds q (fs ++ [stage]) (fun _ => true) := by
  obtain ⟨h1, h2, h3, h4, h5⟩ := h
  unfold Pipeline.add_stage at hq
  split_ifs at hq with hnull hfull
  · simp at hq
  · simp at hq
  · simp only [Prod.mk.injEq, true_and] at hq
    subst hq
    have hlt : fs.length < 16 := by
      simp only [kMaxStages, h1] at hfull
      omega
    refine ⟨?_, ?_, ?_, ?_, ?_⟩
    · simp [h1]
    · simp; omega
    · simp [h3]
    · intro i hi
      simp only [List.length_append, List.length_singleton] at hi
      simp only [List.getD_eq_getElem?_getD, h1, List.getElem?_set]
      by_cases hin : fs.length = i
      · subst hin
        simp [h3, hlt]
      · have hi' : i < fs.length := by omega
        have := h4 i hi'
        simp only [List.getD_eq_getElem?_getD] at this
        simp [hin, List.getElem?_append_left hi', this]
    · intro i
      simp only [h1, one_shiftLeft_mod _ (by omega : fs.length < 32), testBit_mod_u32,
        Nat.testBit_or, h5 i, testBit_one_shiftLeft, List.length_append, List.length_singleton,
        Bool.and_true]
      by_cases hi : i < fs.length
      · have : i < 32 := by omega
        have : i < fs.length + 1 := by omega
        simp [*]
      · by_cases hin : fs.length = i
        · subst hin
          simp [hlt.trans (by decide : 16 < 32)]
        · have : ¬ i < fs.length + 1 := by omega
          simp [*]

theorem Pipeline.holds_add_stages (stages : List Stage) :
    ∀ (p q : Pipeline) (fs : List Stage), Pipeline.Holds p fs (fun _ => true) →
      p.add_stages stages = some q → Pipeline.Holds q (fs ++ stages) (fun _ => true) := by
  induction stages with
  | nil =>
    intro p q fs h hq
    simp only [Pipeline.add_stages, Option.some.injEq] at hq
    subst hq
    simpa using h
  | cons stage rest ih =>
    intro p q fs h hq
    unfold Pipeline.add_stages at hq
    split at hq
    · next r hr =>
      have := ih r q (fs ++ [stage]) (Pipeline.holds_add_stage p r fs stage h hr) hq
      simpa using this
    · simp at hq

theorem Pipeline.holds_set_stage_enabled (p : Pipeline) (fs : List Stage) (en : Nat → Bool)
    (j : Nat) (e : Bool) (h : Pipeline.Holds p fs en) :
    Pipeline.Holds (p.set_stage_enabled j e) fs (fun i => if j = i then e else en i) := by
  obtain ⟨h1, h2, h3, h4, h5⟩ := h
  unfold Pipeline.set_stage_enabled
  split_ifs with hj he
  · refine ⟨h1, h2, h3, h4, fun i => ?_⟩
    rw [h5 i]
    by_cases hi : i < fs.length
    · have : j ≠ i := by omega
      simp [this]
    · simp [hi]
  · have hjlt : j < fs.length := by omega
    refine ⟨h1, h2, h3, h4, fun i => ?_⟩
    simp only [one_shiftLeft_mod _ (by omega : j < 32), testBit_mod_u32, Nat.testBit_or, h5 i,
      testBit_one_shiftLeft]
    by_cases hji : j = i
    · subst hji
      simp [hjlt, he, hjlt.trans_le (h2.trans (by decide : 16 ≤ 32))]
    · by_cases hi : i < fs.length
      · have : i < 32 := by omega
        simp [*]
      · simp [*]
  · have hjlt : j < fs.length := by omega
    have he' : e = false := by simpa using he
    refine ⟨h1, h2, h3, h4, fun i => ?_⟩
    simp only [one_shiftLeft_mod _ (by omega : j < 32), testBit_mod_u32, Nat.testBit_and,
      Nat.testBit_xor, h5 i, testBit_one_shiftLeft, testBit_u32_ones]
    by_cases hji : j = i
    · subst hji
      simp [hjlt, he', hjlt.trans_le (h2.trans (by decide : 16 ≤ 32))]
    · by_cases hi : i < fs.length
      · have : i < 32 := by omega
        simp [*]
      · simp [*]

theorem latest_setting_append (calls : List (Nat × Bool)) (j : Nat) (e : Bool) (i : Nat) :
    latest_setting (calls ++ [(j, e)]) i = if j = i then e else latest_setting calls i := by
  unfold latest_setting
  by_cases hji : j = i
  · subst hji
    simp [List.filter_append, List.filter_cons]
  · have : (j == i) = false := by simpa using hji
    simp [List.filter_append, List.filter_cons, this, hji]

theorem Pipeline.holds_set_stages_enabled (p : Pipeline) (fs : List Stage)
    (h : Pipeline.Holds p fs (fun _ => true)) (calls : List (Nat × Bool)) :
    Pipeline.Holds (p.set_stages_enabled calls) fs (latest_setting calls) := by
  induction calls using List.reverseRecOn with
  | nil =>
    refine Pipeline.holds_congr _ _ _ _ h (fun i _ => ?_)
    simp [latest_setting]
  | append_singleton calls call ih =>
    have hstep : p.set_stages_enabled (calls ++ [call]) =
        (p.set_stages_enabled calls).set_stage_enabled call.1 call.2 := by
      simp [Pipeline.set_stages_enabled, List.foldl_append]
    rw [hstep]
    refine Pipeline.holds_congr _ _ _ _
      (Pipeline.holds_set_stage_enabled _ _ _ call.1 call.2 ih) (fun i _ => ?_)
    obtain ⟨j, e⟩ := call
    exact (latest_setting_append calls j e i).symm

theorem Pipeline.apply_of_holds (p : Pipeline) (fs : List Stage) (en : Nat → Bool)
    (h : Pipeline.Holds p fs en) (state : PadState) :
    p.apply_from_isr state =
      (((List.range fs.length).filter en).map (fun i => fs.getD i {})).foldl
        (fun st stage => stage.run st) state := by
  obtain ⟨h1, h2, h3, h4, h5⟩ := h
  rw [List.foldl_map, foldl_filter_eq, Pipeline.apply_from_isr, h1]
  apply List.foldl_ext
  intro st i hi
  have hi' : i < fs.length := List.mem_range.mp hi
  simp only [Pipeline.apply_step, one_shiftLeft_mod _ (by omega : i < 32), and_bit_eq_zero,
    h5 i, h4 i hi', hi', decide_True, Bool.true_and, Stage.run]
  cases en i <;> simp

/-- C8: for a pipeline built by `add_stage` calls that all succeed and then subjected to
any run of `set_stage_enabled` calls, `apply_from_isr` yields the composition, in ascending
insertion index, of exactly the stages whose latest enable setting is true, a stage never
addressed counting as enabled. -/
theorem pipeline_apply_eq_compose (stages : List Stage) (p : Pipeline)
    (hbuild : Pipeline.add_stages {} stages = some p) (calls : List (Nat × Bool))
    (state : PadState) :
    (p.set_stages_enabled calls).apply_from_isr state = compose_enabled stages calls state := by
  have h0 := Pipeline.holds_add_stages stages {} p [] Pipeline.holds_empty hbuild
  rw [List.nil_append] at h0
  exact Pipeline.apply_of_holds _ _ _ (Pipeline.holds_set_stages_enabled p stages h0 calls) state

/-- Witness for C8: three stages, the first switched on and off again, the second switched
off, one call to an index that holds no stage; only the linear scale runs. -/
theorem pipeline_apply_eq_compose_witness :
    Pipeline.add_stages {} sample_stages = some sample_pipeline ∧
    (sample_pipeline.set_stages_enabled [(0, true), (1, false), (7, false), (0, false)]
      ).apply_from_isr sample_state =
      compose_enabled sample_stages [(0, true), (1, false), (7, false), (0, false)]
        sample_state ∧
    compose_enabled sample_stages [(0, true), (1, false), (7, false), (0, false)] sample_state =
      linear_scale sample_state :=
  ⟨rfl, pipeline_apply_eq_compose sample_stages sample_pipeline rfl _ _, rfl⟩

/-! ## Linear scale at the corners, origin normalisation, stage frames -/

/-- C11 (as stated, refuted): `linear_scale` maps the stick (255,255) to (230,230), not to
(229,229): 4 * 127 / 5 = 101.6 rounds to 102. -/
theorem linear_scale_corner_not_229 :
    (linear_scale (stick_at 255 255)).input.analog.stick_x = 230 ∧
    (linear_scale (stick_at 255 255)).input.analog.stick_y = 230 ∧
    ¬ ((linear_scale (stick_at 255 255)).input.analog.stick_x = 229 ∧
       (linear_scale (stick_at 255 255)).input.analog.stick_y = 229) := by
  decide

/-- C11 (amended): `linear_scale` maps the stick (0,0) to (26,26), (255,255) to (230,230)
and (128,128) to (128,128). -/
theorem linear_scale_corners :
    (linear_scale (stick_at 0 0)).input.analog.stick_x = 26 ∧
    (linear_scale (stick_at 0 0)).input.analog.stick_y = 26 ∧
    (linear_scale (stick_at 255 255)).input.analog.stick_x = 230 ∧
    (linear_scale (stick_at 255 255)).input.analog.stick_y = 230 ∧
    (linear_scale (stick_at 128 128)).input.analog.stick_x = 128 ∧
    (linear_scale (stick_at 128 128)).input.analog.stick_y = 128 := by
  decide

theorem clamp_eq_max_min (v : Int) : clamp v 0 255 = max 0 (min 255 v) := by
  unfold clamp
  simp only [max_def, min_def]
  split_ifs <;> omega

theorem clamp_toNat_lt (v : Int) : (clamp v 0 255).toNat % 256 < 256 :=
  Nat.mod_lt _ (by decide)

/-- C12: for every stick (x, y) and stored origin (ox, oy), all bytes, `origin_normalize`
sets stick_x to clamp(x - ox + 128, 0, 255) and stick_y to clamp(y - oy + 128, 0, 255);
with the default origin (0x80, 0x80) it is the identity, and a stick resting at the stored
origin is mapped to (128, 128). -/
theorem origin_normalize_spec (ctx : OriginOffsetContext) (s : PadState)
    (hx : s.input.analog.stick_x < 256) (hy : s.input.analog.stick_y < 256)
    (hox : ctx.origin_x < 256) (hoy : ctx.origin_y < 256) :
    ((origin_normalize ctx s).input.analog.stick_x : Int) =
      max 0 (min 255 ((s.input.analog.stick_x : Int) - (ctx.origin_x : Int) + 128)) ∧
    ((origin_normalize ctx s).input.analog.stick_y : Int) =
      max 0 (min 255 ((s.input.analog.stick_y : Int) - (ctx.origin_y : Int) + 128)) ∧
    (ctx.origin_x = 0x80 → ctx.origin_y = 0x80 → origin_normalize ctx s = s) ∧
    (s.input.analog.stick_x = ctx.origin_x → s.input.analog.stick_y = ctx.origin_y →
      (origin_normalize ctx s).input.analog.stick_x = 128 ∧
      (origin_normalize ctx s).input.analog.stick_y = 128) := by
  have key : ∀ a o : Nat, a < 256 → o < 256 →
      (((clamp ((a : Int) - (o : Int) + 128) 0 255).toNat % 256 : Nat) : Int) =
        max 0 (min 255 ((a : Int) - (o : Int) + 128)) := by
    intro a o ha ho
    rw [clamp_eq_max_min]
    omega
  have kx := key _ _ hx hox
  have ky := key _ _ hy hoy
  refine ⟨?_, ?_, ?_, ?_⟩
  · simpa [origin_normalize, kAxisCenter] using kx
  · simpa [origin_normalize, kAxisCenter] using ky
  · intro h1 h2
    have ex : (clamp ((s.input.analog.stick_x : Int) - (ctx.origin_x : Int) + 128) 0 255).toNat
        % 256 = s.input.analog.stick_x := by
      rw [h1] at kx ⊢
      omega
    have ey : (clamp ((s.input.analog.stick_y : Int) - (ctx.origin_y : Int) + 128) 0 255).toNat
        % 256 = s.input.analog.stick_y := by
      rw [h2] at ky ⊢
      omega
    simp only [origin_normalize, kAxisCenter, Nat.cast_ofNat, ex, ey]
  · intro h1 h2
    have gx : ((origin_normalize ctx s).input.analog.stick_x : Int) =
        max 0 (min 255 ((s.input.analog.stick_x : Int) - (ctx.origin_x : Int) + 128)) := by
      simpa [origin_normalize, kAxisCenter] using kx
    have gy : ((origin_normalize ctx s).input.analog.stick_y : Int) =
        max 0 (min 255 ((s.input.analog.stick_y : Int) - (ctx.origin_y : Int) + 128)) := by
      simpa [origin_normalize, kAxisCenter] using ky
    rw [h1] at gx
    rw [h2] at gy
    constructor <;> omega

/-- Witness for C12: a stick at (0x12, 0xFE) against the origin (0x7A, 0x85). -/
theorem origin_normalize_spec_witness :
    (origin_normalize { origin_x := 0x7A, origin_y := 0x85 } sample_state).input.analog.stick_x
      = 24 ∧
    ((origin_normalize { origin_x := 0x7A, origin_y := 0x85 } sample_state
      ).input.analog.stick_y : Int) = max 0 (min 255 (((0xFE : Nat) : Int) - ((0x85 : Nat) : Int) + 128)) :=
  ⟨by decide,
   (origin_normalize_spec { origin_x := 0x7A, origin_y := 0x85 } sample_state
      (by decide) (by decide) (by decide) (by decide)).2.1⟩

theorem octagon_clamp_axes_lt (x y : Nat) (hx : x < 256) (hy : y < 256) :
    (octagon_clamp_axes x y).1 < 256 ∧ (octagon_clamp_axes x y).2 < 256 := by
  unfold octagon_clamp_axes
  simp only
  split_ifs
  · exact ⟨hx, hy⟩
  · exact ⟨hx, hy⟩
  · exact ⟨Nat.mod_lt _ (by decide), Nat.mod_lt _ (by decide)⟩

/-- C13: each of `origin_normalize`, `octagon_clamp`, `linear_scale` and `inverse_lut` (for
arbitrary byte tables) leaves the report flags, the 12 buttons, c_stick_x/y, l_analog,
r_analog, a_analog and b_analog as they were, and leaves both stick axes within 0..255. -/
theorem stages_stick_frame (ctx : OriginOffsetContext) (lut_x lut_y : Nat → Nat → Nat)
    (s : PadState) (hx : s.input.analog.stick_x < 256) (hy : s.input.analog.stick_y < 256)
    (hlx : ∀ i j, lut_x i j < 256) (hly : ∀ i j, lut_y i j < 256) :
    stick_frame s (origin_normalize ctx s) ∧ stick_frame s (octagon_clamp s) ∧
    stick_frame s (linear_scale s) ∧ stick_frame s (inverse_lut lut_x lut_y s) := by
  refine ⟨?_, ?_, ?_, ?_⟩
  · exact ⟨rfl, rfl, rfl, rfl, rfl, rfl, rfl, rfl, clamp_toNat_lt _, clamp_toNat_lt _⟩
  · exact ⟨rfl, rfl, rfl, rfl, rfl, rfl, rfl, rfl, (octagon_clamp_axes_lt _ _ hx hy).1,
      (octagon_clamp_axes_lt _ _ hx hy).2⟩
  · exact ⟨rfl, rfl, rfl, rfl, rfl, rfl, rfl, rfl, clamp_toNat_lt _, clamp_toNat_lt _⟩
  · exact ⟨rfl, rfl, rfl, rfl, rfl, rfl, rfl, rfl, hlx _ _, hly _ _⟩

/-- Witness for C13: the four stages on `sample_state`, with a sample origin and table. -/
theorem stages_stick_frame_witness :
    stick_frame sample_state (octagon_clamp sample_state) ∧
    stick_frame sample_state (inverse_lut sample_table sample_table sample_state) ∧
    (inverse_lut sample_table sample_table sample_state).input.analog.stick_x = 51 :=
  ⟨(stages_stick_frame { origin_x := 0x7A, origin_y := 0x85 } sample_table sample_table
      sample_state (by decide) (by decide)
      (fun _ _ => Nat.mod_lt _ (by decide)) (fun _ _ => Nat.mod_lt _ (by decide))).2.1,
   (stages_stick_frame { origin_x := 0x7A, origin_y := 0x85 } sample_table sample_table
      sample_state (by decide) (by decide)
      (fun _ _ => Nat.mod_lt _ (by decide)) (fun _ _ => Nat.mod_lt _ (by decide))).2.2.2,
   by decide⟩

/-! ## Latch and shared console -/

theorem Latch.load_publish {α : Type} (l : Latch α) (v : α) : (l.publish v).load = v := by
  unfold Latch.publish Latch.load
  by_cases h : (l.index_ ^^^ 1) % 256 = 0 <;> simp [h]

theorem sanitize_poll_mode_le (v : Nat) : sanitize_poll_mode v ≤ 4 := by
  unfold sanitize_poll_mode
  split
  · assumption
  · decide

theorem sanitize_rumble_mode_le (v : Nat) : sanitize_rumble_mode v ≤ 2 := by
  unfold sanitize_rumble_mode
  split
  · assumption
  · decide

theorem SharedConsole.consistent_init : SharedConsole.Consistent {} := by
  refine ⟨rfl, ?_, ?_⟩ <;> decide

theorem head?_eq_getD (rx : List Nat) (b : Nat) (h : rx ≠ []) :
    rx.head? = some b ↔ rx.getD 0 0 = b := by
  cases rx with
  | nil => exact absurd rfl h
  | cons a t => simp

theorem SharedConsole.on_request_isr_step (sc : SharedConsole) (rx : List Nat)
    (h : SharedConsole.Consistent sc) :
    SharedConsole.Consistent (sc.on_request_isr rx) ∧
    (sc.on_request_isr rx).load = console_state_after sc.load rx := by
  obtain ⟨h1, h2, h3⟩ := h
  unfold SharedConsole.on_request_isr console_state_after
  by_cases he : rx = []
  · subst he
    simp [SharedConsole.Consistent, h1, h2, h3]
  · have hne : rx.isEmpty = false := by
      cases rx with
      | nil => exact absurd rfl he
      | cons a t => rfl
    simp only [hne, Bool.false_eq_true, if_false, head?_eq_getD rx _ he, Command.toByte]
    by_cases hs : rx.getD 0 0 = 0x40
    · simp only [hs, true_and, if_true]
      have hn : ¬ ((0x40 : Nat) = 0xFF) := by decide
      by_cases hl : 3 ≤ rx.length
      · simp only [ge_iff_le, hl, if_true]
        split_ifs with hch
        · refine ⟨⟨?_, sanitize_poll_mode_le _, sanitize_rumble_mode_le _⟩, ?_⟩
          · simp [SharedConsole.load, Latch.load_publish]
          · simp [SharedConsole.load, Latch.load_publish] at h1 ⊢
            rw [h1]
        · refine ⟨⟨h1, h2, h3⟩, ?_⟩
          have hp : sanitize_poll_mode (rx.getD 1 0) = sc.shadow_.poll_mode := by
            by_contra hc; exact hch (Or.inl hc)
          have hr : sanitize_rumble_mode (rx.getD 2 0) = sc.shadow_.rumble_mode := by
            by_contra hc; exact hch (Or.inr hc)
          rw [h1, hp, hr]
      · have hn2 : ¬ ((64 : Nat) = 255) := by decide
        simp only [ge_iff_le, hl, if_false, hn2]
        exact ⟨⟨h1, h2, h3⟩, trivial⟩
    · simp only [hs, false_and, if_false]
      by_cases hr : rx.getD 0 0 = 0xFF
      · simp only [hr, if_true]
        refine ⟨⟨?_, h2, h3⟩, ?_⟩
        · simp [SharedConsole.load, Latch.load_publish]
        · simp [SharedConsole.load, Latch.load_publish] at h1 ⊢
          simp [h1]
      · simp only [hr, if_false]
        exact ⟨⟨h1, h2, h3⟩, trivial⟩

theorem SharedConsole.consistent_after (frames : List (List Nat)) :
    SharedConsole.Consistent (SharedConsole.after frames) := by
  induction frames using List.reverseRecOn with
  | nil => exact SharedConsole.consistent_init
  | append_singleton frames rx ih =>
    have : SharedConsole.after (frames ++ [rx]) =
        (SharedConsole.after frames).on_request_isr rx := by
      simp [SharedConsole.after, List.foldl_append]
    rw [this]
    exact (SharedConsole.on_request_isr_step _ rx ih).1

/-- C19: after any sequence of console frames, feeding one more frame to
`on_request_isr` makes `load()` the state described: a Status frame of at least 3 bytes
sets both modes by sanitizing bytes 1 and 2 and keeps reset_count, a Reset frame adds 1 to
the 16-bit reset_count and keeps the modes, every other frame changes nothing; and after
each call `load()` equals the shadow state, with the poll mode in Mode0..Mode4 and the
rumble mode in Off/On/Brake. -/
theorem shared_console_tracks (frames : List (List Nat)) (rx : List Nat) :
    ((SharedConsole.after frames).on_request_isr rx).load =
      console_state_after (SharedConsole.after frames).load rx ∧
    ((SharedConsole.after frames).on_request_isr rx).load =
      ((SharedConsole.after frames).on_request_isr rx).shadow_ ∧
    ((SharedConsole.after frames).on_request_isr rx).load.poll_mode ≤ PollMode.Mode4 ∧
    ((SharedConsole.after frames).on_request_isr rx).load.rumble_mode ≤ RumbleMode.Brake ∧
    (SharedConsole.after frames).load = (SharedConsole.after frames).shadow_ := by
  have h0 := SharedConsole.consistent_after frames
  obtain ⟨⟨h1, h2, h3⟩, h4⟩ := SharedConsole.on_request_isr_step _ rx h0
  refine ⟨h4, h1, ?_, ?_, h0.1⟩
  · rw [h1]; exact h2
  · rw [h1]; exact h3

/-! ## Shared pad -/

theorem succ_mod_ne (n : Nat) : (n + 1) % 4294967296 ≠ n := by
  omega

theorem SharedPad.on_response_isr_step (sp : SharedPad) (cmd : Nat) (rx : List Nat)
    (h : sp.load = sp.shadow_) :
    (sp.on_response_isr cmd rx).load = (sp.on_response_isr cmd rx).shadow_ ∧
    (sp.on_response_isr cmd rx).load = snapshot_after sp.load cmd rx := by
  have hl : ∀ (shadow : PadSnapshot),
      ({ shadow_ := shadow, latch_ := sp.latch_.publish shadow } : SharedPad).load = shadow :=
    fun shadow => Latch.load_publish _ _
  rw [h]
  unfold SharedPad.on_response_isr snapshot_after
  simp only [Command.toByte, kStatusResponseSize, kOriginResponseSize, kIdResponseSize,
    kPadPollModeForQuery]
  by_cases h1 : cmd = 0x40
  · subst h1
    by_cases hlen : rx.length = 8
    · simp [hlen, hl]
    · simp [hlen, h]
  · by_cases h2 : cmd = 0x41 ∨ cmd = 0x42
    · have h3 : ¬ (cmd = 0x00 ∨ cmd = 0xFF) := by omega
      by_cases hlen : rx.length = 10
      · simp [h1, h2, hlen, hl]
      · simp [h1, h2, h3, hlen, h]
    · by_cases h3 : cmd = 0x00 ∨ cmd = 0xFF
      · by_cases hlen : rx.length = 3
        · simp [h1, h2, h3, hlen, hl]
        · simp [h1, h2, h3, hlen, h]
      · simp [h1, h2, h3, h]

theorem SharedPad.load_eq_shadow_after (replies : List (Nat × List Nat)) :
    (SharedPad.after replies).load = (SharedPad.after replies).shadow_ := by
  induction replies using List.reverseRecOn with
  | nil => rfl
  | append_singleton replies reply ih =>
    have : SharedPad.after (replies ++ [reply]) =
        (SharedPad.after replies).on_response_isr reply.1 reply.2 := by
      simp [SharedPad.after, List.foldl_append]
    rw [this]
    exact (SharedPad.on_response_isr_step _ _ _ ih).1

theorem snapshot_after_ne_iff (snap : PadSnapshot) (cmd : Nat) (rx : List Nat) :
    snapshot_after snap cmd rx ≠ snap ↔ accepted_reply cmd rx := by
  have hne : ∀ (s : PadSnapshot), s.publish_count = (snap.publish_count + 1) % 2 ^ 32 →
      s ≠ snap := by
    intro s hs heq
    rw [heq] at hs
    exact succ_mod_ne _ hs.symm
  unfold snapshot_after accepted_reply
  by_cases h1 : cmd = 0x40 ∧ rx.length = 8
  · rw [if_pos h1]
    exact ⟨fun _ => Or.inl h1, fun _ => hne _ rfl⟩
  · rw [if_neg h1]
    by_cases h2 : (cmd = 0x41 ∨ cmd = 0x42) ∧ rx.length = 10
    · rw [if_pos h2]
      exact ⟨fun _ => Or.inr (Or.inl h2), fun _ => hne _ rfl⟩
    · rw [if_neg h2]
      by_cases h3 : (cmd = 0x00 ∨ cmd = 0xFF) ∧ rx.length = 3
      · rw [if_pos h3]
        exact ⟨fun _ => Or.inr (Or.inr h3), fun _ => hne _ rfl⟩
      · rw [if_neg h3]
        constructor
        · intro hc
          exact absurd rfl hc
        · rintro (h | h | h)
          · exact absurd h h1
          · exact absurd h h2
          · exact absurd h h3

/-- C18: after any sequence of pad replies, `on_response_isr(cmd, rx)` changes what
`load()` returns exactly when the reply is accepted (Status with 8 bytes, Origin or
Recalibrate with 10, Id or Reset with 3); then publish_count is the old value plus 1 in
32 bits, last_rx_command is cmd and only the matching part is replaced by the decoded
frame; in every other case the published snapshot is exactly as before. -/
theorem shared_pad_publishes (replies : List (Nat × List Nat)) (cmd : Nat) (rx : List Nat) :
    (((SharedPad.after replies).on_response_isr cmd rx).load ≠ (SharedPad.after replies).load
      ↔ accepted_reply cmd rx) ∧
    ((SharedPad.after replies).on_response_isr cmd rx).load =
      snapshot_after (SharedPad.after replies).load cmd rx ∧
    (¬ accepted_reply cmd rx →
      ((SharedPad.after replies).on_response_isr cmd rx).load =
        (SharedPad.after replies).load) := by
  have h0 := SharedPad.load_eq_shadow_after replies
  obtain ⟨-, h2⟩ := SharedPad.on_response_isr_step _ cmd rx h0
  refine ⟨?_, h2, ?_⟩
  · rw [h2]
    exact snapshot_after_ne_iff _ _ _
  · intro hna
    rw [h2]
    by_contra hc
    exact hna ((snapshot_after_ne_iff _ _ _).mp hc)

/-! ## Console client -/

theorem encode_status_bytes_length (s : PadState) (m : PollMode) :
    (encode_status_bytes s m).length = 8 := by
  unfold encode_status_bytes
  split <;> rfl

theorem encode_status_view_length (s : PadState) (m : PollMode) :
    (encode_status s m).view.length = 8 := by
  rw [encode_status, JoybusReply.view_ofArray, encode_status_bytes_length]

theorem Pipeline.apply_empty (p : Pipeline) (h : p.stage_count_ = 0) (s : PadState) :
    p.apply_from_isr s = s := by
  simp [Pipeline.apply_from_isr, h]

/-- The outcome of `callback` when the pad is Ready and the switch produced replies whose
modified form fits the transmit buffer. -/
theorem ConsoleClient.callback_replied (link link2 : PadConsoleLink) (rx tx : List Nat)
    (original modified : JoybusReply) (hrx : rx ≠ [])
    (hready : link.pad_state_ = PadConnectionState.Ready)
    (hbuild : ConsoleClient.build_replies
      { link with shared_console_ := link.shared_console_.on_request_isr rx } (rx.getD 0 0)
      link.real_pad_hub_.load_original_snapshot
      (link.shared_console_.on_request_isr rx).load.poll_mode
      (link.shared_console_.on_request_isr rx).load.rumble_mode
        = some (link2, original, modified))
    (ho : original.view ≠ []) (hm : modified.view ≠ [])
    (hfit : modified.view.length ≤ tx.length) :
    ConsoleClient.callback link rx tx =
      (modified.view.length, modified.view ++ tx.drop modified.view.length,
        { link2 with
          real_pad_hub_ := link2.real_pad_hub_.publish_tx_from_isr
            link.real_pad_hub_.load_original_snapshot.publish_count original modified }) := by
  have h1 : ¬ rx.length < 1 := by
    cases rx with
    | nil => exact absurd rfl hrx
    | cons a t => simp
  have h2 : modified.view.length ≠ 0 := fun h => hm (List.length_eq_zero.mp h)
  have h3 : ¬ tx.length < modified.view.length := by omega
  have h4 : original.view.isEmpty = false := by
    cases hv : original.view with
    | nil => exact absurd hv ho
    | cons a t => rfl
  simp only [ConsoleClient.callback, h1, if_false, PadConsoleLink.is_pad_ready,
    PadConsoleLink.load_pad_state, hready, beq_self_eq_true, Bool.not_true, Bool.false_eq_true,
    SharedConsole.load] at hbuild ⊢
  rw [hbuild]
  simp [h4, ConsoleClient.write_tx, h2, h3]

theorem console_state_after_status (st : ConsoleState) (p r : Nat) :
    console_state_after st [0x40, p, r] =
      { st with poll_mode := sanitize_poll_mode p, rumble_mode := sanitize_rumble_mode r } := by
  simp [console_state_after]

theorem ConsoleClient.callback_status (link : PadConsoleLink) (p r : Nat) (tx : List Nat)
    (hready : link.pad_state_ = PadConnectionState.Ready) (htx : 8 ≤ tx.length)
    (hsc : SharedConsole.Consistent link.shared_console_) :
    ConsoleClient.callback link [0x40, p, r] tx =
      (8,
       (encode_status (link.pipelines_.status.apply_from_isr
          link.real_pad_hub_.load_original_snapshot.status) (sanitize_poll_mode p)).view
        ++ tx.drop 8,
       { link with
         shared_console_ := link.shared_console_.on_request_isr [0x40, p, r]
         real_pad_hub_ := link.real_pad_hub_.publish_tx_from_isr
           link.real_pad_hub_.load_original_snapshot.publish_count
           (encode_status link.real_pad_hub_.load_original_snapshot.status (sanitize_poll_mode p))
           (encode_status (link.pipelines_.status.apply_from_isr
             link.real_pad_hub_.load_original_snapshot.status) (sanitize_poll_mode p)) }) := by
  have hstep := (SharedConsole.on_request_isr_step _ [0x40, p, r] hsc).2
  rw [console_state_after_status] at hstep
  have hpoll : (link.shared_console_.on_request_isr [0x40, p, r]).load.poll_mode =
      sanitize_poll_mode p := by rw [hstep]
  have hlen := encode_status_view_length (link.pipelines_.status.apply_from_isr
    link.real_pad_hub_.load_original_snapshot.status) (sanitize_poll_mode p)
  have hlen0 := encode_status_view_length link.real_pad_hub_.load_original_snapshot.status
    (sanitize_poll_mode p)
  have h := ConsoleClient.callback_replied link
    { link with shared_console_ := link.shared_console_.on_request_isr [0x40, p, r] }
    [0x40, p, r] tx
    (encode_status link.real_pad_hub_.load_original_snapshot.status (sanitize_poll_mode p))
    (encode_status (link.pipelines_.status.apply_from_isr
      link.real_pad_hub_.load_original_snapshot.status) (sanitize_poll_mode p))
    (by simp) hready
    (by rw [hpoll]; simp [ConsoleClient.build_replies, Command.toByte])
    (by intro hc; rw [hc] at hlen0; simp at hlen0)
    (by intro hc; rw [hc] at hlen; simp at hlen)
    (by rw [hlen]; exact htx)
  rw [h, hlen]

/-- C14: when the pad is Ready, the transmit buffer holds at least 8 bytes and the shared
console is consistent, `callback` answers the frame {0x40, p, r} with 8 bytes, namely
`encode_status` of the pipelined status part of the hub snapshot in the mode
`sanitize_poll_mode p`; the published TxPair holds the unpipelined encoding as raw and
the written reply as modified; with an empty Status pipeline the frame {0x40, 0x03, 0x01}
is answered with `encode_status(snapshot.status, Mode3)` and the shared console then
reports Mode3 and On. -/
theorem console_status_reply (link : PadConsoleLink) (p r : Nat) (tx : List Nat)
    (hready : link.pad_state_ = PadConnectionState.Ready) (htx : 8 ≤ tx.length)
    (hsc : SharedConsole.Consistent link.shared_console_) :
    (ConsoleClient.callback link [0x40, p, r] tx).1 = 8 ∧
    (ConsoleClient.callback link [0x40, p, r] tx).2.1.take 8 =
      (encode_status (link.pipelines_.status.apply_from_isr
        link.real_pad_hub_.load_original_snapshot.status) (sanitize_poll_mode p)).view ∧
    (ConsoleClient.callback link [0x40, p, r] tx).2.1.drop 8 = tx.drop 8 ∧
    (ConsoleClient.callback link [0x40, p, r] tx).2.2.real_pad_hub_.load_last_tx.raw =
      encode_status link.real_pad_hub_.load_original_snapshot.status (sanitize_poll_mode p) ∧
    (ConsoleClient.callback link [0x40, p, r] tx).2.2.real_pad_hub_.load_last_tx.modified.view =
      (ConsoleClient.callback link [0x40, p, r] tx).2.1.take 8 ∧
    (ConsoleClient.callback link [0x40, p, r] tx).2.2.shared_console_.load.poll_mode =
      sanitize_poll_mode p ∧
    (ConsoleClient.callback link [0x40, p, r] tx).2.2.shared_console_.load.rumble_mode =
      sanitize_rumble_mode r ∧
    (link.pipelines_.status.stage_count_ = 0 →
      (ConsoleClient.callback link [0x40, 0x03, 0x01] tx).2.1.take 8 =
        (encode_status link.real_pad_hub_.load_original_snapshot.status PollMode.Mode3).view ∧
      (ConsoleClient.callback link [0x40, 0x03, 0x01] tx).2.2.shared_console_.load.poll_mode =
        PollMode.Mode3 ∧
      (ConsoleClient.callback link [0x40, 0x03, 0x01] tx).2.2.shared_console_.load.rumble_mode =
        RumbleMode.On) := by
  have hstep : ∀ p r, (link.shared_console_.on_request_isr [0x40, p, r]).load =
      { link.shared_console_.load with
        poll_mode := sanitize_poll_mode p, rumble_mode := sanitize_rumble_mode r } := by
    intro p r
    rw [(SharedConsole.on_request_isr_step _ [0x40, p, r] hsc).2, console_state_after_status]
  have htake : ∀ s m, ((encode_status s m).view ++ tx.drop 8).take 8 = (encode_status s m).view := by
    intro s m
    rw [List.take_append_eq_append_take, encode_status_view_length]
    simp [List.take_of_length_le, encode_status_view_length]
  have hdrop : ∀ s m, ((encode_status s m).view ++ tx.drop 8).drop 8 = tx.drop 8 := by
    intro s m
    rw [List.drop_append_eq_append_drop, encode_status_view_length]
    simp [List.drop_of_length_le, encode_status_view_length]
  refine ⟨?_, ?_, ?_, ?_, ?_, ?_, ?_, ?_⟩
  · rw [ConsoleClient.callback_status link p r tx hready htx hsc]
  · rw [ConsoleClient.callback_status link p r tx hready htx hsc]
    exact htake _ _
  · rw [ConsoleClient.callback_status link p r tx hready htx hsc]
    exact hdrop _ _
  · rw [ConsoleClient.callback_status link p r tx hready htx hsc]
    simp [SharedPadHub.load_last_tx, SharedPadHub.publish_tx_from_isr, Latch.load_publish]
  · rw [ConsoleClient.callback_status link p r tx hready htx hsc]
    simp only [SharedPadHub.load_last_tx, SharedPadHub.publish_tx_from_isr, Latch.load_publish]
    exact (htake _ _).symm
  · rw [ConsoleClient.callback_status link p r tx hready htx hsc]
    simp only [hstep]
  · rw [ConsoleClient.callback_status link p r tx hready htx hsc]
    simp only [hstep]
  · intro hempty
    rw [ConsoleClient.callback_status link 0x03 0x01 tx hready htx hsc]
    simp only [hstep, Pipeline.apply_empty _ hempty]
    refine ⟨?_, rfl, rfl⟩
    have : sanitize_poll_mode 3 = PollMode.Mode3 := rfl
    rw [this]
    exact htake _ _

/-- The link the switch of `callback` leaves behind differs from the incoming one at most
in the epoch the command publishes. -/
theorem ConsoleClient.build_replies_link (link link2 : PadConsoleLink) (cmd : Nat)
    (snap : PadSnapshot) (pm : PollMode) (rm : RumbleMode) (o m : JoybusReply)
    (h : ConsoleClient.build_replies link cmd snap pm rm = some (link2, o, m)) :
    link2 =
      { link with
        origin_epoch_ :=
          if cmd = 0x41 then (link.origin_epoch_ + 1) % 4294967296 else link.origin_epoch_
        recalibrate_epoch_ :=
          if cmd = 0x42 then (link.recalibrate_epoch_ + 1) % 4294967296
          else link.recalibrate_epoch_
        reset_epoch_ :=
          if cmd = 0xFF then (link.reset_epoch_ + 1) % 4294967296 else link.reset_epoch_ } ∧
    (cmd = 0x00 ∨ cmd = 0x40 ∨ cmd = 0x41 ∨ cmd = 0x42 ∨ cmd = 0xFF) := by
  unfold ConsoleClient.build_replies at h
  simp only [Command.toByte] at h
  split_ifs at h with h1 h2 h3 h4 h5 <;>
    simp only [Option.some.injEq, Prod.mk.injEq] at h <;>
    obtain ⟨hl, -, -⟩ := h <;> subst hl
  · subst h1; exact ⟨rfl, by decide⟩
  · subst h2; exact ⟨rfl, by decide⟩
  · subst h3; exact ⟨rfl, by decide⟩
  · subst h4; exact ⟨rfl, by decide⟩
  · subst h5; exact ⟨rfl, by decide⟩

theorem ConsoleClient.build_replies_none (link : PadConsoleLink) (cmd : Nat)
    (snap : PadSnapshot) (pm : PollMode) (rm : RumbleMode)
    (h : cmd ≠ 0x00 ∧ cmd ≠ 0x40 ∧ cmd ≠ 0x41 ∧ cmd ≠ 0x42 ∧ cmd ≠ 0xFF) :
    ConsoleClient.build_replies link cmd snap pm rm = none := by
  obtain ⟨h0, h1, h2, h3, h4⟩ := h
  simp [ConsoleClient.build_replies, Command.toByte, h0, h1, h2, h3, h4]

/-- C15: `callback` returns 0, leaves the transmit buffer as it was and publishes no
TxPair whenever the frame is empty, or the pad is not Ready, or the first byte is none of
0x00, 0x40, 0x41, 0x42, 0xFF; for a non-empty frame the shared console has nevertheless
been updated from the frame, for an empty one the link is untouched. -/
theorem console_no_reply (link : PadConsoleLink) (rx tx : List Nat)
    (h : rx = [] ∨ link.pad_state_ ≠ PadConnectionState.Ready ∨
      (rx.getD 0 0 ≠ 0x00 ∧ rx.getD 0 0 ≠ 0x40 ∧ rx.getD 0 0 ≠ 0x41 ∧ rx.getD 0 0 ≠ 0x42 ∧
        rx.getD 0 0 ≠ 0xFF)) :
    (ConsoleClient.callback link rx tx).1 = 0 ∧
    (ConsoleClient.callback link rx tx).2.1 = tx ∧
    (ConsoleClient.callback link rx tx).2.2.real_pad_hub_ = link.real_pad_hub_ ∧
    (rx ≠ [] → (ConsoleClient.callback link rx tx).2.2.shared_console_ =
      link.shared_console_.on_request_isr rx) ∧
    (rx = [] → (ConsoleClient.callback link rx tx).2.2.shared_console_ =
      link.shared_console_) := by
  by_cases hrx : rx = []
  · subst hrx
    simp [ConsoleClient.callback]
  · have h1 : ¬ rx.length < 1 := by
      cases rx with
      | nil => exact absurd rfl hrx
      | cons a t => simp
    by_cases hready : link.pad_state_ = PadConnectionState.Ready
    · rcases h with h | h | h
      · exact absurd h hrx
      · exact absurd hready h
      · simp only [ConsoleClient.callback, h1, if_false, PadConsoleLink.is_pad_ready,
          PadConsoleLink.load_pad_state, hready, beq_self_eq_true, Bool.not_true,
          Bool.false_eq_true, ConsoleClient.build_replies_none _ _ _ _ _ h]
        exact ⟨trivial, trivial, trivial, fun _ => trivial, fun he => absurd he hrx⟩
    · have hnr : (link.pad_state_ == PadConnectionState.Ready) = false := by
        simpa using hready
      simp [ConsoleClient.callback, h1, PadConsoleLink.is_pad_ready,
        PadConsoleLink.load_pad_state, hnr, hrx]

/-- Witness for C15: an unknown command byte sent to the Ready `sample_link`. -/
theorem console_no_reply_witness :
    (ConsoleClient.callback sample_link [0x43, 0x00] (List.replicate 16 0)).1 = 0 ∧
    (ConsoleClient.callback sample_link [0x43, 0x00] (List.replicate 16 0)).2.1 =
      List.replicate 16 0 :=
  ⟨(console_no_reply sample_link [0x43, 0x00] (List.replicate 16 0)
      (Or.inr (Or.inr (by decide)))).1,
   (console_no_reply sample_link [0x43, 0x00] (List.replicate 16 0)
      (Or.inr (Or.inr (by decide)))).2.1⟩

/-- Witness for C14: the frame {0x40, 0x01, 0x02} sent to the Ready `sample_link`. -/
theorem console_status_reply_witness :
    sample_link.pad_state_ = PadConnectionState.Ready ∧
    (ConsoleClient.callback sample_link [0x40, 0x01, 0x02] (List.replicate 16 0)).1 = 8 ∧
    (ConsoleClient.callback sample_link [0x40, 0x01, 0x02] (List.replicate 16 0)).2.1.take 8 =
      [241, 200, 128, 128, 136, 0, 0, 86] :=
  ⟨rfl,
   (console_status_reply sample_link 0x01 0x02 (List.replicate 16 0) rfl (by decide)
      SharedConsole.consistent_init).1,
   (console_status_reply sample_link 0x01 0x02 (List.replicate 16 0) rfl (by decide)
      SharedConsole.consistent_init).2.1.trans (by decide)⟩

theorem ConsoleClient.build_replies_ne_none (link : PadConsoleLink) (cmd : Nat)
    (snap : PadSnapshot) (pm : PollMode) (rm : RumbleMode)
    (h : cmd = 0x00 ∨ cmd = 0x40 ∨ cmd = 0x41 ∨ cmd = 0x42 ∨ cmd = 0xFF) :
    ConsoleClient.build_replies link cmd snap pm rm ≠ none := by
  rcases h with h | h | h | h | h <;> subst h <;>
    simp [ConsoleClient.build_replies, Command.toByte]

/-- The three epochs after `callback` on a non-empty frame with the pad Ready. -/
theorem ConsoleClient.callback_epochs_ready (link : PadConsoleLink) (rx tx : List Nat)
    (hrx : rx ≠ []) (hready : link.pad_state_ = PadConnectionState.Ready) :
    (ConsoleClient.callback link rx tx).2.2.origin_epoch_ =
      (if rx.getD 0 0 = 0x41 then (link.origin_epoch_ + 1) % 4294967296
       else link.origin_epoch_) ∧
    (ConsoleClient.callback link rx tx).2.2.recalibrate_epoch_ =
      (if rx.getD 0 0 = 0x42 then (link.recalibrate_epoch_ + 1) % 4294967296
       else link.recalibrate_epoch_) ∧
    (ConsoleClient.callback link rx tx).2.2.reset_epoch_ =
      (if rx.getD 0 0 = 0xFF then (link.reset_epoch_ + 1) % 4294967296
       else link.reset_epoch_) := by
  have h1 : ¬ rx.length < 1 := by
    cases rx with
    | nil => exact absurd rfl hrx
    | cons a t => simp
  simp only [ConsoleClient.callback, h1, if_false, PadConsoleLink.is_pad_ready,
    PadConsoleLink.load_pad_state, hready, beq_self_eq_true, Bool.not_true, Bool.false_eq_true]
  split
  · next hnone =>
    have hc : ¬ (rx.getD 0 0 = 0x00 ∨ rx.getD 0 0 = 0x40 ∨ rx.getD 0 0 = 0x41 ∨
        rx.getD 0 0 = 0x42 ∨ rx.getD 0 0 = 0xFF) :=
      fun hc => ConsoleClient.build_replies_ne_none _ _ _ _ _ hc hnone
    have e1 : rx.getD 0 0 ≠ 0x41 := fun e => hc (Or.inr (Or.inr (Or.inl e)))
    have e2 : rx.getD 0 0 ≠ 0x42 := fun e => hc (Or.inr (Or.inr (Or.inr (Or.inl e))))
    have e3 : rx.getD 0 0 ≠ 0xFF := fun e => hc (Or.inr (Or.inr (Or.inr (Or.inr e))))
    simp only [e1, e2, e3, if_false, and_self]
  · next link2 o m hsome =>
    obtain ⟨hl, -⟩ := ConsoleClient.build_replies_link _ _ _ _ _ _ _ _ hsome
    split_ifs <;> simp_all

/-- C17: one call of `callback` adds 1 (in 32 bits) to origin_epoch exactly when the pad is
Ready and the first byte is 0x41, to recalibrate_epoch exactly when Ready and the byte is
0x42, to reset_epoch exactly when Ready and the byte is 0xFF, and leaves each epoch as it
was in every other case; adding 1 in 32 bits always changes the counter. -/
theorem console_epochs (link : PadConsoleLink) (rx tx : List Nat) :
    (ConsoleClient.callback link rx tx).2.2.origin_epoch_ =
      (if link.pad_state_ = PadConnectionState.Ready ∧ rx.head? = some 0x41 then
        (link.origin_epoch_ + 1) % 2 ^ 32 else link.origin_epoch_) ∧
    (ConsoleClient.callback link rx tx).2.2.recalibrate_epoch_ =
      (if link.pad_state_ = PadConnectionState.Ready ∧ rx.head? = some 0x42 then
        (link.recalibrate_epoch_ + 1) % 2 ^ 32 else link.recalibrate_epoch_) ∧
    (ConsoleClient.callback link rx tx).2.2.reset_epoch_ =
      (if link.pad_state_ = PadConnectionState.Ready ∧ rx.head? = some 0xFF then
        (link.reset_epoch_ + 1) % 2 ^ 32 else link.reset_epoch_) ∧
    (∀ n : Nat, (n + 1) % 2 ^ 32 ≠ n) := by
  refine ⟨?_, ?_, ?_, succ_mod_ne⟩
  all_goals
    by_cases hrx : rx = []
    · subst hrx
      simp [ConsoleClient.callback]
    · have h1 : ¬ rx.length < 1 := by
        cases rx with
        | nil => exact absurd rfl hrx
        | cons a t => simp
      by_cases hready : link.pad_state_ = PadConnectionState.Ready
      · obtain ⟨g1, g2, g3⟩ := ConsoleClient.callback_epochs_ready link rx tx hrx hready
        simp only [g1, g2, g3, hready, true_and, head?_eq_getD rx _ hrx]
        rfl
      · have hnr : (link.pad_state_ == PadConnectionState.Ready) = false := by
          simpa using hready
        simp [ConsoleClient.callback, h1, PadConsoleLink.is_pad_ready,
          PadConsoleLink.load_pad_state, hnr, hready]

theorem encode_identity_bytes_length (id : PadIdentity) :
    (encode_identity_bytes id).length = 3 := rfl

theorem ConsoleClient.callback_id (link : PadConsoleLink) (tx : List Nat)
    (hready : link.pad_state_ = PadConnectionState.Ready) (htx : 3 ≤ tx.length) :
    ConsoleClient.callback link [0x00] tx =
      (3,
       encode_identity_bytes
          (identity_for_console link.real_pad_hub_.load_original_snapshot
            link.shared_console_.load) ++ tx.drop 3,
       { link with
         real_pad_hub_ := link.real_pad_hub_.publish_tx_from_isr
           link.real_pad_hub_.load_original_snapshot.publish_count
           (encode_identity (identity_for_console link.real_pad_hub_.load_original_snapshot
             link.shared_console_.load))
           (encode_identity (identity_for_console link.real_pad_hub_.load_original_snapshot
             link.shared_console_.load)) }) := by
  have hsame : link.shared_console_.on_request_isr [0x00] = link.shared_console_ := by
    simp [SharedConsole.on_request_isr, Command.toByte]
  have hview : (encode_identity (identity_for_console link.real_pad_hub_.load_original_snapshot
      link.shared_console_.load)).view = encode_identity_bytes
        (identity_for_console link.real_pad_hub_.load_original_snapshot
          link.shared_console_.load) := by
    rw [encode_identity, JoybusReply.view_ofArray]
  have h := ConsoleClient.callback_replied link link [0x00] tx
    (encode_identity (identity_for_console link.real_pad_hub_.load_original_snapshot
      link.shared_console_.load))
    (encode_identity (identity_for_console link.real_pad_hub_.load_original_snapshot
      link.shared_console_.load))
    (by simp) hready
    (by rw [hsame]; simp [ConsoleClient.build_replies, Command.toByte, identity_for_console])
    (by rw [hview]; intro hc; exact absurd (congrArg List.length hc) (by simp [encode_identity_bytes_length]))
    (by rw [hview]; intro hc; exact absurd (congrArg List.length hc) (by simp [encode_identity_bytes_length]))
    (by rw [hview, encode_identity_bytes_length]; exact htx)
  rw [h, hview, encode_identity_bytes_length]

theorem ConsoleClient.callback_reset (link : PadConsoleLink) (tx : List Nat)
    (hready : link.pad_state_ = PadConnectionState.Ready) (htx : 3 ≤ tx.length)
    (hsc : SharedConsole.Consistent link.shared_console_) :
    ConsoleClient.callback link [0xFF] tx =
      (3,
       encode_identity_bytes
          (identity_for_console link.real_pad_hub_.load_original_snapshot
            link.shared_console_.load) ++ tx.drop 3,
       { link with
         reset_epoch_ := (link.reset_epoch_ + 1) % 4294967296
         shared_console_ := link.shared_console_.on_request_isr [0xFF]
         real_pad_hub_ := link.real_pad_hub_.publish_tx_from_isr
           link.real_pad_hub_.load_original_snapshot.publish_count
           (encode_reset_as_id (identity_for_console link.real_pad_hub_.load_original_snapshot
             link.shared_console_.load))
           (encode_reset_as_id (identity_for_console link.real_pad_hub_.load_original_snapshot
             link.shared_console_.load)) }) := by
  have hstep := (SharedConsole.on_request_isr_step _ [0xFF] hsc).2
  have hst : console_state_after link.shared_console_.load [0xFF] =
      { link.shared_console_.load with
        reset_count := (link.shared_console_.load.reset_count + 1) % 65536 } := by
    simp [console_state_after]
  rw [hst] at hstep
  have hview : (encode_reset_as_id (identity_for_console
      link.real_pad_hub_.load_original_snapshot link.shared_console_.load)).view =
        encode_identity_bytes (identity_for_console link.real_pad_hub_.load_original_snapshot
          link.shared_console_.load) := by
    rw [encode_reset_as_id, JoybusReply.view_ofArray]
  have h := ConsoleClient.callback_replied link
    { link with
      reset_epoch_ := (link.reset_epoch_ + 1) % 4294967296
      shared_console_ := link.shared_console_.on_request_isr [0xFF] }
    [0xFF] tx
    (encode_reset_as_id (identity_for_console link.real_pad_hub_.load_original_snapshot
      link.shared_console_.load))
    (encode_reset_as_id (identity_for_console link.real_pad_hub_.load_original_snapshot
      link.shared_console_.load))
    (by simp) hready
    (by
      rw [hstep]
      simp [ConsoleClient.build_replies, Command.toByte, identity_for_console,
        PadConsoleLink.publish_pad_reset_request_from_isr])
    (by rw [hview]; intro hc; exact absurd (congrArg List.length hc) (by simp [encode_identity_bytes_length]))
    (by rw [hview]; intro hc; exact absurd (congrArg List.length hc) (by simp [encode_identity_bytes_length]))
    (by rw [hview, encode_identity_bytes_length]; exact htx)
  rw [h, hview, encode_identity_bytes_length]

/-- The bytes of the identity encoded for the console, under a consistent console state. -/
theorem identity_for_console_bytes (snapshot : PadSnapshot) (console : ConsoleState)
    (hp : console.poll_mode ≤ 4) (hr : console.rumble_mode ≤ 2) :
    encode_identity_bytes (identity_for_console snapshot console) =
      [(write_u16_le (device_capabilities_of snapshot.identity.capabilities)).1,
       (write_u16_le (device_capabilities_of snapshot.identity.capabilities)).2,
       runtime_flags_of snapshot.identity.runtime.report.error_last
         snapshot.identity.runtime.report.error_latched
         snapshot.identity.runtime.report.origin_sent console.poll_mode console.rumble_mode] := by
  simp only [encode_identity_bytes, identity_for_console,
    sanitize_poll_mode_of_le _ hp, sanitize_rumble_mode_of_le _ hr]

/-- C16: when the pad is Ready, the transmit buffer holds at least 3 bytes and the shared
console is consistent, an Id frame {0x00} is answered with 3 bytes: bytes 0..1 are the
capability word of the snapshot identity, byte 2 holds the console poll mode in bits [2:0],
the console rumble mode in bits [4:3] and the report flags of the snapshot identity in bits
5..7; the published raw and modified replies are identical; a Reset frame {0xFF} yields the
same bytes tagged as Reset. -/
theorem console_identity_reply (link : PadConsoleLink) (tx : List Nat)
    (hready : link.pad_state_ = PadConnectionState.Ready) (htx : 3 ≤ tx.length)
    (hsc : SharedConsole.Consistent link.shared_console_) :
    (ConsoleClient.callback link [0x00] tx).1 = 3 ∧
    (ConsoleClient.callback link [0x00] tx).2.1.drop 3 = tx.drop 3 ∧
    first2 (ConsoleClient.callback link [0x00] tx).2.1 =
      write_u16_le (device_capabilities_of
        link.real_pad_hub_.load_original_snapshot.identity.capabilities) ∧
    (ConsoleClient.callback link [0x00] tx).2.1.getD 2 0 &&& 0x07 =
      link.shared_console_.load.poll_mode ∧
    ((ConsoleClient.callback link [0x00] tx).2.1.getD 2 0 >>> 3) &&& 0x03 =
      link.shared_console_.load.rumble_mode ∧
    ((ConsoleClient.callback link [0x00] tx).2.1.getD 2 0).testBit 5 =
      !link.real_pad_hub_.load_original_snapshot.identity.runtime.report.origin_sent ∧
    ((ConsoleClient.callback link [0x00] tx).2.1.getD 2 0).testBit 6 =
      link.real_pad_hub_.load_original_snapshot.identity.runtime.report.error_latched ∧
    ((ConsoleClient.callback link [0x00] tx).2.1.getD 2 0).testBit 7 =
      link.real_pad_hub_.load_original_snapshot.identity.runtime.report.error_last ∧
    (ConsoleClient.callback link [0x00] tx).2.2.real_pad_hub_.load_last_tx.raw =
      (ConsoleClient.callback link [0x00] tx).2.2.real_pad_hub_.load_last_tx.modified ∧
    (ConsoleClient.callback link [0x00] tx).2.2.real_pad_hub_.load_last_tx.raw.command =
      Command.Id ∧
    (ConsoleClient.callback link [0x00] tx).2.2.real_pad_hub_.load_last_tx.raw.view =
      (ConsoleClient.callback link [0x00] tx).2.1.take 3 ∧
    (ConsoleClient.callback link [0xFF] tx).1 = 3 ∧
    (ConsoleClient.callback link [0xFF] tx).2.1 = (ConsoleClient.callback link [0x00] tx).2.1 ∧
    (ConsoleClient.callback link [0xFF] tx).2.2.real_pad_hub_.load_last_tx.raw =
      (ConsoleClient.callback link [0xFF] tx).2.2.real_pad_hub_.load_last_tx.modified ∧
    (ConsoleClient.callback link [0xFF] tx).2.2.real_pad_hub_.load_last_tx.raw.command =
      Command.Reset ∧
    (ConsoleClient.callback link [0xFF] tx).2.2.real_pad_hub_.load_last_tx.raw.view =
      (ConsoleClient.callback link [0x00] tx).2.2.real_pad_hub_.load_last_tx.raw.view := by
  obtain ⟨hload, hp, hr⟩ := hsc
  have hp' : link.shared_console_.load.poll_mode ≤ 4 := by rw [hload]; exact hp
  have hr' : link.shared_console_.load.rumble_mode ≤ 2 := by rw [hload]; exact hr
  have hbytes := identity_for_console_bytes link.real_pad_hub_.load_original_snapshot
    link.shared_console_.load hp' hr'
  obtain ⟨-, hpm, -, h5, h6, h7, hrm⟩ :=
    runtime_flags_bits
      link.real_pad_hub_.load_original_snapshot.identity.runtime.report.error_last
      link.real_pad_hub_.load_original_snapshot.identity.runtime.report.error_latched
      link.real_pad_hub_.load_original_snapshot.identity.runtime.report.origin_sent
      link.shared_console_.load.poll_mode (Nat.lt_succ_of_le hp')
      link.shared_console_.load.rumble_mode (Nat.lt_succ_of_le hr')
  rw [ConsoleClient.callback_id link tx hready htx,
    ConsoleClient.callback_reset link tx hready htx ⟨hload, hp, hr⟩]
  simp only [SharedPadHub.load_last_tx, SharedPadHub.publish_tx_from_isr, Latch.load_publish,
    encode_identity, encode_reset_as_id, JoybusReply.view_ofArray, hbytes]
  refine ⟨?_, ?_, ?_, ?_, ?_, ?_, ?_, ?_, ?_, ?_, ?_, ?_, ?_, ?_, ?_, ?_⟩
  all_goals trivial

/-- Witness for C16: an Id frame sent to the Ready `sample_link`, whose console state is
the default (Mode3, Off) while the pad identity holds Mode1 and Brake. -/
theorem console_identity_reply_witness :
    sample_link.pad_state_ = PadConnectionState.Ready ∧
    (ConsoleClient.callback sample_link [0x00] (List.replicate 16 0)).1 = 3 ∧
    (ConsoleClient.callback sample_link [0x00] (List.replicate 16 0)).2.1.take 3 =
      [0x00, 0xAC, 0x63] ∧
    (ConsoleClient.callback sample_link [0x00] (List.replicate 16 0)).2.1.getD 2 0 &&& 0x07 =
      PollMode.Mode3 :=
  ⟨rfl,
   (console_identity_reply sample_link (List.replicate 16 0) rfl (by decide)
      SharedConsole.consistent_init).1,
   by decide,
   (console_identity_reply sample_link (List.replicate 16 0) rfl (by decide)
      SharedConsole.consistent_init).2.2.2.1⟩

/-! ## Pad client: published connection state -/

namespace Measure

theorem PadClient.enter_state_pad_state (pc : PadClient) (link : PadConsoleLink)
    (next : State) : (pc.enter_state_ link next).2.pad_state_ = published_state next := by
  cases next <;> rfl

theorem PadClient.enter_state_state (pc : PadClient) (link : PadConsoleLink) (next : State) :
    (pc.enter_state_ link next).1.state_ = next := rfl

theorem PadClient.send_request_state (pc : PadClient) (link : PadConsoleLink)
    (request : Request) (now_us timeout_us : Nat) (send_ok : Bool) :
    (pc.send_request_ link request now_us timeout_us send_ok).2.1.state_ = pc.state_ := by
  unfold PadClient.send_request_
  split_ifs <;> rfl

theorem PadClient.tick_liveness_published (pc : PadClient) (link : PadConsoleLink)
    (snap : PadSnapshot) (now_us : Nat) (h : link.pad_state_ = published_state pc.state_) :
    (pc.tick_liveness link snap now_us).2.pad_state_ =
      published_state (pc.tick_liveness link snap now_us).1.state_ := by
  unfold PadClient.tick_liveness
  simp only
  split_ifs <;>
    first
      | exact h
      | simp only [PadClient.enter_state_pad_state, PadClient.enter_state_state]

theorem PadClient.tick_console_reset_published (pc : PadClient) (link : PadConsoleLink)
    (h : link.pad_state_ = published_state pc.state_) :
    (pc.tick_console_reset link).2.pad_state_ =
      published_state (pc.tick_console_reset link).1.state_ := by
  unfold PadClient.tick_console_reset
  simp only
  split_ifs <;>
    first
      | exact h
      | simp only [PadClient.enter_state_pad_state, PadClient.enter_state_state]

theorem PadClient.tick_boot_published (pc : PadClient) (link : PadConsoleLink)
    (snap : PadSnapshot) (has : Bool) (now_us : Nat) (send_ok : Bool) (request : Request)
    (next : State) (h : link.pad_state_ = published_state pc.state_) :
    (pc.tick_boot link snap has now_us send_ok request next).2.1.pad_state_ =
      published_state (pc.tick_boot link snap has now_us send_ok request next).1.state_ := by
  unfold PadClient.tick_boot
  split_ifs
  · simp only [PadClient.send_request_state]; exact h
  · simp only [PadClient.enter_state_pad_state, PadClient.enter_state_state]
  · exact h
  · exact h

theorem PadClient.tick_dispatch_published (pc : PadClient) (link : PadConsoleLink)
    (snap : PadSnapshot) (now_us : Nat) (console : ConsoleState) (send_ok : Bool)
    (h : link.pad_state_ = published_state pc.state_) :
    (pc.tick_dispatch link snap now_us console send_ok).2.1.pad_state_ =
      published_state (pc.tick_dispatch link snap now_us console send_ok).1.state_ := by
  unfold PadClient.tick_dispatch
  simp only
  split
  · exact PadClient.tick_boot_published _ _ _ _ _ _ _ _ h
  · split_ifs
    · simp only [PadClient.send_request_state]; exact h
    · simp only [PadClient.enter_state_pad_state, PadClient.enter_state_state]
    · exact h
    · exact h
  · exact PadClient.tick_boot_published _ _ _ _ _ _ _ _ h
  · exact PadClient.tick_boot_published _ _ _ _ _ _ _ _ h
  · exact PadClient.tick_boot_published _ _ _ _ _ _ _ _ h
  · split_ifs
    · simp only [PadClient.send_request_state]; exact h
    · simp only [PadClient.enter_state_pad_state, PadClient.enter_state_state]
    · exact h
    · exact h
  · split_ifs
    · simp only [PadClient.enter_state_pad_state, PadClient.enter_state_state]
    · exact h
    · exact h
    · exact h
    · simp only [PadClient.send_request_state]; exact h
    · simp only [PadClient.send_request_state]; exact h
    · exact h

theorem PadClient.tick_published (pc : PadClient) (link : PadConsoleLink) (now_us : Nat)
    (console : ConsoleState) (send_ok : Bool)
    (h : link.pad_state_ = published_state pc.state_) :
    (pc.tick link now_us console send_ok).2.1.pad_state_ =
      published_state (pc.tick link now_us console send_ok).1.state_ := by
  unfold PadClient.tick
  exact PadClient.tick_dispatch_published _ _ _ _ _ _
    (PadClient.tick_console_reset_published _ _
      (PadClient.tick_liveness_published _ _ _ _ h))

theorem run_published (link : PadConsoleLink)
    (h0 : link.pad_state_ = PadConnectionState.Disconnected) (inputs : List TickInput) :
    (run link inputs).2.pad_state_ = published_state (run link inputs).1.state_ := by
  induction inputs using List.reverseRecOn with
  | nil => exact h0
  | append_singleton inputs inp ih =>
    have : run link (inputs ++ [inp]) = step (run link inputs) inp := by
      simp [run, List.foldl_append]
    rw [this]
    exact PadClient.tick_published _ _ _ _ _ ih

end Measure

/-- C20: for a client constructed on a link whose pad state is still Disconnected, after
construction and after every tick the connection state published on the link is Ready
iff the client state is Ready, Booting iff it is BootId, BootOrigin, BootRecalibrate or
WarmStatus, and Disconnected iff it is Disconnected or Resetting; hence `is_pad_ready()`
is true exactly in state Ready. -/
theorem pad_state_matches_client (link : Measure.PadConsoleLink)
    (h0 : link.pad_state_ = PadConnectionState.Disconnected)
    (inputs : List Measure.TickInput) :
    ((Measure.run link inputs).2.pad_state_ = PadConnectionState.Ready ↔
      (Measure.run link inputs).1.state_ = Measure.State.Ready) ∧
    ((Measure.run link inputs).2.pad_state_ = PadConnectionState.Booting ↔
      ((Measure.run link inputs).1.state_ = Measure.State.BootId ∨
       (Measure.run link inputs).1.state_ = Measure.State.BootOrigin ∨
       (Measure.run link inputs).1.state_ = Measure.State.BootRecalibrate ∨
       (Measure.run link inputs).1.state_ = Measure.State.WarmStatus)) ∧
    ((Measure.run link inputs).2.pad_state_ = PadConnectionState.Disconnected ↔
      ((Measure.run link inputs).1.state_ = Measure.State.Disconnected ∨
       (Measure.run link inputs).1.state_ = Measure.State.Resetting)) ∧
    ((Measure.run link inputs).2.is_pad_ready = true ↔
      (Measure.run link inputs).1.state_ = Measure.State.Ready) := by
  have h := Measure.run_published link h0 inputs
  simp only [Measure.PadConsoleLink.is_pad_ready, Measure.PadConsoleLink.load_pad_state, h]
  cases (Measure.run link inputs).1.state_ <;> simp [Measure.published_state]

/-- Witness for C20: a client on a fresh link, taken through a boot in eight ticks. -/
theorem pad_state_matches_client_witness :
    ({} : Measure.PadConsoleLink).pad_state_ = PadConnectionState.Disconnected ∧
    (Measure.run {} (sample_boot_ticks.take 4)).1.state_ = Measure.State.BootRecalibrate ∧
    (Measure.run {} (sample_boot_ticks.take 4)).2.pad_state_ = PadConnectionState.Booting ∧
    (Measure.run {} sample_boot_ticks).1.state_ = Measure.State.Ready ∧
    (Measure.run {} sample_boot_ticks).2.is_pad_ready = true :=
  ⟨rfl, by decide,
   (pad_state_matches_client {} rfl (sample_boot_ticks.take 4)).2.1.mpr
     (Or.inr (Or.inr (Or.inl (by decide)))),
   by decide,
   (pad_state_matches_client {} rfl sample_boot_ticks).2.2.2.mpr (by decide)⟩

/-! ## Wrap-safe deadlines -/

/-- C25: for every start time t0 (32-bit ones among them), every timeout T below 2^31 and every elapsed time
d with d < T + 2^31 and d < 2^32, `is_timeout_reached` on the wrapped times t0 + d and
t0 + T is true exactly when d >= T; the same holds for `Schedule::has_passed_due`. -/
theorem deadline_wrap_safe (t0 T d : Nat) (hT : T < 2 ^ 31)
    (hd : d < T + 2 ^ 31) (hd32 : d < 2 ^ 32) :
    (Measure.PadClient.is_timeout_reached ((t0 + d) % 2 ^ 32) ((t0 + T) % 2 ^ 32) = true
      ↔ T ≤ d) ∧
    (Measure.Schedule.has_passed_due ((t0 + d) % 2 ^ 32) ((t0 + T) % 2 ^ 32) = true
      ↔ T ≤ d) := by
  simp only [Measure.PadClient.is_timeout_reached, Measure.Schedule.has_passed_due,
    decide_eq_true_eq]
  norm_num at hT hd hd32 ⊢
  omega

/-- Witness for C25: a deadline set 30 ms before the timer wraps and tested after it. -/
theorem deadline_wrap_safe_witness :
    (Measure.PadClient.is_timeout_reached ((4294960000 + 40000) % 2 ^ 32)
      ((4294960000 + 30000) % 2 ^ 32) = true ↔ 30000 ≤ 40000) ∧
    Measure.PadClient.is_timeout_reached 32704 22704 = true ∧
    Measure.PadClient.is_timeout_reached 4294965000 22704 = false :=
  ⟨(deadline_wrap_safe 4294960000 30000 40000 (by norm_num) (by norm_num) (by norm_num)).1,
   by decide, by decide⟩

/-! ## Request epochs -/

theorem PadConsoleLink.consume_request_eq (link : PadConsoleLink) (kind : EpochKind)
    (last_seen : Nat) :
    link.consume_request kind last_seen =
      if link.load_epoch kind = last_seen then (false, last_seen)
      else (true, link.load_epoch kind) := by
  cases kind <;> rfl

theorem PadConsoleLink.load_epoch_publish (link : PadConsoleLink) (kind : EpochKind) :
    (link.publish_request kind).load_epoch kind = (link.load_epoch kind + 1) % 4294967296 := by
  cases kind <;> rfl

theorem Measure.PadConsoleLink.consume_reset_eq (mlink : Measure.PadConsoleLink)
    (last_seen : Nat) :
    mlink.consume_pad_reset_request last_seen =
      if mlink.load_reset_epoch = last_seen then (false, last_seen)
      else (true, mlink.load_reset_epoch) := rfl

theorem Measure.PadConsoleLink.load_reset_epoch_publish (mlink : Measure.PadConsoleLink) :
    mlink.publish_pad_reset_request_from_isr.load_reset_epoch =
      (mlink.load_reset_epoch + 1) % 4294967296 := rfl

/-- C27: for each epoch counter of the bridge link and for the reset epoch of the measure
link, `consume` returns true iff the current epoch differs from last_seen; it then hands
back the current epoch as the new last_seen, and hands back last_seen unchanged when it
returns false; a consume call repeated with the value handed back returns false, and
after the next publish a consume call returns true again. -/
theorem consume_contract (link : PadConsoleLink) (mlink : Measure.PadConsoleLink)
    (kind : EpochKind) (last_seen : Nat) :
    ((link.consume_request kind last_seen).1 = true ↔ link.load_epoch kind ≠ last_seen) ∧
    ((link.consume_request kind last_seen).1 = true →
      (link.consume_request kind last_seen).2 = link.load_epoch kind) ∧
    ((link.consume_request kind last_seen).1 = false →
      (link.consume_request kind last_seen).2 = last_seen) ∧
    (link.consume_request kind (link.consume_request kind last_seen).2).1 = false ∧
    ((link.publish_request kind).consume_request kind
      (link.consume_request kind last_seen).2).1 = true ∧
    ((mlink.consume_pad_reset_request last_seen).1 = true ↔
      mlink.load_reset_epoch ≠ last_seen) ∧
    ((mlink.consume_pad_reset_request last_seen).1 = true →
      (mlink.consume_pad_reset_request last_seen).2 = mlink.load_reset_epoch) ∧
    ((mlink.consume_pad_reset_request last_seen).1 = false →
      (mlink.consume_pad_reset_request last_seen).2 = last_seen) ∧
    (mlink.consume_pad_reset_request (mlink.consume_pad_reset_request last_seen).2).1 = false ∧
    (mlink.publish_pad_reset_request_from_isr.consume_pad_reset_request
      (mlink.consume_pad_reset_request last_seen).2).1 = true := by
  have hne : ∀ n : Nat, ¬ ((n + 1) % 4294967296 = n) := fun n => by omega
  have hne2 : ∀ n : Nat, ¬ (n = (n + 1) % 4294967296) := fun n => by omega
  simp only [PadConsoleLink.consume_request_eq, PadConsoleLink.load_epoch_publish,
    Measure.PadConsoleLink.consume_reset_eq, Measure.PadConsoleLink.load_reset_epoch_publish]
  by_cases h1 : link.load_epoch kind = last_seen <;>
    by_cases h2 : mlink.load_reset_epoch = last_seen <;>
    simp [h1, h2, hne, hne2]

theorem EpochRun.step_trues_le (kind : EpochKind) (run : EpochRun) (call : EpochCall)
    (pubs : Nat)
    (h : run.trues + (if run.link.load_epoch kind = run.last_seen then 0 else 1) ≤ pubs) :
    (run.step kind call).trues +
        (if (run.step kind call).link.load_epoch kind = (run.step kind call).last_seen
          then 0 else 1)
      ≤ pubs + (if call = EpochCall.publish then 1 else 0) := by
  cases call with
  | publish =>
    simp only [EpochRun.step, if_true]
    split_ifs at h ⊢ <;> omega
  | consume =>
    simp only [EpochRun.step, PadConsoleLink.consume_request_eq]
    by_cases he : run.link.load_epoch kind = run.last_seen
    · simp [he] at h ⊢
      exact h
    · simp [he] at h ⊢
      exact h

theorem epoch_history_trues_le (kind : EpochKind) (link : PadConsoleLink)
    (calls : List EpochCall) :
    (epoch_history kind link calls).trues +
        (if (epoch_history kind link calls).link.load_epoch kind =
            (epoch_history kind link calls).last_seen then 0 else 1)
      ≤ calls.count EpochCall.publish := by
  induction calls using List.reverseRecOn with
  | nil => simp [epoch_history]
  | append_singleton calls call ih =>
    have hs : epoch_history kind link (calls ++ [call]) =
        (epoch_history kind link calls).step kind call := by
      simp [epoch_history, List.foldl_append]
    rw [hs]
    have := EpochRun.step_trues_le kind _ call _ ih
    have hc : (calls ++ [call]).count EpochCall.publish =
        calls.count EpochCall.publish + (if call = EpochCall.publish then 1 else 0) := by
      rw [List.count_append, List.count_singleton]
      cases call <;> simp
    rw [hc]
    exact this

/-- A run whose last-seen value equals the epoch stays as it is under consume calls. -/
theorem EpochRun.consume_synced (kind : EpochKind) (n : Nat) (run : EpochRun)
    (h : run.link.load_epoch kind = run.last_seen) :
    (List.replicate n EpochCall.consume).foldl (EpochRun.step kind) run = run := by
  induction n with
  | zero => rfl
  | succ n ih =>
    rw [List.replicate_succ, List.foldl_cons]
    have : run.step kind EpochCall.consume = run := by
      simp [EpochRun.step, PadConsoleLink.consume_request_eq, h]
    rw [this, ih]

/-- One publish followed by at least one consume adds exactly one true and leaves the
last-seen value equal to the epoch. -/
theorem EpochRun.publish_then_consume (kind : EpochKind) (m : Nat) (run : EpochRun)
    (h : run.link.load_epoch kind = run.last_seen) :
    ((EpochCall.publish :: List.replicate (m + 1) EpochCall.consume).foldl
        (EpochRun.step kind) run).trues = run.trues + 1 ∧
    ((EpochCall.publish :: List.replicate (m + 1) EpochCall.consume).foldl
        (EpochRun.step kind) run).link.load_epoch kind =
      ((EpochCall.publish :: List.replicate (m + 1) EpochCall.consume).foldl
        (EpochRun.step kind) run).last_seen := by
  have hne : ¬ ((run.last_seen + 1) % 4294967296 = run.last_seen) := by omega
  have h1 : ((run.step kind EpochCall.publish).step kind EpochCall.consume).link.load_epoch kind
      = ((run.step kind EpochCall.publish).step kind EpochCall.consume).last_seen := by
    simp [EpochRun.step, PadConsoleLink.consume_request_eq,
      PadConsoleLink.load_epoch_publish, h, hne]
  have h2 : ((run.step kind EpochCall.publish).step kind EpochCall.consume).trues =
      run.trues + 1 := by
    simp [EpochRun.step, PadConsoleLink.consume_request_eq,
      PadConsoleLink.load_epoch_publish, h, hne]
  rw [List.replicate_succ, List.foldl_cons, List.foldl_cons,
    EpochRun.consume_synced kind m _ h1]
  exact ⟨h2, h1⟩

theorem separated_history_trues (kind : EpochKind) (gaps : List Nat) :
    ∀ run : EpochRun, run.link.load_epoch kind = run.last_seen →
      ((gaps.map (fun m =>
          EpochCall.publish :: List.replicate (m + 1) EpochCall.consume)).flatten.foldl
        (EpochRun.step kind) run).trues = run.trues + gaps.length := by
  induction gaps with
  | nil => intro run _; rfl
  | cons m gaps ih =>
    intro run h
    obtain ⟨g1, g2⟩ := EpochRun.publish_then_consume kind m run h
    rw [List.map_cons, List.flatten_cons, List.foldl_append, ih _ g2, g1, List.length_cons]
    omega

theorem separated_history_count (lead : Nat) (gaps : List Nat) :
    (separated_history lead gaps).count EpochCall.publish = gaps.length := by
  unfold separated_history
  rw [List.count_append]
  have h1 : (List.replicate lead EpochCall.consume).count EpochCall.publish = 0 := by
    simp [List.count_replicate]
  rw [h1, Nat.zero_add]
  induction gaps with
  | nil => rfl
  | cons m gaps ih =>
    rw [List.map_cons, List.flatten_cons, List.count_append, ih, List.count_cons]
    simp [List.count_replicate]
    omega

/-- C26 (as stated, refuted): two publish calls followed by one consume call make the
consume calls return true once, not twice: the two requests are merged. -/
theorem epoch_requests_merge :
    (epoch_history EpochKind.reset {}
      [EpochCall.publish, EpochCall.publish, EpochCall.consume]).trues = 1 ∧
    [EpochCall.publish, EpochCall.publish, EpochCall.consume].count EpochCall.publish = 2 ∧
    (epoch_history EpochKind.origin {}
      [EpochCall.publish, EpochCall.publish, EpochCall.consume, EpochCall.consume]).trues = 1 ∧
    (epoch_history EpochKind.recalibrate {}
      [EpochCall.publish, EpochCall.publish, EpochCall.publish, EpochCall.consume]).trues
        = 1 := by
  decide

/-- C26 (amended): for each of the reset, origin and recalibrate epochs, in a history that
starts with last_seen equal to the epoch the consume calls return true at most as often
as publish was called; they return true exactly once per publish call when a consume call
follows every publish call before the next publish. -/
theorem epoch_requests_counted (kind : EpochKind) (link : PadConsoleLink)
    (calls : List EpochCall) (lead : Nat) (gaps : List Nat) :
    (epoch_history kind link calls).trues ≤ calls.count EpochCall.publish ∧
    (epoch_history kind link (separated_history lead gaps)).trues =
      (separated_history lead gaps).count EpochCall.publish ∧
    (separated_history lead gaps).count EpochCall.publish = gaps.length := by
  refine ⟨?_, ?_, separated_history_count lead gaps⟩
  · have := epoch_history_trues_le kind link calls
    omega
  · rw [separated_history_count]
    unfold epoch_history separated_history
    rw [List.foldl_append, EpochRun.consume_synced kind lead _ rfl,
      separated_history_trues kind gaps _ rfl]
    simp

/-! ## Latch histories -/

theorem Latch.publish_eq_halves {α : Type} (l : Latch α) (v : α) :
    l.publish v = (l.publish_copy v).1.publish_flip (l.publish_copy v).2 := by
  unfold Latch.publish Latch.publish_copy Latch.publish_flip
  by_cases h : (l.index_ ^^^ 1) % 256 = 0 <;> simp [h]

theorem Latch.load_eq_halves {α : Type} (l : Latch α) : l.load = l.load_copy l.load_index := rfl

theorem Latch.index_after {α : Type} (d : α) (values : List α) :
    (Latch.after d values).index_ = 0 ∨ (Latch.after d values).index_ = 1 := by
  induction values using List.reverseRecOn with
  | nil => exact Or.inl rfl
  | append_singleton values v ih =>
    have hs : Latch.after d (values ++ [v]) = (Latch.after d values).publish v := by
      simp [Latch.after, List.foldl_append]
    rw [hs]
    rcases ih with h | h
    · right
      simp [Latch.publish, h]
    · left
      simp [Latch.publish, h]

/-- C28: in every sequential history of a latch, `load()` returns the argument of the most
recent publish, or the value-initialised value when nothing has been published; each
publish leaves the selected slot as it was, writes its argument to the other slot and
flips the index between 0 and 1. -/
theorem latch_sequential {α : Type} (d : α) (values : List α) (v : α) :
    (Latch.after d values).load = values.getLast?.getD d ∧
    ((Latch.after d values).publish v).load = v ∧
    ((Latch.after d values).index_ = 0 ∨ (Latch.after d values).index_ = 1) ∧
    ((Latch.after d values).publish v).index_ = 1 - (Latch.after d values).index_ ∧
    ((Latch.after d values).publish v).slot (Latch.after d values).index_ =
      (Latch.after d values).slot (Latch.after d values).index_ ∧
    ((Latch.after d values).publish v).slot (1 - (Latch.after d values).index_) = v := by
  have hidx := Latch.index_after d values
  refine ⟨?_, Latch.load_publish _ _, hidx, ?_, ?_, ?_⟩
  · induction values using List.reverseRecOn with
    | nil => rfl
    | append_singleton values w _ =>
      have hs : Latch.after d (values ++ [w]) = (Latch.after d values).publish w := by
        simp [Latch.after, List.foldl_append]
      rw [hs, Latch.load_publish]
      simp
  · rcases hidx with h | h <;> simp [Latch.publish, h]
  · rcases hidx with h | h <;> simp [Latch.publish, Latch.slot, h]
  · rcases hidx with h | h <;> simp [Latch.publish, Latch.slot, h]

theorem LatchRun.sound_init {α : Type} (d : α) :
    LatchRun.Sound ({ latch := Latch.init d, completed := d, at_begin := d } : LatchRun α) := by
  refine ⟨Or.inl rfl, rfl, ?_, ?_, ?_, ?_⟩
  · intro next h; simp at h
  · intro _; rfl
  · intro current h; simp at h
  · intro entry h; simp at h

theorem LatchRun.sound_step {α : Type} (run : LatchRun α) (s : LatchStep α)
    (h : LatchRun.Sound run) : LatchRun.Sound (run.step s) := by
  obtain ⟨hidx, hsel, hw, hwn, hr, hl⟩ := h
  cases s with
  | publish_copy v =>
    unfold LatchRun.step
    cases hwr : run.writer with
    | some next => simp only; exact ⟨hidx, hsel, hw, hwn, hr, hl⟩
    | none =>
      simp only
      rcases hidx with h0 | h1
      · refine ⟨?_, ?_, ?_, ?_, ?_, hl⟩
        · left; simp [Latch.publish_copy, h0]
        · simpa [Latch.publish_copy, Latch.slot, h0] using hsel
        · intro next hn
          simp [Latch.publish_copy, Latch.slot, h0] at hn ⊢
          subst hn
          simp
        · intro hn; simp at hn
        · intro current hc
          obtain ⟨hc01, hcs⟩ := hr current hc
          refine ⟨hc01, ?_⟩
          rcases hc01 with c0 | c1
          · subst c0
            rcases hcs with e | e
            · left; simpa [Latch.publish_copy, Latch.slot, h0] using e
            · right; simp [Latch.publish_copy, Latch.slot, h0] at e ⊢; exact Or.inr e
          · subst c1
            right
            simp [Latch.publish_copy, Latch.slot, h0]
      · refine ⟨?_, ?_, ?_, ?_, ?_, hl⟩
        · right; simp [Latch.publish_copy, h1]
        · simpa [Latch.publish_copy, Latch.slot, h1] using hsel
        · intro next hn
          simp [Latch.publish_copy, Latch.slot, h1] at hn ⊢
          subst hn
          simp
        · intro hn; simp at hn
        · intro current hc
          obtain ⟨hc01, hcs⟩ := hr current hc
          refine ⟨hc01, ?_⟩
          rcases hc01 with c0 | c1
          · subst c0
            right
            simp [Latch.publish_copy, Latch.slot, h1]
          · subst c1
            rcases hcs with e | e
            · left; simpa [Latch.publish_copy, Latch.slot, h1] using e
            · right; simp [Latch.publish_copy, Latch.slot, h1] at e ⊢; exact Or.inr e
  | publish_flip =>
    unfold LatchRun.step
    cases hwr : run.writer with
    | none => simp only; exact ⟨hidx, hsel, hw, hwn, hr, hl⟩
    | some next =>
      obtain ⟨hn01, -, hfl⟩ := hw next hwr
      rw [hfl]
      simp only
      refine ⟨hn01, rfl, ?_, ?_, hr, hl⟩
      · intro n hn; simp at hn
      · intro _; rfl
  | load_index =>
    unfold LatchRun.step
    cases hrd : run.reader with
    | some current => simp only; exact ⟨hidx, hsel, hw, hwn, hr, hl⟩
    | none =>
      simp only
      refine ⟨hidx, hsel, hw, hwn, ?_, hl⟩
      intro current hc
      simp only [Option.some.injEq, Latch.load_index] at hc
      subst hc
      exact ⟨hidx, Or.inl hsel⟩
  | load_copy =>
    unfold LatchRun.step
    cases hrd : run.reader with
    | none => simp only; exact ⟨hidx, hsel, hw, hwn, hr, hl⟩
    | some current =>
      simp only
      refine ⟨hidx, hsel, hw, hwn, ?_, ?_⟩
      · intro c hc; simp at hc
      · intro entry he
        rcases List.mem_cons.mp he with e | e
        · subst e
          exact (hr current hrd).2
        · exact hl entry e

theorem LatchRun.sound_after {α : Type} (d : α) (steps : List (LatchStep α)) :
    LatchRun.Sound (LatchRun.after d steps) := by
  induction steps using List.reverseRecOn with
  | nil => exact LatchRun.sound_init d
  | append_singleton steps s ih =>
    have hs : LatchRun.after d (steps ++ [s]) = (LatchRun.after d steps).step s := by
      simp [LatchRun.after, List.foldl_append]
    rw [hs]
    exact LatchRun.sound_step _ s ih

/-- C29: in every interleaving of one writer and one reader, publish being the
two steps copy-into-the-other-slot and flip-the-index and load the two steps
read-the-index and copy-that-slot, every load returns a value passed whole to some
publish or the initial value: the last value whose publish had completed when the load
began, or a value copied into a slot while the load ran. -/
theorem latch_interleaving_safe {α : Type} (d : α) (steps : List (LatchStep α)) :
    ∀ entry ∈ (LatchRun.after d steps).loads, entry.1 = entry.2.1 ∨ entry.1 ∈ entry.2.2 :=
  (LatchRun.sound_after d steps).2.2.2.2.2

/-- Witness for C29: a load that reads the index, is overtaken by one whole publish and
the first half of another, and then copies the slot the second publish has just filled. -/
theorem latch_interleaving_safe_witness :
    ((7 : Nat), (0 : Nat), [(7 : Nat), 5]) ∈
      (LatchRun.after (0 : Nat)
        [LatchStep.load_index, LatchStep.publish_copy 5, LatchStep.publish_flip,
         LatchStep.publish_copy 7, LatchStep.load_copy]).loads ∧
    ((7 : Nat) = 0 ∨ (7 : Nat) ∈ [(7 : Nat), 5]) :=
  ⟨by decide,
   latch_interleaving_safe (0 : Nat)
     [LatchStep.load_index, LatchStep.publish_copy 5, LatchStep.publish_flip,
      LatchStep.publish_copy 7, LatchStep.load_copy] ((7 : Nat), (0 : Nat), [(7 : Nat), 5])
     (by decide)⟩

/-! ## Pipeline registration -/

theorem Pipeline.add_stage_true_iff (p : Pipeline) (stage : Stage) :
    (p.add_stage stage).1 = true ↔ stage.func.isSome = true ∧ p.size < 16 := by
  unfold Pipeline.add_stage Pipeline.size
  cases hf : stage.func with
  | none => simp
  | some f =>
    simp only [Option.isNone_some, Bool.false_eq_true, if_false, kMaxStages, Option.isSome_some,
      true_and]
    split_ifs with h
    · simp; omega
    · simp; omega

theorem Pipeline.add_stage_false (p : Pipeline) (stage : Stage)
    (h : (p.add_stage stage).1 = false) : (p.add_stage stage).2 = p := by
  unfold Pipeline.add_stage at h ⊢
  split_ifs at h ⊢ <;> rfl

/-- The stage array keeps its 16 slots, the count stays at most 16 and no mask bit is set
at or above the count. -/
theorem Pipeline.after_shape (calls : List PipelineCall) :
    (Pipeline.after calls).stages_.length = 16 ∧ (Pipeline.after calls).stage_count_ ≤ 16 ∧
    ∀ i, (Pipeline.after calls).stage_count_ ≤ i →
      (Pipeline.after calls).enable_mask_.testBit i = false := by
  induction calls using List.reverseRecOn with
  | nil =>
    refine ⟨rfl, by decide, fun i _ => ?_⟩
    simp [Pipeline.after]
  | append_singleton calls call ih =>
    obtain ⟨h1, h2, h3⟩ := ih
    cases call with
    | add_stage stage =>
      have hs : Pipeline.after (calls ++ [PipelineCall.add_stage stage]) =
          ((Pipeline.after calls).add_stage stage).2 := by
        simp [Pipeline.after, List.foldl_append]
      rw [hs]
      unfold Pipeline.add_stage
      split_ifs with hn hf
      · exact ⟨h1, h2, h3⟩
      · exact ⟨h1, h2, h3⟩
      · simp only [kMaxStages, ge_iff_le, not_le] at hf
        refine ⟨by simp [h1], by simp only; omega, fun i hi => ?_⟩
        simp only at hi
        have hne : ¬ ((Pipeline.after calls).stage_count_ = i) := by omega
        simp only [one_shiftLeft_mod _ (by omega : (Pipeline.after calls).stage_count_ < 32),
          testBit_mod_u32, Nat.testBit_or, h3 i (by omega), testBit_one_shiftLeft, hne,
          decide_False, Bool.or_self, Bool.and_false]
    | set_stage_enabled index enable =>
      have hs : Pipeline.after (calls ++ [PipelineCall.set_stage_enabled index enable]) =
          (Pipeline.after calls).set_stage_enabled index enable := by
        simp [Pipeline.after, List.foldl_append]
      rw [hs]
      unfold Pipeline.set_stage_enabled
      split_ifs with hi he
      · exact ⟨h1, h2, h3⟩
      · refine ⟨h1, h2, fun i hci => ?_⟩
        simp only at hci
        have hne : ¬ (index = i) := by omega
        simp only [one_shiftLeft_mod _ (by omega : index < 32), testBit_mod_u32,
          Nat.testBit_or, h3 i hci, testBit_one_shiftLeft, hne, decide_False, Bool.or_self,
          Bool.and_false]
      · refine ⟨h1, h2, fun i hci => ?_⟩
        simp only at hci
        simp only [testBit_mod_u32, Nat.testBit_and, h3 i hci, Bool.false_and, Bool.and_false]

/-- C30: for a pipeline reached by any calls, `add_stage` returns true iff the function
pointer is non-null and fewer than 16 stages are registered; on success the stage sits at
index size(), size() has grown by 1, that index is enabled and all earlier stages and
their enabled flags are as before; on failure the pipeline is unchanged;
`set_stage_enabled` with an index at or above size() changes nothing, and no enable bit is
set at or above size(). -/
theorem add_stage_contract (calls : List PipelineCall) (stage : Stage) (index : Nat)
    (enable : Bool) :
    (((Pipeline.after calls).add_stage stage).1 = true ↔
      stage.func.isSome = true ∧ (Pipeline.after calls).size < 16) ∧
    (((Pipeline.after calls).add_stage stage).1 = true →
      ((Pipeline.after calls).add_stage stage).2.stages_.getD (Pipeline.after calls).size {}
        = stage ∧
      ((Pipeline.after calls).add_stage stage).2.size = (Pipeline.after calls).size + 1 ∧
      ((Pipeline.after calls).add_stage stage).2.is_stage_enabled (Pipeline.after calls).size
        = true ∧
      ∀ i, i < (Pipeline.after calls).size →
        ((Pipeline.after calls).add_stage stage).2.stages_.getD i {} =
          (Pipeline.after calls).stages_.getD i {} ∧
        ((Pipeline.after calls).add_stage stage).2.is_stage_enabled i =
          (Pipeline.after calls).is_stage_enabled i) ∧
    (((Pipeline.after calls).add_stage stage).1 = false →
      ((Pipeline.after calls).add_stage stage).2 = Pipeline.after calls) ∧
    ((Pipeline.after calls).size ≤ index →
      (Pipeline.after calls).set_stage_enabled index enable = Pipeline.after calls) ∧
    (∀ i, (Pipeline.after calls).size ≤ i →
      (Pipeline.after calls).enable_mask_.testBit i = false ∧
      (Pipeline.after calls).is_stage_enabled i = false) := by
  obtain ⟨hlen, hcount, hmask⟩ := Pipeline.after_shape calls
  refine ⟨Pipeline.add_stage_true_iff _ _, ?_, Pipeline.add_stage_false _ _, ?_, ?_⟩
  · intro hok
    obtain ⟨hsome, hlt⟩ := (Pipeline.add_stage_true_iff _ _).mp hok
    have hnone : stage.func.isNone = false := by
      cases hf : stage.func with
      | none => rw [hf] at hsome; simp at hsome
      | some f => rfl
    simp only [Pipeline.size] at hlt ⊢
    have hge : ¬ ((Pipeline.after calls).stage_count_ ≥ kMaxStages) := by
      simp only [kMaxStages]; omega
    simp only [Pipeline.add_stage, hnone, Bool.false_eq_true, if_false, hge]
    refine ⟨?_, ?_, ?_, ?_⟩
    · simp [List.getD_eq_getElem?_getD, List.getElem?_set, hlen, hlt]
    · trivial
    · have h32 : (Pipeline.after calls).stage_count_ < 32 := by omega
      simp only [Pipeline.is_stage_enabled, ge_iff_le, add_le_iff_nonpos_right,
        nonpos_iff_eq_zero, one_ne_zero, if_false, one_shiftLeft_mod _ h32, and_bit_ne_zero,
        testBit_mod_u32, Nat.testBit_or, testBit_one_shiftLeft, decide_True, Bool.or_true,
        Bool.and_true, decide_eq_true_eq]
      exact h32
    · intro i hi
      have hne : ¬ ((Pipeline.after calls).stage_count_ = i) := by omega
      have h32 : (Pipeline.after calls).stage_count_ < 32 := by omega
      have hi32 : i < 32 := by omega
      have hnge : ¬ (i ≥ (Pipeline.after calls).stage_count_) := by omega
      have hnge1 : ¬ (i ≥ (Pipeline.after calls).stage_count_ + 1) := by omega
      refine ⟨?_, ?_⟩
      · simp [List.getD_eq_getElem?_getD, List.getElem?_set, hne]
      · simp only [Pipeline.is_stage_enabled, hnge, hnge1, if_false,
          one_shiftLeft_mod _ h32, one_shiftLeft_mod _ hi32, and_bit_ne_zero, testBit_mod_u32,
          Nat.testBit_or, testBit_one_shiftLeft, hne, decide_False, Bool.or_false, hi32,
          decide_True, Bool.true_and]
  · intro hge
    simp only [Pipeline.size] at hge
    simp [Pipeline.set_stage_enabled, hge]
  · intro i hi
    simp only [Pipeline.size] at hi
    refine ⟨hmask i hi, ?_⟩
    simp [Pipeline.is_stage_enabled, hi]

/-! ## Pad client: requests, boot, console reset and liveness -/

namespace Measure

theorem PadClient.send_request_frame (pc : PadClient)
    (link : PadConsoleLink) (request : Request) (now_us timeout_us : Nat)
    (send_ok : Bool) :
    (pc.send_request_ link request now_us timeout_us send_ok).2.2 = none ∨
    (pc.send_request_ link request now_us timeout_us send_ok).2.2 = some request.bytes := by
  unfold PadClient.send_request_
  split_ifs <;> simp

theorem PadClient.tick_boot_frame (pc : PadClient)
    (link : PadConsoleLink) (snap : PadSnapshot) (has : Bool) (now_us : Nat)
    (send_ok : Bool) (request : Request) (next : State) :
    (pc.tick_boot link snap has now_us send_ok request next).2.2 = none ∨
    ((pc.tick_boot link snap has now_us send_ok request next).2.2 = some request.bytes ∧
      (pc.tick_boot link snap has now_us send_ok request next).1.state_ = pc.state_) := by
  unfold PadClient.tick_boot
  split_ifs
  · rcases PadClient.send_request_frame pc link request now_us
      BOOT_TIMEOUT_US send_ok with h | h
    · exact Or.inl h
    · exact Or.inr ⟨h, PadClient.send_request_state _ _ _ _ _ _⟩
  · exact Or.inl rfl
  · exact Or.inl rfl
  · exact Or.inl rfl

theorem PadClient.tick_dispatch_frame (pc : PadClient)
    (link : PadConsoleLink) (snap : PadSnapshot) (now_us : Nat)
    (console : ConsoleState) (send_ok : Bool) :
    (pc.tick_dispatch link snap now_us console send_ok).2.2 = none ∨
    (pc.tick_dispatch link snap now_us console send_ok).2.2 =
      some (request_of console
        (pc.tick_dispatch link snap now_us console send_ok).1.state_).bytes := by
  unfold PadClient.tick_dispatch
  simp only
  split
  · next hs =>
    rcases PadClient.tick_boot_frame pc link snap
      (snap.publish_count != pc.await_publish_count_) now_us send_ok Joybus.Id
      State.BootOrigin with h | ⟨h, h2⟩
    · exact Or.inl h
    · right; rw [h, h2, hs]; rfl
  · next hs =>
    split_ifs
    · rcases PadClient.send_request_frame pc link Joybus.Reset now_us
        BOOT_TIMEOUT_US send_ok with h | h
      · exact Or.inl h
      · right; simp only [h, PadClient.send_request_state, hs]; rfl
    · exact Or.inl rfl
    · exact Or.inl rfl
    · exact Or.inl rfl
  · next hs =>
    rcases PadClient.tick_boot_frame pc link snap
      (snap.publish_count != pc.await_publish_count_) now_us send_ok Joybus.Id
      State.BootOrigin with h | ⟨h, h2⟩
    · exact Or.inl h
    · right; rw [h, h2, hs]; rfl
  · next hs =>
    rcases PadClient.tick_boot_frame pc link snap
      (snap.publish_count != pc.await_publish_count_) now_us send_ok Joybus.Origin
      State.BootRecalibrate with h | ⟨h, h2⟩
    · exact Or.inl h
    · right; rw [h, h2, hs]; rfl
  · next hs =>
    rcases PadClient.tick_boot_frame pc link snap
      (snap.publish_count != pc.await_publish_count_) now_us send_ok Joybus.Recalibrate
      State.WarmStatus with h | ⟨h, h2⟩
    · exact Or.inl h
    · right; rw [h, h2, hs]; rfl
  · next hs =>
    split_ifs
    · rcases PadClient.send_request_frame pc link
        (Joybus.Status kPadPollModeForQuery console.rumble_mode) now_us
        BOOT_TIMEOUT_US send_ok with h | h
      · exact Or.inl h
      · right; simp only [h, PadClient.send_request_state, hs]; rfl
    · exact Or.inl rfl
    · exact Or.inl rfl
    · exact Or.inl rfl
  · next hs =>
    split_ifs
    · exact Or.inl rfl
    · exact Or.inl rfl
    · exact Or.inl rfl
    · exact Or.inl rfl
    · rcases PadClient.send_request_frame
        { pc with last_reset_epoch_ := (link.consume_pad_reset_request pc.last_reset_epoch_).2 }
        link
        (Joybus.Status kPadPollModeForQuery console.rumble_mode) now_us
        BOOT_TIMEOUT_US send_ok with h | h
      · exact Or.inl h
      · right; rw [h]; simp only [PadClient.send_request_state, hs]; rfl
    · rcases PadClient.send_request_frame
        { pc with last_reset_epoch_ := (link.consume_pad_reset_request pc.last_reset_epoch_).2 }
        link
        (Joybus.Status kPadPollModeForQuery console.rumble_mode) now_us
        BOOT_TIMEOUT_US send_ok with h | h
      · exact Or.inl h
      · right; rw [h]; simp only [PadClient.send_request_state, hs]; rfl
    · exact Or.inl rfl

theorem PadClient.tick_dispatch_poll_mode (pc : PadClient)
    (link : PadConsoleLink) (snap : PadSnapshot) (now_us : Nat)
    (console : ConsoleState) (send_ok : Bool) (pm : PollMode) :
    pc.tick_dispatch link snap now_us { console with poll_mode := pm } send_ok =
      pc.tick_dispatch link snap now_us console send_ok := rfl

theorem snapshot_after_count (snap : PadSnapshot) (cmd : Nat) (rx : List Nat)
    (h : accepted_reply cmd rx) :
    (snapshot_after snap cmd rx).publish_count = (snap.publish_count + 1) % 2 ^ 32 ∧
    (snapshot_after snap cmd rx).last_rx_command = cmd := by
  unfold snapshot_after
  unfold accepted_reply at h
  split_ifs with h1 h2 h3
  · exact ⟨rfl, rfl⟩
  · exact ⟨rfl, rfl⟩
  · exact ⟨rfl, rfl⟩
  · rcases h with h | h | h
    · exact absurd h h1
    · exact absurd h h2
    · exact absurd h h3

theorem PadClient.tick_liveness_same (pc : PadClient) (link : PadConsoleLink)
    (snap : PadSnapshot) (now_us : Nat)
    (hcount : snap.publish_count = pc.last_publish_count_)
    (halive : pc.state_ = State.Disconnected ∨ (pc.last_seen_us_ ≠ 0 ∧
      PadClient.is_timeout_reached now_us
        ((pc.last_seen_us_ + PAD_TIMEOUT_US) % 4294967296) = false)) :
    pc.tick_liveness link snap now_us = (pc, link) := by
  unfold PadClient.tick_liveness
  simp only [hcount, ne_eq, not_true_eq_false, if_false]
  rcases halive with h | ⟨h1, h2⟩
  · simp [h]
  · simp [h1, h2]

theorem PadClient.not_timeout_at_seen (now_us : Nat) :
    PadClient.is_timeout_reached now_us ((now_us + PAD_TIMEOUT_US) % 4294967296) = false := by
  simp only [PadClient.is_timeout_reached, PAD_TIMEOUT_US, decide_eq_false_iff_not]
  omega

theorem PadClient.tick_liveness_new (pc : PadClient) (link : PadConsoleLink)
    (snap : PadSnapshot) (now_us : Nat)
    (hcount : snap.publish_count ≠ pc.last_publish_count_) (hnow : now_us ≠ 0) :
    pc.tick_liveness link snap now_us =
      ({ pc with last_publish_count_ := snap.publish_count, last_seen_us_ := now_us },
        link) := by
  unfold PadClient.tick_liveness
  simp [hcount, hnow, PadClient.not_timeout_at_seen]

theorem PadClient.tick_console_reset_none (pc : PadClient) (link : PadConsoleLink)
    (h : link.reset_epoch_ = pc.last_reset_epoch_) :
    pc.tick_console_reset link = (pc, link) := by
  unfold PadClient.tick_console_reset
  simp [PadConsoleLink.consume_pad_reset_request, PadConsoleLink.load_reset_epoch, h]

theorem PadClient.tick_dispatch_send (pc : PadClient) (link : PadConsoleLink)
    (snap : PadSnapshot) (now_us : Nat) (console : ConsoleState) (s : State)
    (hs : s = State.Disconnected ∨ s = State.BootOrigin ∨ s = State.BootRecalibrate ∨
      s = State.WarmStatus)
    (hstate : pc.state_ = s) (hawait : pc.await_command_ = Command.Invalid.toByte) :
    pc.tick_dispatch link snap now_us console true =
      ({ pc with
          response_deadline_us_ := (now_us + BOOT_TIMEOUT_US) % 4294967296
          await_command_ := (request_of console s).command
          await_publish_count_ := link.real_pad_hub_.load_original_snapshot.publish_count },
        link, some (request_of console s).bytes) := by
  have hw : pc.waiting_response_ = false := by
    simp [PadClient.waiting_response_, PadClient.awaiting_command_, hawait, is_valid_command,
      Command.toByte]
  unfold PadClient.tick_dispatch
  rcases hs with h | h | h | h <;> subst h <;> rw [hstate] <;>
    simp [PadClient.tick_boot, PadClient.send_request_, hw, request_of, Joybus.Id,
      Joybus.Origin, Joybus.Recalibrate, Joybus.Status, Request.bytes, Request.command, hstate]

theorem PadClient.tick_dispatch_receive (pc : PadClient) (link : PadConsoleLink)
    (snap : PadSnapshot) (now_us : Nat) (console : ConsoleState) (send_ok : Bool) (s : State)
    (hs : s = State.Disconnected ∨ s = State.BootOrigin ∨ s = State.BootRecalibrate ∨
      s = State.WarmStatus)
    (hstate : pc.state_ = s) (hawait : pc.await_command_ = (request_of console s).command)
    (hresp : snap.publish_count ≠ pc.await_publish_count_)
    (hcmd : snap.last_rx_command = (request_of console s).command) :
    (pc.tick_dispatch link snap now_us console send_ok).1.state_ = next_of s ∧
    (pc.tick_dispatch link snap now_us console send_ok).1.await_command_ =
      Command.Invalid.toByte ∧
    (pc.tick_dispatch link snap now_us console send_ok).1.last_publish_count_ =
      pc.last_publish_count_ ∧
    (pc.tick_dispatch link snap now_us console send_ok).1.last_seen_us_ = pc.last_seen_us_ ∧
    (pc.tick_dispatch link snap now_us console send_ok).1.last_reset_epoch_ =
      pc.last_reset_epoch_ ∧
    (pc.tick_dispatch link snap now_us console send_ok).2.1 =
      { link with pad_state_ := published_state (next_of s) } ∧
    (pc.tick_dispatch link snap now_us console send_ok).2.2 = none := by
  have hw : pc.waiting_response_ = true := by
    rcases hs with h | h | h | h <;> subst h <;>
      simp [PadClient.waiting_response_, PadClient.awaiting_command_, hawait, is_valid_command,
        Command.toByte, request_of, Joybus.Id, Joybus.Origin, Joybus.Recalibrate,
        Joybus.Status, Request.command]
  unfold PadClient.tick_dispatch
  rcases hs with h | h | h | h <;> subst h <;> rw [hstate] <;>
    simp [PadClient.tick_boot, PadClient.got, hw, PadClient.awaiting_command_, hawait, hresp,
      hcmd, request_of, Joybus.Id, Joybus.Origin, Joybus.Recalibrate, Joybus.Status,
      Request.command, Command.toByte, PadClient.enter_state_, PadClient.abort_wait_,
      PadClient.publish_pad_state_to_link, PadConsoleLink.publish_pad_state_from_main,
      next_of, published_state]

theorem request_of_valid (console : ConsoleState) (s : State) :
    is_valid_command (request_of console s).command = true := by
  cases s <;> rfl

theorem boot_step_send (reply : List Nat → List Nat)
    (st : PadClient × PadConsoleLink) (now_us : Nat) (console : ConsoleState) (s : State)
    (n seen : Nat)
    (hs : s = State.Disconnected ∨ s = State.BootOrigin ∨ s = State.BootRecalibrate ∨
      s = State.WarmStatus)
    (h : Idle s n seen st)
    (halive : s = State.Disconnected ∨ (seen ≠ 0 ∧
      PadClient.is_timeout_reached now_us ((seen + PAD_TIMEOUT_US) % 4294967296) = false))
    (hn : n + 1 < 4294967296)
    (hreply : accepted_reply (request_of console s).command
      (reply (request_of console s).bytes)) :
    Answered s (request_of console s).command n (boot_step reply st (now_us, console)) := by
  obtain ⟨pc, link⟩ := st
  obtain ⟨hstate, hawait, hlast, hseen, hepoch, hshadow, hcount, hpub⟩ := h
  simp only at hstate hawait hlast hseen hepoch hshadow hcount hpub
  have hsnap : link.real_pad_hub_.load_original_snapshot.publish_count = n := hcount
  have htick : pc.tick link now_us console true =
      ({ pc with
          response_deadline_us_ := (now_us + BOOT_TIMEOUT_US) % 4294967296
          await_command_ := (request_of console s).command
          await_publish_count_ := n }, link, some (request_of console s).bytes) := by
    simp only [PadClient.tick]
    rw [PadClient.tick_liveness_same pc link _ now_us (hsnap.trans hlast.symm)
      (by rw [hstate, hseen]; exact halive)]
    simp only
    rw [PadClient.tick_console_reset_none pc link hepoch]
    simp only
    rw [PadClient.tick_dispatch_send pc link _ now_us console s hs hstate hawait, hsnap]
  obtain ⟨hsh2, hload⟩ := SharedPad.on_response_isr_step link.real_pad_hub_.rx_
    (request_of console s).command (reply (request_of console s).bytes) hshadow
  obtain ⟨hc1, hc2⟩ := snapshot_after_count link.real_pad_hub_.rx_.load
    (request_of console s).command (reply (request_of console s).bytes) hreply
  have hbs : boot_step reply (pc, link) (now_us, console) =
      ({ pc with
          response_deadline_us_ := (now_us + BOOT_TIMEOUT_US) % 4294967296
          await_command_ := (request_of console s).command
          await_publish_count_ := n },
       { link with real_pad_hub_ := { link.real_pad_hub_ with
          rx_ := link.real_pad_hub_.rx_.on_response_isr (request_of console s).command
            (reply (request_of console s).bytes) } }) := by
    show answer reply (pc.tick link now_us console true) = _
    rw [htick]
    simp only [answer, PadClient.callback, request_of_valid, Bool.not_true,
      Bool.false_eq_true, if_false, SharedPadHub.on_pad_response_isr]
  rw [hbs]
  constructor
  · exact hstate
  · rfl
  · rfl
  · exact hlast
  · exact hepoch
  · exact hsh2
  · show (link.real_pad_hub_.rx_.on_response_isr _ _).load.publish_count = n + 1
    rw [hload, hc1, hcount]
    norm_num
    omega
  · show (link.real_pad_hub_.rx_.on_response_isr _ _).load.last_rx_command = _
    rw [hload, hc2]
  · exact hpub

theorem boot_step_receive (reply : List Nat → List Nat)
    (st : PadClient × PadConsoleLink) (now_us : Nat) (console : ConsoleState) (s : State)
    (n : Nat)
    (hs : s = State.Disconnected ∨ s = State.BootOrigin ∨ s = State.BootRecalibrate ∨
      s = State.WarmStatus)
    (h : Answered s (request_of console s).command n st) (hnow : now_us ≠ 0) :
    Idle (next_of s) (n + 1) now_us (boot_step reply st (now_us, console)) := by
  obtain ⟨pc, link⟩ := st
  obtain ⟨hstate, hawait, hac, hlast, hepoch, hshadow, hcount, hcmd, hpub⟩ := h
  simp only at hstate hawait hac hlast hepoch hshadow hcount hcmd hpub
  have hsnap : link.real_pad_hub_.load_original_snapshot.publish_count = n + 1 := hcount
  have hcmd2 : link.real_pad_hub_.load_original_snapshot.last_rx_command =
      (request_of console s).command := hcmd
  obtain ⟨h1, h2, h3, h4, h5, h6, h7⟩ := PadClient.tick_dispatch_receive
    { pc with last_publish_count_ := n + 1, last_seen_us_ := now_us } link
    link.real_pad_hub_.load_original_snapshot now_us console true s hs hstate hawait
    (by rw [hsnap]; show n + 1 ≠ pc.await_publish_count_; omega) hcmd2
  have htick : pc.tick link now_us console true =
      PadClient.tick_dispatch { pc with last_publish_count_ := n + 1, last_seen_us_ := now_us }
        link link.real_pad_hub_.load_original_snapshot now_us console true := by
    simp only [PadClient.tick]
    rw [PadClient.tick_liveness_new pc link _ now_us (by rw [hsnap, hlast]; omega) hnow]
    simp only
    rw [PadClient.tick_console_reset_none
      { pc with last_publish_count_ := link.real_pad_hub_.load_original_snapshot.publish_count,
                last_seen_us_ := now_us } link hepoch, hsnap]
  have hbs : boot_step reply (pc, link) (now_us, console) =
      ((PadClient.tick_dispatch
          { pc with last_publish_count_ := n + 1, last_seen_us_ := now_us }
          link link.real_pad_hub_.load_original_snapshot now_us console true).1,
       { link with pad_state_ := published_state (next_of s) }) := by
    show answer reply (pc.tick link now_us console true) = _
    rw [htick]
    unfold answer
    rw [h7, h6]
  rw [hbs]
  constructor
  · exact h1
  · exact h2
  · exact h3
  · exact h4
  · exact hepoch.trans h5.symm
  · exact hshadow
  · exact hcount
  · exact congrArg published_state h1.symm

theorem boot_run_succ (reply : List Nat → List Nat) (t : Nat → Nat)
    (c : Nat → ConsoleState) (n : Nat) :
    boot_run reply (ticks t c (n + 1)) =
      boot_step reply (boot_run reply (ticks t c n)) (t n, c n) := by
  simp [boot_run, ticks, List.range_succ, List.foldl_append]

theorem idle_create : Idle State.Disconnected 0 0 (PadClient.create {}, {}) :=
  ⟨rfl, rfl, rfl, rfl, rfl, rfl, rfl, rfl⟩

theorem PadClient.alive_within (seen now_us : Nat) (h0 : 0 < seen)
    (h1 : seen < now_us) (h2 : now_us < seen + 100000) :
    seen ≠ 0 ∧
    PadClient.is_timeout_reached now_us ((seen + PAD_TIMEOUT_US) % 4294967296) = false := by
  refine ⟨by omega, ?_⟩
  simp only [PadClient.is_timeout_reached, PAD_TIMEOUT_US, decide_eq_false_iff_not]
  omega

/-- The phases of a boot: after ticks 1, 3, 5, 7 a request is out and answered, after
ticks 2, 4, 6, 8 the client has moved on to the next state. -/
theorem boot_phases (reply : List Nat → List Nat) (t : Nat → Nat)
    (c : Nat → ConsoleState)
    (hid : (reply [0x00]).length = 3) (horigin : (reply [0x41]).length = 10)
    (hrecal : (reply [0x42, 0x00, 0x00]).length = 10)
    (hstatus : ∀ r, (reply [0x40, 0x03, r]).length = 8)
    (ht0 : 0 < t 0) (hinc : ∀ k, k < 7 → t k < t (k + 1))
    (hgap : ∀ k, k < 7 → t (k + 1) < t k + 100000) :
    Answered State.Disconnected 0x00 0 (boot_run reply (ticks t c 1)) ∧
    Idle State.BootOrigin 1 (t 1) (boot_run reply (ticks t c 2)) ∧
    Answered State.BootOrigin 0x41 1 (boot_run reply (ticks t c 3)) ∧
    Idle State.BootRecalibrate 2 (t 3) (boot_run reply (ticks t c 4)) ∧
    Answered State.BootRecalibrate 0x42 2 (boot_run reply (ticks t c 5)) ∧
    Idle State.WarmStatus 3 (t 5) (boot_run reply (ticks t c 6)) ∧
    Answered State.WarmStatus 0x40 3 (boot_run reply (ticks t c 7)) ∧
    Idle State.Ready 4 (t 7) (boot_run reply (ticks t c 8)) := by
  have i01 : t 0 < t 1 := hinc 0 (by omega)
  have i12 : t 1 < t 2 := hinc 1 (by omega)
  have i23 : t 2 < t 3 := hinc 2 (by omega)
  have i34 : t 3 < t 4 := hinc 3 (by omega)
  have i45 : t 4 < t 5 := hinc 4 (by omega)
  have i56 : t 5 < t 6 := hinc 5 (by omega)
  have i67 : t 6 < t 7 := hinc 6 (by omega)
  have g12 : t 2 < t 1 + 100000 := hgap 1 (by omega)
  have g34 : t 4 < t 3 + 100000 := hgap 3 (by omega)
  have g56 : t 6 < t 5 + 100000 := hgap 5 (by omega)
  have s1 : Answered State.Disconnected 0x00 0 (boot_run reply (ticks t c 1)) := by
    rw [boot_run_succ]
    exact boot_step_send reply _ (t 0) (c 0) State.Disconnected 0 0 (Or.inl rfl)
      idle_create (Or.inl rfl) (by norm_num) (Or.inr (Or.inr ⟨Or.inl rfl, hid⟩))
  have s2 : Idle State.BootOrigin 1 (t 1) (boot_run reply (ticks t c 2)) := by
    rw [boot_run_succ]
    exact boot_step_receive reply _ (t 1) (c 1) State.Disconnected 0 (Or.inl rfl) s1
      (by omega)
  have s3 : Answered State.BootOrigin 0x41 1 (boot_run reply (ticks t c 3)) := by
    rw [boot_run_succ]
    exact boot_step_send reply _ (t 2) (c 2) State.BootOrigin 1 (t 1) (Or.inr (Or.inl rfl))
      s2 (Or.inr (PadClient.alive_within _ _ (by omega) i12 g12)) (by norm_num)
      (Or.inr (Or.inl ⟨Or.inl rfl, horigin⟩))
  have s4 : Idle State.BootRecalibrate 2 (t 3) (boot_run reply (ticks t c 4)) := by
    rw [boot_run_succ]
    exact boot_step_receive reply _ (t 3) (c 3) State.BootOrigin 1 (Or.inr (Or.inl rfl)) s3
      (by omega)
  have s5 : Answered State.BootRecalibrate 0x42 2 (boot_run reply (ticks t c 5)) := by
    rw [boot_run_succ]
    exact boot_step_send reply _ (t 4) (c 4) State.BootRecalibrate 2 (t 3)
      (Or.inr (Or.inr (Or.inl rfl))) s4
      (Or.inr (PadClient.alive_within _ _ (by omega) i34 g34)) (by norm_num)
      (Or.inr (Or.inl ⟨Or.inr rfl, hrecal⟩))
  have s6 : Idle State.WarmStatus 3 (t 5) (boot_run reply (ticks t c 6)) := by
    rw [boot_run_succ]
    exact boot_step_receive reply _ (t 5) (c 5) State.BootRecalibrate 2
      (Or.inr (Or.inr (Or.inl rfl))) s5 (by omega)
  have s7 : Answered State.WarmStatus 0x40 3 (boot_run reply (ticks t c 7)) := by
    rw [boot_run_succ]
    exact boot_step_send reply _ (t 6) (c 6) State.WarmStatus 3 (t 5)
      (Or.inr (Or.inr (Or.inr rfl))) s6
      (Or.inr (PadClient.alive_within _ _ (by omega) i56 g56)) (by norm_num)
      (Or.inl ⟨rfl, hstatus _⟩)
  have s8 : Idle State.Ready 4 (t 7) (boot_run reply (ticks t c 8)) := by
    rw [boot_run_succ]
    exact boot_step_receive reply _ (t 7) (c 7) State.WarmStatus 3
      (Or.inr (Or.inr (Or.inr rfl))) s7 (by omega)
  exact ⟨s1, s2, s3, s4, s5, s6, s7, s8⟩

theorem is_pad_ready_published (link : PadConsoleLink) (s : State)
    (h : link.pad_state_ = published_state s) :
    link.is_pad_ready = decide (s = State.Ready) := by
  simp only [PadConsoleLink.is_pad_ready, PadConsoleLink.load_pad_state, h]
  cases s <;> rfl

theorem PadClient.tick_liveness_alive (pc : PadClient) (link : PadConsoleLink)
    (now_us : Nat) (h : pc.pad_alive link now_us = true) :
    (pc.tick_liveness link link.real_pad_hub_.load_original_snapshot now_us).1.state_ =
      pc.state_ ∧
    (pc.tick_liveness link link.real_pad_hub_.load_original_snapshot now_us).1.await_command_ =
      pc.await_command_ ∧
    (pc.tick_liveness link link.real_pad_hub_.load_original_snapshot
      now_us).1.last_reset_epoch_ = pc.last_reset_epoch_ ∧
    (pc.tick_liveness link link.real_pad_hub_.load_original_snapshot now_us).2 = link := by
  unfold PadClient.pad_alive at h
  unfold PadClient.tick_liveness
  by_cases hc : link.real_pad_hub_.load_original_snapshot.publish_count = pc.last_publish_count_
  · simp only [hc, ne_eq, not_true_eq_false, if_false] at h ⊢
    simp only [h, Bool.not_true, Bool.false_and, Bool.false_eq_true, if_false, and_self]
  · simp only [hc, ne_eq, not_false_eq_true, if_true] at h ⊢
    simp only [h, Bool.not_true, Bool.false_and, Bool.false_eq_true, if_false, and_self]

theorem steps_published (st : PadClient × PadConsoleLink)
    (h : st.2.pad_state_ = published_state st.1.state_) (inputs : List TickInput) :
    (inputs.foldl step st).2.pad_state_ = published_state (inputs.foldl step st).1.state_ := by
  induction inputs using List.reverseRecOn with
  | nil => exact h
  | append_singleton inputs inp ih =>
    rw [List.foldl_append]
    exact PadClient.tick_published _ _ _ _ _ ih

theorem PadClient.timeout_tick (pc : PadClient) (link : PadConsoleLink)
    (now_us : Nat) (console : ConsoleState) (send_ok : Bool)
    (hready : pc.state_ = State.Ready)
    (hnone : link.real_pad_hub_.load_original_snapshot.publish_count = pc.last_publish_count_)
    (hlate : pc.last_seen_us_ = 0 ∨ PadClient.is_timeout_reached now_us
      ((pc.last_seen_us_ + PAD_TIMEOUT_US) % 4294967296) = true) :
    (pc.tick link now_us console send_ok).1.state_ = State.Disconnected ∧
    (pc.tick link now_us console send_ok).2.1.pad_state_ = PadConnectionState.Disconnected ∧
    (pc.tick link now_us console send_ok).2.2 = some [0x00] ∧
    (pc.tick link now_us console send_ok).1.await_command_ =
      (if send_ok then 0x00 else Command.Invalid.toByte) := by
  have hl : pc.tick_liveness link link.real_pad_hub_.load_original_snapshot now_us =
      ({ (pc.enter_state_ link State.Disconnected).1 with next_status_due_us_ := 0 },
        (pc.enter_state_ link State.Disconnected).2) := by
    unfold PadClient.tick_liveness
    simp only [hnone, ne_eq, not_true_eq_false, if_false]
    rcases hlate with h | h
    · simp [h, hready]
    · simp [h, hready]
  simp only [PadClient.tick, hl]
  cases send_ok <;>
    simp [PadClient.tick_console_reset, PadClient.tick_dispatch, PadClient.tick_boot,
      PadClient.enter_state_, PadClient.abort_wait_,
      PadClient.waiting_response_, PadClient.awaiting_command_, is_valid_command,
      Command.toByte, PadClient.send_request_, Joybus.Id, Request.bytes, Request.command,
      PadClient.publish_pad_state_to_link, PadConsoleLink.publish_pad_state_from_main]

theorem PadClient.tick_frame (pc : PadClient) (link : PadConsoleLink) (now_us : Nat)
    (console : ConsoleState) (send_ok : Bool) :
    (pc.tick link now_us console send_ok).2.2 = none ∨
    (pc.tick link now_us console send_ok).2.2 =
      some (request_of console (pc.tick link now_us console send_ok).1.state_).bytes := by
  unfold PadClient.tick
  exact PadClient.tick_dispatch_frame _ _ _ _ _ _

end Measure

theorem ConsoleClient.callback_not_ready (link : PadConsoleLink) (rx tx : List Nat)
    (h : link.pad_state_ ≠ PadConnectionState.Ready) :
    (ConsoleClient.callback link rx tx).1 = 0 ∧ (ConsoleClient.callback link rx tx).2.1 = tx := by
  have hnr : (link.pad_state_ == PadConnectionState.Ready) = false := by
    simpa using h
  unfold ConsoleClient.callback
  split_ifs
  · exact ⟨rfl, rfl⟩
  · simp [PadConsoleLink.is_pad_ready, PadConsoleLink.load_pad_state, hnr]

/-- C21: a frame `tick` hands to the port while the client is in WarmStatus or Ready, and
any frame whose first byte is 0x40, is exactly {0x40, 0x03, r} with r the rumble_mode of
the ConsoleState passed to that tick; every frame sent is that one or one of the fixed
Id, Origin, Recalibrate and Reset requests; replacing the poll_mode of the ConsoleState
changes nothing in the result of the tick; and such Status frames are sent, from
WarmStatus and from Ready. -/
theorem status_request_bytes (pc : Measure.PadClient) (link : Measure.PadConsoleLink)
    (now_us : Nat) (console : ConsoleState) (send_ok : Bool) (pm : PollMode)
    (frame : List Nat) :
    ((pc.tick link now_us console send_ok).2.2 = some frame →
      (((pc.tick link now_us console send_ok).1.state_ = Measure.State.WarmStatus ∨
        (pc.tick link now_us console send_ok).1.state_ = Measure.State.Ready ∨
        frame.head? = some 0x40) → frame = [0x40, 0x03, console.rumble_mode]) ∧
      (frame = [0x40, 0x03, console.rumble_mode] ∨ frame = [0x00] ∨ frame = [0x41] ∨
        frame = [0x42, 0x00, 0x00] ∨ frame = [0xFF])) ∧
    pc.tick link now_us { console with poll_mode := pm } send_ok =
      pc.tick link now_us console send_ok ∧
    (∀ r, (Measure.PadClient.tick { state_ := Measure.State.WarmStatus, last_seen_us_ := 1 }
      {} 2 { rumble_mode := r } true).2.2 = some [0x40, 0x03, r]) ∧
    (∀ r, (Measure.PadClient.tick { state_ := Measure.State.Ready, last_seen_us_ := 1 }
      {} 2 { rumble_mode := r } true).2.2 = some [0x40, 0x03, r]) := by
  refine ⟨?_, rfl, fun r => rfl, fun r => rfl⟩
  intro hf
  rcases Measure.PadClient.tick_frame pc link now_us console send_ok with h | h
  · rw [h] at hf
    exact absurd hf (by simp)
  · rw [h] at hf
    have hfr : frame =
        (Measure.request_of console (pc.tick link now_us console send_ok).1.state_).bytes :=
      (Option.some.inj hf).symm
    generalize (pc.tick link now_us console send_ok).1.state_ = s at hfr ⊢
    subst hfr
    cases s <;>
      simp [Measure.request_of, Joybus.Id, Joybus.Origin, Joybus.Recalibrate, Joybus.Reset,
        Joybus.Status, Request.bytes, kPadPollModeForQuery, PollMode.Mode3, Command.toByte]

/-- C22 counterexample: in the boot scenario, ticked every millisecond with every
transmit succeeding and every request answered with a well-formed reply before the next
tick, the client is not Ready after any of the first five ticks; after the fifth it is in
BootRecalibrate and `is_pad_ready()` is false. -/
theorem boot_not_ready_in_five :
    boot_reply [0x00] = [0x09, 0x00, 0x03] ∧
    (boot_reply [0x41]).length = 10 ∧ (boot_reply [0x42, 0x00, 0x00]).length = 10 ∧
    boot_reply [0x40, 0x03, 0x00] = [0x80, 0x80, 0x80, 0x80, 0x80, 0x80, 0x00, 0x00] ∧
    (∀ n, n ≤ 5 →
      (Measure.boot_run boot_reply
        (Measure.ticks sample_boot_time (fun _ => {}) n)).1.state_ ≠ Measure.State.Ready) ∧
    (Measure.boot_run boot_reply
      (Measure.ticks sample_boot_time (fun _ => {}) 5)).1.state_ =
        Measure.State.BootRecalibrate ∧
    (Measure.boot_run boot_reply
      (Measure.ticks sample_boot_time (fun _ => {}) 5)).2.is_pad_ready = false := by
  decide!

/-- C22 (amended): starting from a freshly constructed client on a fresh link, if every
transmit succeeds, the pad answers each request before the next tick with a reply of the
right length (3 bytes for Id, 10 for Origin and Recalibrate, 8 for Status), and the ticks
come at increasing non-zero times less than 100 ms apart, then the states after 0, 1, ..., 8
ticks are Disconnected, Disconnected, BootOrigin, BootOrigin, BootRecalibrate,
BootRecalibrate, WarmStatus, WarmStatus, Ready: Ready is reached on the 8th tick and not
before, and `is_pad_ready()` is true from then and false before. -/
theorem boot_reaches_ready (reply : List Nat → List Nat) (t : Nat → Nat)
    (c : Nat → ConsoleState)
    (hid : (reply [0x00]).length = 3) (horigin : (reply [0x41]).length = 10)
    (hrecal : (reply [0x42, 0x00, 0x00]).length = 10)
    (hstatus : ∀ r, (reply [0x40, 0x03, r]).length = 8)
    (ht0 : 0 < t 0) (hinc : ∀ k, k < 7 → t k < t (k + 1))
    (hgap : ∀ k, k < 7 → t (k + 1) < t k + 100000) :
    (List.range 9).map
        (fun n => (Measure.boot_run reply (Measure.ticks t c n)).1.state_) =
      [Measure.State.Disconnected, Measure.State.Disconnected, Measure.State.BootOrigin,
       Measure.State.BootOrigin, Measure.State.BootRecalibrate,
       Measure.State.BootRecalibrate, Measure.State.WarmStatus, Measure.State.WarmStatus,
       Measure.State.Ready] ∧
    (List.range 9).map
        (fun n => (Measure.boot_run reply (Measure.ticks t c n)).2.is_pad_ready) =
      [false, false, false, false, false, false, false, false, true] := by
  obtain ⟨s1, s2, s3, s4, s5, s6, s7, s8⟩ :=
    Measure.boot_phases reply t c hid horigin hrecal hstatus ht0 hinc hgap
  have s0 : Measure.Idle Measure.State.Disconnected 0 0
      (Measure.boot_run reply (Measure.ticks t c 0)) := Measure.idle_create
  constructor
  · show [_, _, _, _, _, _, _, _, _] = _
    beta_reduce
    rw [s0.state, s1.state, s2.state, s3.state, s4.state, s5.state, s6.state, s7.state,
      s8.state]
  · show [_, _, _, _, _, _, _, _, _] = _
    beta_reduce
    rw [Measure.is_pad_ready_published _ _ s0.published,
      Measure.is_pad_ready_published _ _ s1.published,
      Measure.is_pad_ready_published _ _ s2.published,
      Measure.is_pad_ready_published _ _ s3.published,
      Measure.is_pad_ready_published _ _ s4.published,
      Measure.is_pad_ready_published _ _ s5.published,
      Measure.is_pad_ready_published _ _ s6.published,
      Measure.is_pad_ready_published _ _ s7.published,
      Measure.is_pad_ready_published _ _ s8.published,
      s0.state, s1.state, s2.state, s3.state, s4.state, s5.state, s6.state, s7.state,
      s8.state]
    rfl

/-- Witness for C22: the boot scenario with the replies of the scenario, ticked every
millisecond. -/
theorem boot_reaches_ready_witness :
    (boot_reply [0x00]).length = 3 ∧ 0 < sample_boot_time 0 ∧
    (List.range 9).map
        (fun n => (Measure.boot_run boot_reply
          (Measure.ticks sample_boot_time (fun _ => {}) n)).1.state_) =
      [Measure.State.Disconnected, Measure.State.Disconnected, Measure.State.BootOrigin,
       Measure.State.BootOrigin, Measure.State.BootRecalibrate,
       Measure.State.BootRecalibrate, Measure.State.WarmStatus, Measure.State.WarmStatus,
       Measure.State.Ready] ∧
    (List.range 9).map
        (fun n => (Measure.boot_run boot_reply
          (Measure.ticks sample_boot_time (fun _ => {}) n)).2.is_pad_ready) =
      [false, false, false, false, false, false, false, false, true] :=
  ⟨rfl, by decide,
   boot_reaches_ready boot_reply sample_boot_time (fun _ => {}) rfl rfl rfl (fun _ => rfl)
     (by decide) (fun k _ => by unfold sample_boot_time; omega)
     (fun k _ => by unfold sample_boot_time; omega)⟩

/-- C23: if the client is Ready, the pad is alive on this tick and the reset epoch of the
link differs from the one the client saw last (a console Reset frame has been handled),
then the tick leaves the client in Resetting with the new epoch recorded, the published
state is Disconnected so `is_pad_ready()` is false, and the frame handed to the port is
the one-byte Reset request {0xFF}, whose reply is awaited when the port accepted it. -/
theorem console_reset_tick (pc : Measure.PadClient) (link : Measure.PadConsoleLink)
    (now_us : Nat) (console : ConsoleState) (send_ok : Bool)
    (hready : pc.state_ = Measure.State.Ready)
    (halive : pc.pad_alive link now_us = true)
    (hreset : link.load_reset_epoch ≠ pc.last_reset_epoch_) :
    (pc.tick link now_us console send_ok).1.state_ = Measure.State.Resetting ∧
    (pc.tick link now_us console send_ok).2.1.pad_state_ = PadConnectionState.Disconnected ∧
    (pc.tick link now_us console send_ok).2.1.is_pad_ready = false ∧
    (pc.tick link now_us console send_ok).2.2 = some [0xFF] ∧
    (pc.tick link now_us console send_ok).1.await_command_ =
      (if send_ok then 0xFF else Command.Invalid.toByte) ∧
    (pc.tick link now_us console send_ok).1.last_reset_epoch_ = link.load_reset_epoch := by
  obtain ⟨h1, h2, h3, h4⟩ := Measure.PadClient.tick_liveness_alive pc link now_us halive
  generalize hq : pc.tick_liveness link link.real_pad_hub_.load_original_snapshot now_us = q
    at h1 h2 h3 h4
  obtain ⟨pc1, link1⟩ := q
  simp only at h1 h2 h3 h4
  subst h4
  have hpend : link1.consume_pad_reset_request pc1.last_reset_epoch_ =
      (true, link1.load_reset_epoch) := by
    simp [Measure.PadConsoleLink.consume_pad_reset_request, h3, hreset]
  have hr : pc1.tick_console_reset link1 =
      Measure.PadClient.enter_state_
        { pc1 with last_reset_epoch_ := link1.load_reset_epoch } link1
        Measure.State.Resetting := by
    simp [Measure.PadClient.tick_console_reset, hpend, h1, hready]
  simp only [Measure.PadClient.tick, hq, hr]
  cases send_ok <;>
    simp [Measure.PadClient.tick_dispatch, Measure.PadClient.enter_state_,
      Measure.PadClient.abort_wait_, Measure.PadClient.waiting_response_,
      Measure.PadClient.awaiting_command_, is_valid_command, Command.toByte,
      Measure.PadClient.send_request_, Joybus.Reset, Request.bytes, Request.command,
      Measure.PadClient.publish_pad_state_to_link,
      Measure.PadConsoleLink.publish_pad_state_from_main,
      Measure.PadConsoleLink.is_pad_ready, Measure.PadConsoleLink.load_pad_state]

/-- Witness for C23: the sample Ready client, one Reset request published on its link,
ticked 1 ms after the pad was last seen. -/
theorem console_reset_tick_witness :
    Measure.sample_ready_link.publish_pad_reset_request_from_isr.load_reset_epoch = 1 ∧
    (Measure.sample_ready_client.tick
      Measure.sample_ready_link.publish_pad_reset_request_from_isr 6000 {}
      true).1.state_ = Measure.State.Resetting ∧
    (Measure.sample_ready_client.tick
      Measure.sample_ready_link.publish_pad_reset_request_from_isr 6000 {}
      true).2.1.is_pad_ready = false ∧
    (Measure.sample_ready_client.tick
      Measure.sample_ready_link.publish_pad_reset_request_from_isr 6000 {}
      true).2.2 = some [0xFF] :=
  ⟨rfl,
   (console_reset_tick Measure.sample_ready_client
      Measure.sample_ready_link.publish_pad_reset_request_from_isr 6000 {} true rfl
      (by decide) (by decide)).1,
   (console_reset_tick Measure.sample_ready_client
      Measure.sample_ready_link.publish_pad_reset_request_from_isr 6000 {} true rfl
      (by decide) (by decide)).2.2.1,
   (console_reset_tick Measure.sample_ready_client
      Measure.sample_ready_link.publish_pad_reset_request_from_isr 6000 {} true rfl
      (by decide) (by decide)).2.2.2.1⟩

/-- C24: if the client is Ready, no new pad reply has been published and the tick comes at
a time `now` with (int32)(now - (T + 100000)) >= 0 for the last-seen time T, then the tick
leaves the client in Disconnected with Disconnected published, the Id request {0x00} has
been handed to the port and its reply is awaited when the port accepted it; and after any
further ticks that leave the client in a state other than Ready, a console frame handled
on a link showing that published state gets a zero-byte reply and an untouched buffer. -/
theorem liveness_timeout (pc : Measure.PadClient) (link : Measure.PadConsoleLink)
    (now_us : Nat) (console : ConsoleState) (send_ok : Bool)
    (hready : pc.state_ = Measure.State.Ready)
    (hnone : link.real_pad_hub_.load_original_snapshot.publish_count = pc.last_publish_count_)
    (hlate : Measure.PadClient.is_timeout_reached now_us
      ((pc.last_seen_us_ + 100000) % 4294967296) = true)
    (more : List Measure.TickInput) (console_link : PadConsoleLink) (rx tx : List Nat) :
    (pc.tick link now_us console send_ok).1.state_ = Measure.State.Disconnected ∧
    (pc.tick link now_us console send_ok).2.1.is_pad_ready = false ∧
    (pc.tick link now_us console send_ok).2.2 = some [0x00] ∧
    (pc.tick link now_us console send_ok).1.await_command_ =
      (if send_ok then 0x00 else Command.Invalid.toByte) ∧
    ((more.foldl Measure.step ((pc.tick link now_us console send_ok).1,
        (pc.tick link now_us console send_ok).2.1)).1.state_ ≠ Measure.State.Ready →
      console_link.pad_state_ = (more.foldl Measure.step
        ((pc.tick link now_us console send_ok).1,
          (pc.tick link now_us console send_ok).2.1)).2.pad_state_ →
      (ConsoleClient.callback console_link rx tx).1 = 0 ∧
      (ConsoleClient.callback console_link rx tx).2.1 = tx) := by
  obtain ⟨h1, h2, h3, h4⟩ := Measure.PadClient.timeout_tick pc link now_us console send_ok
    hready hnone (Or.inr hlate)
  refine ⟨h1, ?_, h3, h4, ?_⟩
  · simp [Measure.PadConsoleLink.is_pad_ready, Measure.PadConsoleLink.load_pad_state, h2]
  · intro hnr hlink
    have hpub := Measure.steps_published
      ((pc.tick link now_us console send_ok).1, (pc.tick link now_us console send_ok).2.1)
      (by rw [h2, h1]; rfl) more
    apply ConsoleClient.callback_not_ready
    rw [hlink, hpub]
    intro hc
    apply hnr
    revert hc
    cases (more.foldl Measure.step ((pc.tick link now_us console send_ok).1,
        (pc.tick link now_us console send_ok).2.1)).1.state_ <;>
      simp [Measure.published_state]

/-- Witness for C24: the sample Ready client, last seen at 5 ms and ticked at 105 ms with
no new reply; a Status frame from the console then gets no reply. -/
theorem liveness_timeout_witness :
    (Measure.sample_ready_client.tick Measure.sample_ready_link 105000 {} true).1.state_ =
      Measure.State.Disconnected ∧
    (Measure.sample_ready_client.tick Measure.sample_ready_link 105000 {} true).2.2 =
      some [0x00] ∧
    (ConsoleClient.callback { sample_link with pad_state_ := PadConnectionState.Disconnected }
      [0x40, 0x03, 0x00] (List.replicate 16 0)).1 = 0 :=
  ⟨(liveness_timeout Measure.sample_ready_client Measure.sample_ready_link 105000 {} true
      rfl rfl (by decide) []
      { sample_link with pad_state_ := PadConnectionState.Disconnected }
      [0x40, 0x03, 0x00] (List.replicate 16 0)).1,
   (liveness_timeout Measure.sample_ready_client Measure.sample_ready_link 105000 {} true
      rfl rfl (by decide) []
      { sample_link with pad_state_ := PadConnectionState.Disconnected }
      [0x40, 0x03, 0x00] (List.replicate 16 0)).2.2.1,
   ((liveness_timeout Measure.sample_ready_client Measure.sample_ready_link 105000 {} true
      rfl rfl (by decide) []
      { sample_link with pad_state_ := PadConnectionState.Disconnected }
      [0x40, 0x03, 0x00] (List.replicate 16 0)).2.2.2.2 (by decide) rfl).1⟩

/-! ## Status reply: the constant bit -/

theorem encode_status_bytes_head (s : PadState) (m : PollMode) :
    (encode_status s m).view.getD 0 0 = (encode_to_status_word s).1 ∧
    (encode_status s m).view.getD 1 0 = (encode_to_status_word s).2 := by
  rw [encode_status, JoybusReply.view_ofArray]
  exact ⟨rfl, rfl⟩

/-- C31 counterexample: the Status reply of the default state in Mode3 is
0x80 0x00 0x80 0x80 0x80 0x80 0x00 0x00; bit 7 of byte 1, the second byte, is 0, and the
constant 1 is bit 7 of byte 0. -/
theorem status_byte1_bit7_clear :
    (encode_status {} PollMode.Mode3).view = [0x80, 0x00, 0x80, 0x80, 0x80, 0x80, 0x00, 0x00] ∧
    ((encode_status {} PollMode.Mode3).view.getD 1 0).testBit 7 = false ∧
    ((encode_status {} PollMode.Mode3).view.getD 0 0).testBit 7 = true := by
  decide

/-- C31 (amended): for every state and every poll mode, bit 7 of byte 0 of the encoded
Status reply, the low byte of the little-endian status word and so bit 7 of that word, is 1;
bit 7 of byte 1 is the use-controller-origin flag. -/
theorem status_bit7 (s : PadState) (m : PollMode) :
    ((encode_status s m).view.getD 0 0).testBit 7 = true ∧
    ((encode_status s m).view.getD 1 0).testBit 7 = s.report.use_controller_origin ∧
    (read_u16_le (first2 (encode_status s m).view)).testBit 7 = true := by
  obtain ⟨h0, h1⟩ := encode_status_bytes_head s m
  have hf : first2 (encode_status s m).view = encode_to_status_word s := by
    rw [first2, h0, h1]
  rw [h0, h1, hf, read_encode_to_status_word]
  simp only [encode_to_status_word, write_u16_le, testBit_mod_256, Nat.testBit_and,
    Nat.testBit_shiftRight, testBit_255, status_word_of_testBit]
  simp

/-! ## Status round trip, per mode -/

theorem high_nibble_eq_and : ∀ v < 256, high_nibble v = v &&& 0xF0 := by
  decide!

theorem nibble_round_trip :
    (∀ n < 16, shrink8bitTo4bit (expand4bitTo8bit n) = n) ∧
    (∀ v < 256, expand4bitTo8bit (shrink8bitTo4bit v) = v &&& 0xF0) := by
  decide!

/-- C35: for every state with axes in byte range and every mode Mode0..Mode4, decoding
the encoded Status reply in the same mode gives `status_round_trip`: the 12 buttons,
origin_sent, error_latched, use_controller_origin and the main stick as they were, every
full-byte axis as it was, every nibble axis with its low nibble cleared, the axes absent
from the layout 0x00, and error_last true; shrinking an expanded nibble gives the nibble
back and expanding a shrunk byte clears its low nibble. -/
theorem status_round_trip_exact (s : PadState) (hs : s.input.analog.inRange) (m : PollMode)
    (hm : m ≤ PollMode.Mode4) :
    decode_status (encode_status s m).view m = status_round_trip s m ∧
    (∀ n < 16, shrink8bitTo4bit (expand4bitTo8bit n) = n) ∧
    (∀ v < 256, expand4bitTo8bit (shrink8bitTo4bit v) = v &&& 0xF0) := by
  refine ⟨?_, nibble_round_trip.1, nibble_round_trip.2⟩
  obtain ⟨-, -, hcx, hcy, hl, hr, ha, hb⟩ := hs
  replace hm : @LE.le Nat _ m 4 := hm
  have hm5 : m < 5 := Nat.lt_succ_of_le hm
  interval_cases m <;>
    simp [decode_status, encode_status, JoybusReply.view_ofArray, encode_status_bytes, first2,
      status_round_trip, decode_report_encode, decode_buttons_encode, kAnalogButtonReleased,
      kTriggerReleased,
      unpack_high _ _ hcx hcy, unpack_low _ _ hcx hcy, unpack_high _ _ hl hr,
      unpack_low _ _ hl hr, unpack_high _ _ ha hb, unpack_low _ _ ha hb,
      high_nibble_eq_and _ hcx, high_nibble_eq_and _ hcy, high_nibble_eq_and _ hl,
      high_nibble_eq_and _ hr, high_nibble_eq_and _ ha, high_nibble_eq_and _ hb]

/-- C35 at the sample state in Mode1: the c-stick 0x9A, 0x47 comes back as 0x90, 0x40 and
the analog buttons as 0x50, 0x60, the rest unchanged with error_last set. -/
theorem status_round_trip_exact_witness :
    sample_state.input.analog.inRange ∧
    decode_status (encode_status sample_state PollMode.Mode1).view PollMode.Mode1 =
      { report := { origin_sent := false, error_latched := true, error_last := true,
                    use_controller_origin := true }
        input := { buttons := { a := true, start := true, dpad_up := true, l := true }
                   analog := { stick_x := 0x12, stick_y := 0xFE, c_stick_x := 0x90,
                               c_stick_y := 0x40, l_analog := 0xAB, r_analog := 0x3C,
                               a_analog := 0x50, b_analog := 0x60 } } } :=
  ⟨by decide, (status_round_trip_exact sample_state (by decide) PollMode.Mode1 (by decide)).1⟩

/-! ## Identity bytes re-encoded -/

theorem read_u16_le_high (b0 b1 i : Nat) (h0 : b0 < 256) (hi : i < 8) :
    (read_u16_le (b0, b1)).testBit (8 + i) = b1.testBit i := by
  have hlo : b0.testBit (8 + i) = false :=
    Nat.testBit_lt_two_pow (lt_of_lt_of_le h0 (Nat.pow_le_pow_right (by decide : 2 > 0)
      (show 8 ≤ 8 + i by omega)))
  have hb : (b1 % 65536).testBit i = b1.testBit i := by
    rw [testBit_mod_65536]
    simp [show i < 16 by omega]
  simp only [read_u16_le, testBit_mod_65536, Nat.testBit_or, Nat.testBit_shiftLeft, hlo]
  simp [show 8 + i < 16 by omega, hb]
  intro _
  omega

theorem capabilities_byte :
    ∀ b1 < 256,
      write_u16_le (device_capabilities_of
        { is_gamecube := b1.testBit 3, is_standard_controller := b1.testBit 0,
          rumble_available := !b1.testBit 5, is_wireless := b1.testBit 7,
          supports_wireless_receive := b1.testBit 6, wireless_is_rf := b1.testBit 2,
          wireless_state_fixed := b1.testBit 1 }) = (0x00, b1 &&& 0xEF) ∧
      (b1 &&& 0xEF = b1 ↔ b1.testBit 4 = false) := by
  decide!

theorem runtime_byte :
    ∀ b2 < 256,
      runtime_flags_of (b2.testBit 7) (b2.testBit 6) (!b2.testBit 5)
        (sanitize_poll_mode (sanitize_poll_mode (b2 &&& kPollMask) % 256))
        (sanitize_rumble_mode (sanitize_rumble_mode ((b2 &&& kRumbleMask) >>> 3) % 256)) =
          (b2 &&& 0xE0) ||| (reencoded_rumble b2 <<< 3) ||| reencoded_poll b2 ∧
      ((b2 &&& 0xE0) ||| (reencoded_rumble b2 <<< 3) ||| reencoded_poll b2 = b2 ↔
        (b2 &&& 7 ≤ 4 ∧ (b2 >>> 3) &&& 3 ≤ 2)) := by
  decide!

/-- C36: for every three-byte frame and every prior identity, decoding the frame with
`update_identity_from_id_bytes` and encoding the result with `encode_identity_bytes` gives
0x00, the second byte without bit 4, and the third byte with its flag bits 7..5 kept, the
rumble field replaced by 0 when above 2 and the poll field replaced by 3 when above 4. The
frame is reproduced byte for byte exactly when its first byte is 0x00, bit 4 of the second
is clear and both mode fields are in range; 0x09 0x00 0x03 re-encodes as 0x00 0x00 0x03. -/
theorem reencode_identity (prior : PadIdentity) (b0 b1 b2 : Nat)
    (h0 : b0 < 256) (h1 : b1 < 256) (h2 : b2 < 256) :
    encode_identity_bytes (update_identity_from_id_bytes prior [b0, b1, b2]) =
      [0x00, b1 &&& 0xEF, (b2 &&& 0xE0) ||| (reencoded_rumble b2 <<< 3) ||| reencoded_poll b2] ∧
    (encode_identity_bytes (update_identity_from_id_bytes prior [b0, b1, b2]) = [b0, b1, b2] ↔
      (b0 = 0x00 ∧ b1.testBit 4 = false ∧ b2 &&& 7 ≤ 4 ∧ (b2 >>> 3) &&& 3 ≤ 2)) ∧
    encode_identity_bytes (update_identity_from_id_bytes prior [0x09, 0x00, 0x03]) =
      [0x00, 0x00, 0x03] := by
  have hb : ∀ c1 c2 c3 : Nat, c1 < 256 → c2 < 256 → c3 < 256 →
      encode_identity_bytes (update_identity_from_id_bytes prior [c1, c2, c3]) =
        [0x00, c2 &&& 0xEF,
          (c3 &&& 0xE0) ||| (reencoded_rumble c3 <<< 3) ||| reencoded_poll c3] := by
    intro c1 c2 c3 g1 g2 g3
    have e15 : (read_u16_le (c1, c2)).testBit 15 = c2.testBit 7 :=
      read_u16_le_high c1 c2 7 g1 (by decide)
    have e14 : (read_u16_le (c1, c2)).testBit 14 = c2.testBit 6 :=
      read_u16_le_high c1 c2 6 g1 (by decide)
    have e13 : (read_u16_le (c1, c2)).testBit 13 = c2.testBit 5 :=
      read_u16_le_high c1 c2 5 g1 (by decide)
    have e11 : (read_u16_le (c1, c2)).testBit 11 = c2.testBit 3 :=
      read_u16_le_high c1 c2 3 g1 (by decide)
    have e10 : (read_u16_le (c1, c2)).testBit 10 = c2.testBit 2 :=
      read_u16_le_high c1 c2 2 g1 (by decide)
    have e9 : (read_u16_le (c1, c2)).testBit 9 = c2.testBit 1 :=
      read_u16_le_high c1 c2 1 g1 (by decide)
    have e8 : (read_u16_le (c1, c2)).testBit 8 = c2.testBit 0 :=
      read_u16_le_high c1 c2 0 g1 (by decide)
    obtain ⟨hc, -⟩ := capabilities_byte c2 g2
    obtain ⟨hr, -⟩ := runtime_byte c3 g3
    simp only [update_identity_from_id_bytes, update_runtime_from_id_byte3,
      update_capabilities_from_id_bytes, update_report_from_id_byte3, encode_identity_bytes,
      first2, List.getD_cons_zero, List.getD_cons_succ,
      IdCapabilityBits.IsWireless, IdCapabilityBits.SupportsWirelessReceive,
      IdCapabilityBits.RumbleNotAvailable, IdCapabilityBits.IsGamecube,
      IdCapabilityBits.WirelessTypeRf, IdCapabilityBits.WirelessStateFixed,
      IdCapabilityBits.IsStandardController, IdByte3Bits.OriginNotSent,
      IdByte3Bits.ErrorLatched, IdByte3Bits.ErrorLast, and_bit_ne_zero, and_bit_eq_zero,
      e15, e14, e13, e11, e10, e9, e8, hc, hr]
  refine ⟨hb b0 b1 b2 h0 h1 h2, ?_, hb _ _ _ (by decide) (by decide) (by decide)⟩
  rw [hb b0 b1 b2 h0 h1 h2]
  obtain ⟨-, hc⟩ := capabilities_byte b1 h1
  obtain ⟨-, hr⟩ := runtime_byte b2 h2
  constructor
  · intro h
    simp only [List.cons.injEq, and_true] at h
    exact ⟨h.1.symm, hc.mp h.2.1, hr.mp h.2.2⟩
  · rintro ⟨g0, g1, g2⟩
    rw [hc.mpr g1, hr.mpr g2, g0]

/-- C36 at a frame with a non-zero first byte, bit 4 of the second byte set and both mode
fields out of range: 0x09 0x1D 0x1F re-encodes as 0x00 0x0D 0x03. -/
theorem reencode_identity_witness :
    (0x09 < 256 ∧ 0x1D < 256 ∧ 0x1F < 256) ∧
    encode_identity_bytes (update_identity_from_id_bytes {} [0x09, 0x1D, 0x1F]) =
      [0x00, 0x0D, 0x03] :=
  ⟨by decide,
    (reencode_identity {} 0x09 0x1D 0x1F (by decide) (by decide) (by decide)).1.trans
      (by decide)⟩

/-! ## Linear scale and Oct(100) -/

theorem scaled_half_planes (px py rx ry : Int)
    (hx1 : -2 ≤ 5 * rx - 4 * px) (hx2 : 5 * rx - 4 * px ≤ 2)
    (hy1 : -2 ≤ 5 * ry - 4 * py) (hy2 : 5 * ry - 4 * py ≤ 2)
    (h : half_plane_max px py ≤ 125 * 30274) :
    half_plane_max rx ry ≤ 100 * 30274 + 17125 := by
  simp only [half_plane_max, max_le_iff, abs_le] at h ⊢
  omega

theorem linear_scale_axes_bound (x y : Nat) (hx : x < 256) (hy : y < 256)
    (h : half_plane_max ((x : Int) - 128) ((y : Int) - 128) ≤ 125 * 30274) :
    half_plane_max ((linear_scale_axis x : Int) - 128) ((linear_scale_axis y : Int) - 128)
      ≤ 100 * 30274 + 17125 := by
  obtain ⟨ex, hx1, hx2⟩ := linear_scale_axis_near x hx
  obtain ⟨ey, hy1, hy2⟩ := linear_scale_axis_near y hy
  rw [ex, ey]
  exact scaled_half_planes _ _ _ _ hx1 hx2 hy1 hy2 h

/-- C37 counterexample: the stick (6, 121) lies in Oct(125), and `linear_scale` maps it to
(30, 122), whose half-plane value 3042092 exceeds 100 * 30274 = 3027400; likewise
`octagon_clamp` followed by `linear_scale` maps (0, 18) to (54, 65), outside Oct(100). -/
theorem linear_scale_leaves_oct100 :
    half_plane_max ((6 : Int) - 128) ((121 : Int) - 128) ≤ 125 * 30274 ∧
    (linear_scale { input := { analog := { stick_x := 6, stick_y := 121 } } }
      ).input.analog.stick_x = 30 ∧
    (linear_scale { input := { analog := { stick_x := 6, stick_y := 121 } } }
      ).input.analog.stick_y = 122 ∧
    half_plane_max ((30 : Int) - 128) ((122 : Int) - 128) = 3042092 ∧
    ¬ (half_plane_max ((30 : Int) - 128) ((122 : Int) - 128) ≤ 100 * 30274) ∧
    (linear_scale (octagon_clamp { input := { analog := { stick_x := 0, stick_y := 18 } } })
      ).input.analog.stick_x = 54 ∧
    (linear_scale (octagon_clamp { input := { analog := { stick_x := 0, stick_y := 18 } } })
      ).input.analog.stick_y = 65 ∧
    ¬ (half_plane_max ((54 : Int) - 128) ((65 : Int) - 128) ≤ 100 * 30274) := by
  decide!

/-- C37 (amended): for every stick in byte range whose centred point satisfies the
Oct(125) bound, the centred output of `linear_scale` satisfies the four-half-plane bound
with 100 * 30274 + 17125, the slack of rounding each axis to the nearest integer; hence
`octagon_clamp` followed by `linear_scale` always lands within that bound. -/
theorem linear_scale_near_oct100 (s : PadState)
    (hx : s.input.analog.stick_x < 256) (hy : s.input.analog.stick_y < 256) :
    (half_plane_max ((s.input.analog.stick_x : Int) - 128) ((s.input.analog.stick_y : Int) - 128)
        ≤ 125 * 30274 →
      half_plane_max (((linear_scale s).input.analog.stick_x : Int) - 128)
        (((linear_scale s).input.analog.stick_y : Int) - 128) ≤ 100 * 30274 + 17125) ∧
    half_plane_max (((linear_scale (octagon_clamp s)).input.analog.stick_x : Int) - 128)
      (((linear_scale (octagon_clamp s)).input.analog.stick_y : Int) - 128)
        ≤ 100 * 30274 + 17125 := by
  constructor
  · intro h
    exact linear_scale_axes_bound _ _ hx hy h
  · obtain ⟨l1, l2⟩ := octagon_clamp_axes_lt _ _ hx hy
    exact linear_scale_axes_bound _ _ l1 l2 (octagon_clamp_axes_bound _ _)

/-- C37 (amended) at the stick (6, 121): the output is within 100 * 30274 + 17125. -/
theorem linear_scale_near_oct100_witness :
    half_plane_max (((linear_scale { input := { analog := { stick_x := 6, stick_y := 121 } } }
        ).input.analog.stick_x : Int) - 128)
      (((linear_scale { input := { analog := { stick_x := 6, stick_y := 121 } } }
        ).input.analog.stick_y : Int) - 128) ≤ 100 * 30274 + 17125 :=
  (linear_scale_near_oct100 { input := { analog := { stick_x := 6, stick_y := 121 } } }
    (by decide) (by decide)).1 (by decide!)

/-! ## Origin flag in replies -/

theorem Pipeline.apply_keeps_report (p : Pipeline) (h : p.KeepsReport) (s : PadState) :
    (p.apply_from_isr s).report = s.report := by
  unfold Pipeline.apply_from_isr
  simp only
  generalize List.range p.stage_count_ = indices
  induction indices using List.reverseRecOn with
  | nil => rfl
  | append_singleton indices i ih =>
    rw [List.foldl_append, List.foldl_cons, List.foldl_nil]
    unfold Pipeline.apply_step
    split_ifs
    · exact ih
    · split
      · exact ih
      · next f hf => rw [h i f hf]; exact ih

theorem Pipeline.keeps_report_set_stage_enabled (p : Pipeline) (h : p.KeepsReport) (i : Nat)
    (e : Bool) : (p.set_stage_enabled i e).KeepsReport := by
  unfold Pipeline.set_stage_enabled
  split_ifs <;> exact h

theorem Pipeline.keeps_report_set_stages_enabled (p : Pipeline) (h : p.KeepsReport)
    (calls : List (Nat × Bool)) : (p.set_stages_enabled calls).KeepsReport := by
  induction calls using List.reverseRecOn with
  | nil => exact h
  | append_singleton calls call ih =>
    have : p.set_stages_enabled (calls ++ [call]) =
        (p.set_stages_enabled calls).set_stage_enabled call.1 call.2 := by
      simp [Pipeline.set_stages_enabled, List.foldl_append]
    rw [this]
    exact Pipeline.keeps_report_set_stage_enabled _ ih _ _

theorem Pipeline.keeps_report_add_stage (p : Pipeline) (h : p.KeepsReport) (f : PadState → PadState)
    (hf : ∀ s, (f s).report = s.report) : (p.add_stage { func := some f }).2.KeepsReport := by
  unfold Pipeline.add_stage
  split_ifs
  · exact h
  · exact h
  · intro i g hg s
    simp only [List.getD_eq_getElem?_getD, List.getElem?_set] at hg
    split_ifs at hg with h1 h2
    · simp only [Option.getD_some, Option.some.injEq] at hg
      rw [← hg]
      exact hf s
    · simp at hg
    · exact h i g (by simpa [List.getD_eq_getElem?_getD] using hg) s

theorem Pipeline.keeps_report_empty : ({} : Pipeline).KeepsReport := by
  intro i f hf
  have hstage : (({} : Pipeline).stages_.getD i {}) = ({} : Stage) := by
    show (List.replicate kMaxStages ({} : Stage)).getD i {} = {}
    rw [List.getD_eq_getElem?_getD, List.getElem?_replicate]
    split_ifs <;> rfl
  rw [hstage] at hf
  exact absurd hf (by simp)

theorem main_pipelines_keep_report (ctx : OriginOffsetContext) (lut_x lut_y : Nat → Nat → Nat)
    (calls : List (Nat × Bool)) :
    ((main_pipelines ctx lut_x lut_y).status.set_stages_enabled calls).KeepsReport ∧
    ((main_pipelines ctx lut_x lut_y).origin.set_stages_enabled calls).KeepsReport ∧
    ((main_pipelines ctx lut_x lut_y).recalibrate.set_stages_enabled calls).KeepsReport := by
  have hfix := Pipeline.keeps_report_add_stage {} Pipeline.keeps_report_empty
    fix_origin_to_neutral (fun _ => rfl)
  refine ⟨Pipeline.keeps_report_set_stages_enabled _ ?_ calls,
    Pipeline.keeps_report_set_stages_enabled _ hfix calls,
    Pipeline.keeps_report_set_stages_enabled _ hfix calls⟩
  have h1 := Pipeline.keeps_report_add_stage _ hfix (origin_normalize ctx) (fun _ => rfl)
  have h2 := Pipeline.keeps_report_add_stage _ h1 octagon_clamp (fun _ => rfl)
  have h3 := Pipeline.keeps_report_add_stage _ h2 linear_scale (fun _ => rfl)
  have h4 := Pipeline.keeps_report_add_stage _ h3 (inverse_lut lut_x lut_y) (fun _ => rfl)
  exact Pipeline.keeps_report_set_stages_enabled _ h4 [(1, false), (2, false), (3, false),
    (4, false)]

theorem encode_origin_head (s : PadState) :
    first2 (encode_origin s).view = encode_to_status_word s ∧
    first2 (encode_recalibrate s).view = encode_to_status_word s ∧
    (encode_origin s).view.length = 10 ∧ (encode_recalibrate s).view.length = 10 := by
  rw [encode_origin, encode_recalibrate, JoybusReply.view_ofArray, JoybusReply.view_ofArray]
  exact ⟨rfl, rfl, rfl, rfl⟩

theorem first2_append (a b : List Nat) (h : 2 ≤ a.length) : first2 (a ++ b) = first2 a := by
  match a, h with
  | x :: y :: rest, _ => rfl

theorem ConsoleClient.build_replies_state (link : PadConsoleLink) (cmd : Nat)
    (snap : PadSnapshot) (pm : PollMode) (rm : RumbleMode)
    (hcmd : cmd = 0x40 ∨ cmd = 0x41 ∨ cmd = 0x42) :
    ∃ l2 o m, ConsoleClient.build_replies link cmd snap pm rm = some (l2, o, m) ∧
      first2 m.view = encode_to_status_word (ConsoleClient.replied_state link cmd snap) ∧
      2 ≤ m.view.length := by
  rcases hcmd with h | h | h <;> subst h
  · refine ⟨link, encode_status snap.status pm,
      encode_status (link.pipelines_.status.apply_from_isr snap.status) pm, rfl, ?_, ?_⟩
    · obtain ⟨e0, e1⟩ := encode_status_bytes_head
        (link.pipelines_.status.apply_from_isr snap.status) pm
      rw [first2, e0, e1]
      rfl
    · rw [encode_status_view_length]; decide
  · refine ⟨link.publish_pad_origin_request_from_isr, encode_origin snap.origin,
      encode_origin (link.pipelines_.origin.apply_from_isr snap.origin), rfl, ?_, ?_⟩
    · exact (encode_origin_head _).1
    · rw [(encode_origin_head _).2.2.1]; decide
  · refine ⟨link.publish_pad_recalibrate_request_from_isr, encode_recalibrate snap.origin,
      encode_recalibrate (link.pipelines_.recalibrate.apply_from_isr snap.origin), rfl, ?_, ?_⟩
    · exact (encode_origin_head _).2.1
    · rw [(encode_origin_head _).2.2.2]; decide

/-- A Status, Origin or Recalibrate frame that is answered is answered with the encoding
of `replied_state`: the first two bytes of the buffer are its status word. -/
theorem ConsoleClient.callback_status_word (link : PadConsoleLink) (rx tx : List Nat)
    (hcmd : rx.getD 0 0 = 0x40 ∨ rx.getD 0 0 = 0x41 ∨ rx.getD 0 0 = 0x42)
    (hsent : (ConsoleClient.callback link rx tx).1 ≠ 0) :
    first2 (ConsoleClient.callback link rx tx).2.1 =
      encode_to_status_word (ConsoleClient.replied_state link (rx.getD 0 0)
        link.real_pad_hub_.load_original_snapshot) := by
  obtain ⟨l2, o, m, hb, hw, hlen⟩ := ConsoleClient.build_replies_state
    { link with shared_console_ := link.shared_console_.on_request_isr rx } (rx.getD 0 0)
    link.real_pad_hub_.load_original_snapshot
    (link.shared_console_.on_request_isr rx).load.poll_mode
    (link.shared_console_.on_request_isr rx).load.rumble_mode hcmd
  have hw2 : first2 m.view = encode_to_status_word (ConsoleClient.replied_state link
      (rx.getD 0 0) link.real_pad_hub_.load_original_snapshot) := hw
  simp only [ConsoleClient.callback] at hsent ⊢
  by_cases h1 : rx.length < 1
  · simp [h1] at hsent
  by_cases h2 : (!PadConsoleLink.is_pad_ready
      { link with shared_console_ := link.shared_console_.on_request_isr rx }) = true
  · simp [h1, h2] at hsent
  · simp only [h1, h2, if_false, hb, Bool.false_eq_true] at hsent ⊢
    by_cases h3 : o.view.isEmpty = true
    · simp [h3] at hsent
    · simp only [h3, if_false, Bool.false_eq_true] at hsent ⊢
      by_cases h4 : (ConsoleClient.write_tx m tx).1 = 0
      · simp [h4] at hsent
      · simp only [h4, if_false] at hsent ⊢
        simp only [ConsoleClient.write_tx] at h4 ⊢
        split_ifs at h4 ⊢ with h5
        · exact absurd rfl h4
        · simp only
          rw [first2_append _ _ hlen, hw2]

/-- C32 counterexample: with a Ready pad whose Status and Origin replies carry the
origin-not-sent bit and with the pipelines of `main`, the replies to Status, Origin and
Recalibrate all have bit 5 of the status word set; the Status reply is
0xA0 0x00 0x80 0x80 0x80 0x80 0x00 0x00. -/
theorem reply_forwards_origin_not_sent :
    (ConsoleClient.callback origin_pending_link [0x40, 0x03, 0x00] (List.replicate 16 0)).1 = 8 ∧
    (ConsoleClient.callback origin_pending_link [0x40, 0x03, 0x00]
      (List.replicate 16 0)).2.1.take 8 = [0xA0, 0x00, 0x80, 0x80, 0x80, 0x80, 0x00, 0x00] ∧
    (read_u16_le (first2 (ConsoleClient.callback origin_pending_link [0x40, 0x03, 0x00]
      (List.replicate 16 0)).2.1)).testBit 5 = true ∧
    (ConsoleClient.callback origin_pending_link [0x41] (List.replicate 16 0)).1 = 10 ∧
    (read_u16_le (first2 (ConsoleClient.callback origin_pending_link [0x41]
      (List.replicate 16 0)).2.1)).testBit 5 = true ∧
    (read_u16_le (first2 (ConsoleClient.callback origin_pending_link [0x42, 0x00, 0x00]
      (List.replicate 16 0)).2.1)).testBit 5 = true := by
  decide!

theorem decode_origin_sent (frame : List Nat) (m : PollMode) :
    (decode_status frame m).report.origin_sent = !(read_u16_le (first2 frame)).testBit 5 ∧
    (decode_origin frame).report.origin_sent = !(read_u16_le (first2 frame)).testBit 5 := by
  have h : (decode_report_from_status_word (first2 frame)).origin_sent =
      !(read_u16_le (first2 frame)).testBit 5 := by
    simp only [decode_report_from_status_word, StatusWordBits.OriginNotSent, and_bit_eq_zero]
  exact ⟨h, h⟩

/-- C32 (amended): in every Status, Origin and Recalibrate reply the bridge emits through
pipelines whose stages keep the report, bit 5 of the status word is the origin-not-sent
flag of the snapshot part answered from (status for Status, origin otherwise), which the
decoders take from the pad's own reply; the pipelines of `main` keep the report whichever
stages are enabled. -/
theorem reply_origin_flag (link : PadConsoleLink) (rx tx : List Nat)
    (hpipes : link.pipelines_.status.KeepsReport ∧ link.pipelines_.origin.KeepsReport ∧
      link.pipelines_.recalibrate.KeepsReport)
    (hcmd : rx.getD 0 0 = 0x40 ∨ rx.getD 0 0 = 0x41 ∨ rx.getD 0 0 = 0x42)
    (hsent : (ConsoleClient.callback link rx tx).1 ≠ 0) :
    (read_u16_le (first2 (ConsoleClient.callback link rx tx).2.1)).testBit 5 =
      !(if rx.getD 0 0 = 0x40 then link.real_pad_hub_.load_original_snapshot.status
        else link.real_pad_hub_.load_original_snapshot.origin).report.origin_sent ∧
    (∀ (frame : List Nat) (m : PollMode),
      (decode_status frame m).report.origin_sent = !(read_u16_le (first2 frame)).testBit 5 ∧
      (decode_origin frame).report.origin_sent = !(read_u16_le (first2 frame)).testBit 5) ∧
    (∀ (ctx : OriginOffsetContext) (lut_x lut_y : Nat → Nat → Nat) (calls : List (Nat × Bool)),
      ((main_pipelines ctx lut_x lut_y).status.set_stages_enabled calls).KeepsReport ∧
      ((main_pipelines ctx lut_x lut_y).origin.set_stages_enabled calls).KeepsReport ∧
      ((main_pipelines ctx lut_x lut_y).recalibrate.set_stages_enabled calls).KeepsReport) := by
  refine ⟨?_, decode_origin_sent, main_pipelines_keep_report⟩
  rw [ConsoleClient.callback_status_word link rx tx hcmd hsent, read_encode_to_status_word,
    status_word_of_testBit]
  obtain ⟨h1, h2, h3⟩ := hpipes
  have hrep : (ConsoleClient.replied_state link (rx.getD 0 0)
      link.real_pad_hub_.load_original_snapshot).report =
      (if rx.getD 0 0 = 0x40 then link.real_pad_hub_.load_original_snapshot.status
        else link.real_pad_hub_.load_original_snapshot.origin).report := by
    unfold ConsoleClient.replied_state
    split_ifs
    · exact Pipeline.apply_keeps_report _ h1 _
    · exact Pipeline.apply_keeps_report _ h2 _
    · exact Pipeline.apply_keeps_report _ h3 _
  rw [hrep]
  simp

/-- C32 (amended) at a Ready link with an empty hub and the pipelines of `main`: the
Status reply carries the flag of the default snapshot. -/
theorem reply_origin_flag_witness :
    (read_u16_le (first2 (ConsoleClient.callback
      { origin_pending_link with real_pad_hub_ := {} } [0x40, 0x03, 0x00]
      (List.replicate 16 0)).2.1)).testBit 5 =
      !(if [0x40, 0x03, 0x00].getD 0 0 = 0x40 then
          ({ origin_pending_link with real_pad_hub_ := {} } : PadConsoleLink
            ).real_pad_hub_.load_original_snapshot.status
        else ({ origin_pending_link with real_pad_hub_ := {} } : PadConsoleLink
            ).real_pad_hub_.load_original_snapshot.origin).report.origin_sent :=
  (reply_origin_flag { origin_pending_link with real_pad_hub_ := {} } [0x40, 0x03, 0x00]
    (List.replicate 16 0) (main_pipelines_keep_report {} sample_table sample_table [])
    (Or.inl rfl) (by decide!)).1

/-! ## Pad client: the per-state step -/

namespace Measure

theorem PadClient.tick_quiet (pc : PadClient) (link : PadConsoleLink) (now_us : Nat)
    (console : ConsoleState) (send_ok : Bool)
    (hlive : pc.pad_alive link now_us = true ∨ pc.state_ = State.Disconnected)
    (hreset : link.load_reset_epoch = pc.last_reset_epoch_ ∨ pc.state_ = State.Disconnected ∨
      pc.state_ = State.Resetting) :
    pc.tick link now_us console send_ok =
      (pc.bookkept link now_us).tick_dispatch link link.real_pad_hub_.load_original_snapshot
        now_us console send_ok := by
  obtain ⟨st, apc, rd, ac, ls, lpc, lre, nsd⟩ := pc
  simp only at hlive hreset
  have hl : PadClient.tick_liveness ⟨st, apc, rd, ac, ls, lpc, lre, nsd⟩ link
      link.real_pad_hub_.load_original_snapshot now_us =
      (⟨st, apc, rd, ac,
        if link.real_pad_hub_.load_original_snapshot.publish_count ≠ lpc then now_us else ls,
        link.real_pad_hub_.load_original_snapshot.publish_count, lre, nsd⟩, link) := by
    unfold PadClient.tick_liveness
    unfold PadClient.pad_alive at hlive
    by_cases hc : link.real_pad_hub_.load_original_snapshot.publish_count = lpc
    · simp only [hc, ne_eq, not_true_eq_false, if_false] at hlive ⊢
      rcases hlive with h | h
      · simp [h]
      · simp [h]
    · simp only [hc, ne_eq, not_false_eq_true, if_true] at hlive ⊢
      rcases hlive with h | h
      · simp [h]
      · simp [h]
  have hr : ∀ s2 c2 : Nat,
      PadClient.tick_console_reset ⟨st, apc, rd, ac, s2, c2, lre, nsd⟩ link =
        (⟨st, apc, rd, ac, s2, c2, link.load_reset_epoch, nsd⟩, link) := by
    intro s2 c2
    unfold PadClient.tick_console_reset PadConsoleLink.consume_pad_reset_request
    by_cases he : link.load_reset_epoch = lre
    · simp [he]
    · rcases hreset with h | h | h
      · exact absurd h he
      · simp [he, h]
      · simp [he, h]
  simp only [PadClient.tick, hl, hr]
  rfl

theorem PadClient.dispatch_idle (q : PadClient) (link : PadConsoleLink) (snap : PadSnapshot)
    (now_us : Nat) (console : ConsoleState) (send_ok : Bool) (s : State)
    (hstate : q.state_ = s) (hs : s ≠ State.Ready)
    (hidle : is_valid_command q.await_command_ = false) :
    q.tick_dispatch link snap now_us console send_ok =
      ({ q with
          response_deadline_us_ :=
            if send_ok then (now_us + 30000) % 4294967296 else 0
          await_command_ :=
            if send_ok then (request_of console s).command else Command.Invalid.toByte
          await_publish_count_ := link.real_pad_hub_.load_original_snapshot.publish_count },
        link, some (request_of console s).bytes) := by
  have hw : q.waiting_response_ = false := hidle
  unfold PadClient.tick_dispatch
  cases s <;> first | exact absurd rfl hs | skip
  all_goals
    rw [hstate]
    cases send_ok <;>
      simp [PadClient.tick_boot, PadClient.send_request_, PadClient.abort_wait_, hw, request_of,
        Joybus.Id, Joybus.Origin, Joybus.Recalibrate, Joybus.Status, Joybus.Reset,
        Request.bytes, Request.command, BOOT_TIMEOUT_US, hstate]

theorem PadClient.dispatch_awaited (q : PadClient) (link : PadConsoleLink)
    (snap : PadSnapshot) (now_us : Nat) (console : ConsoleState) (send_ok : Bool) (s : State)
    (hstate : q.state_ = s) (hs : s ≠ State.Ready)
    (hwait : is_valid_command q.await_command_ = true) :
    ((q.await_command_ = (request_of console s).command ∧
        snap.publish_count ≠ q.await_publish_count_ ∧
        snap.last_rx_command = (request_of console s).command) →
      q.tick_dispatch link snap now_us console send_ok =
        ({ q with
            state_ := next_of s
            await_command_ := Command.Invalid.toByte
            response_deadline_us_ := 0
            last_reset_epoch_ :=
              if s = State.Resetting then link.load_reset_epoch else q.last_reset_epoch_
            next_status_due_us_ :=
              if s = State.WarmStatus then (now_us + STATUS_PERIOD_US) % 4294967296
              else q.next_status_due_us_ },
          { link with pad_state_ := published_state (next_of s) }, none)) ∧
    (¬ (q.await_command_ = (request_of console s).command ∧
        snap.publish_count ≠ q.await_publish_count_ ∧
        snap.last_rx_command = (request_of console s).command) →
      PadClient.is_timeout_reached now_us q.response_deadline_us_ = true →
      q.tick_dispatch link snap now_us console send_ok =
        ({ q with await_command_ := Command.Invalid.toByte, response_deadline_us_ := 0 },
          link, none)) ∧
    (¬ (q.await_command_ = (request_of console s).command ∧
        snap.publish_count ≠ q.await_publish_count_ ∧
        snap.last_rx_command = (request_of console s).command) →
      PadClient.is_timeout_reached now_us q.response_deadline_us_ = false →
      q.tick_dispatch link snap now_us console send_ok = (q, link, none)) := by
  have hw : q.waiting_response_ = true := hwait
  have hgot : ∀ c : Nat, q.got snap (snap.publish_count != q.await_publish_count_) c =
      decide (q.await_command_ = c ∧ snap.publish_count ≠ q.await_publish_count_ ∧
        snap.last_rx_command = c) := by
    intro c
    simp only [PadClient.got, hw, PadClient.awaiting_command_, Bool.true_and]
    by_cases h1 : q.await_command_ = c <;>
      by_cases h2 : snap.publish_count = q.await_publish_count_ <;>
        by_cases h3 : snap.last_rx_command = c <;> simp [h1, h2, h3]
  unfold PadClient.tick_dispatch
  cases s <;> first | exact absurd rfl hs | skip
  all_goals
    rw [hstate]
    simp only [PadClient.tick_boot, hw, Bool.not_true, Bool.false_eq_true, if_false, hgot,
      request_of, Joybus.Id, Joybus.Origin, Joybus.Recalibrate, Joybus.Status, Joybus.Reset,
      Request.command, Command.toByte, List.getD_cons_zero, decide_eq_true_eq]
    refine ⟨?_, ?_, ?_⟩
    · intro hg
      simp [hg, PadClient.enter_state_, PadClient.abort_wait_, PadClient.load_reset_epoch_,
        PadClient.publish_pad_state_to_link, PadConsoleLink.publish_pad_state_from_main,
        next_of, published_state, Command.toByte, hstate]
    · intro hg ht
      simp [hg, ht, PadClient.abort_wait_, Command.toByte, hstate]
    · intro hg ht
      simp [hg, ht]

theorem PadClient.enter_state_await (pc : PadClient) (link : PadConsoleLink) (next : State) :
    (pc.enter_state_ link next).1.await_command_ = Command.Invalid.toByte := rfl

theorem PadClient.tick_boot_moves (pc : PadClient) (link : PadConsoleLink)
    (snap : PadSnapshot) (has : Bool) (now_us : Nat) (send_ok : Bool) (request : Request)
    (next : State) :
    (pc.tick_boot link snap has now_us send_ok request next).1.state_ = pc.state_ ∨
    ((pc.tick_boot link snap has now_us send_ok request next).1.state_ = next ∧
      (pc.tick_boot link snap has now_us send_ok request next).1.await_command_ =
        Command.Invalid.toByte) := by
  unfold PadClient.tick_boot
  split_ifs
  · exact Or.inl (PadClient.send_request_state _ _ _ _ _ _)
  · exact Or.inr ⟨rfl, rfl⟩
  · exact Or.inl rfl
  · exact Or.inl rfl

theorem PadClient.tick_dispatch_moves_at (pc : PadClient) (link : PadConsoleLink)
    (snap : PadSnapshot) (now_us : Nat) (console : ConsoleState) (send_ok : Bool) (s : State)
    (hstate : pc.state_ = s) :
    (pc.tick_dispatch link snap now_us console send_ok).1.state_ = s ∨
    ((pc.tick_dispatch link snap now_us console send_ok).1.await_command_ =
        Command.Invalid.toByte ∧
      ((s ≠ State.Ready ∧
          (pc.tick_dispatch link snap now_us console send_ok).1.state_ = next_of s) ∨
        (s = State.Ready ∧
          (pc.tick_dispatch link snap now_us console send_ok).1.state_ = State.Resetting))) := by
  unfold PadClient.tick_dispatch
  cases s <;> rw [hstate] <;> simp only
  · rcases PadClient.tick_boot_moves pc link snap (snap.publish_count != pc.await_publish_count_)
      now_us send_ok Joybus.Id State.BootOrigin with h | ⟨h, h2⟩
    · exact Or.inl (h.trans hstate)
    · exact Or.inr ⟨h2, Or.inl ⟨by decide, h⟩⟩
  · split_ifs
    · left; rw [PadClient.send_request_state]; exact hstate
    · right; exact ⟨rfl, Or.inl ⟨by decide, rfl⟩⟩
    · left; exact hstate
    · left; exact hstate
  · rcases PadClient.tick_boot_moves pc link snap (snap.publish_count != pc.await_publish_count_)
      now_us send_ok Joybus.Id State.BootOrigin with h | ⟨h, h2⟩
    · exact Or.inl (h.trans hstate)
    · exact Or.inr ⟨h2, Or.inl ⟨by decide, h⟩⟩
  · rcases PadClient.tick_boot_moves pc link snap (snap.publish_count != pc.await_publish_count_)
      now_us send_ok Joybus.Origin State.BootRecalibrate with h | ⟨h, h2⟩
    · exact Or.inl (h.trans hstate)
    · exact Or.inr ⟨h2, Or.inl ⟨by decide, h⟩⟩
  · rcases PadClient.tick_boot_moves pc link snap (snap.publish_count != pc.await_publish_count_)
      now_us send_ok Joybus.Recalibrate State.WarmStatus with h | ⟨h, h2⟩
    · exact Or.inl (h.trans hstate)
    · exact Or.inr ⟨h2, Or.inl ⟨by decide, h⟩⟩
  · split_ifs
    · left; rw [PadClient.send_request_state]; exact hstate
    · right; exact ⟨rfl, Or.inl ⟨by decide, rfl⟩⟩
    · left; exact hstate
    · left; exact hstate
  · split_ifs
    · right; exact ⟨rfl, Or.inr ⟨trivial, rfl⟩⟩
    · left; rfl
    · left; rfl
    · left; rfl
    · left; simp only [PadClient.send_request_state]
    · left; simp only [PadClient.send_request_state]
    · left; rfl

/-- The switch either keeps the state, or moves a boot state to its successor, or moves
Ready to Resetting; whenever it moves, nothing is awaited afterwards. -/
theorem PadClient.tick_dispatch_moves (pc : PadClient) (link : PadConsoleLink)
    (snap : PadSnapshot) (now_us : Nat) (console : ConsoleState) (send_ok : Bool) :
    (pc.tick_dispatch link snap now_us console send_ok).1.state_ = pc.state_ ∨
    ((pc.tick_dispatch link snap now_us console send_ok).1.await_command_ =
        Command.Invalid.toByte ∧
      ((pc.state_ ≠ State.Ready ∧
          (pc.tick_dispatch link snap now_us console send_ok).1.state_ = next_of pc.state_) ∨
        (pc.state_ = State.Ready ∧
          (pc.tick_dispatch link snap now_us console send_ok).1.state_ = State.Resetting))) :=
  PadClient.tick_dispatch_moves_at pc link snap now_us console send_ok pc.state_ rfl

theorem PadClient.tick_liveness_moves (pc : PadClient) (link : PadConsoleLink)
    (snap : PadSnapshot) (now_us : Nat) :
    (pc.tick_liveness link snap now_us).1.state_ = pc.state_ ∨
    (pc.tick_liveness link snap now_us).1.state_ = State.Disconnected := by
  unfold PadClient.tick_liveness
  simp only
  split_ifs
  · exact Or.inr rfl
  · exact Or.inl rfl
  · exact Or.inr rfl
  · exact Or.inl rfl

theorem PadClient.tick_console_reset_moves (pc : PadClient) (link : PadConsoleLink) :
    (pc.tick_console_reset link).1.state_ = pc.state_ ∨
    (pc.tick_console_reset link).1.state_ = State.Resetting := by
  unfold PadClient.tick_console_reset
  simp only
  split_ifs
  · exact Or.inr rfl
  · exact Or.inl rfl

theorem PadClient.ready_from (pc : PadClient) (link : PadConsoleLink) (now_us : Nat)
    (console : ConsoleState) (send_ok : Bool)
    (h : (pc.tick link now_us console send_ok).1.state_ = State.Ready) :
    pc.state_ = State.Ready ∨ pc.state_ = State.WarmStatus := by
  unfold PadClient.tick at h
  simp only at h
  generalize hq1 : pc.tick_liveness link link.real_pad_hub_.load_original_snapshot now_us = q1
    at h
  have hl := PadClient.tick_liveness_moves pc link link.real_pad_hub_.load_original_snapshot
    now_us
  rw [hq1] at hl
  generalize hq2 : q1.1.tick_console_reset q1.2 = q2 at h
  have hr := PadClient.tick_console_reset_moves q1.1 q1.2
  rw [hq2] at hr
  have hd := PadClient.tick_dispatch_moves q2.1 q2.2 link.real_pad_hub_.load_original_snapshot
    now_us console send_ok
  rw [h] at hd
  have h2 : q2.1.state_ = State.Ready ∨ q2.1.state_ = State.WarmStatus := by
    rcases hd with hd | ⟨-, ⟨hne, hd⟩ | ⟨-, hd⟩⟩
    · exact Or.inl hd.symm
    · right
      revert hd hne
      cases q2.1.state_ <;> simp [next_of]
    · exact absurd hd (by decide)
  have h1 : q1.1.state_ = State.Ready ∨ q1.1.state_ = State.WarmStatus := by
    rcases hr with hr | hr
    · rw [← hr]; exact h2
    · rw [hr] at h2
      rcases h2 with h2 | h2 <;> exact absurd h2 (by decide)
  rcases hl with hl | hl
  · rw [← hl]; exact h1
  · rw [hl] at h1
    rcases h1 with h1 | h1 <;> exact absurd h1 (by decide)

end Measure

/-- C33: in a tick in which neither the liveness step nor the reset step changes the
state, a client in a state S other than Ready, with request R(S) and successor N(S),
(a) hands R(S) to the port with a deadline 30000 us ahead and stays in S when nothing is
awaited (the wait is dropped again when the port refuses); (b) moves to N(S) iff R(S) is
awaited, the snapshot count differs from the one recorded at the send and last_rx_command
is R(S)'s command; (c) otherwise clears the wait and stays in S when the deadline is
reached; (d) otherwise only does the bookkeeping; a state change leaves nothing awaited,
and a tick ends in Ready only from WarmStatus or Ready. -/
theorem tick_boot_step (pc : Measure.PadClient) (link : Measure.PadConsoleLink)
    (now_us : Nat) (console : ConsoleState) (send_ok : Bool)
    (hs : pc.state_ ≠ Measure.State.Ready)
    (hlive : pc.pad_alive link now_us = true ∨ pc.state_ = Measure.State.Disconnected)
    (hreset : link.load_reset_epoch = pc.last_reset_epoch_ ∨
      pc.state_ = Measure.State.Disconnected ∨ pc.state_ = Measure.State.Resetting) :
    (is_valid_command pc.await_command_ = false →
      pc.tick link now_us console send_ok =
        ({ pc.bookkept link now_us with
            response_deadline_us_ := if send_ok then (now_us + 30000) % 4294967296 else 0
            await_command_ :=
              if send_ok then (Measure.request_of console pc.state_).command
              else Command.Invalid.toByte
            await_publish_count_ :=
              link.real_pad_hub_.load_original_snapshot.publish_count },
          link, some (Measure.request_of console pc.state_).bytes)) ∧
    (is_valid_command pc.await_command_ = true →
      ((pc.tick link now_us console send_ok).1.state_ = Measure.next_of pc.state_ ↔
        (pc.await_command_ = (Measure.request_of console pc.state_).command ∧
          link.real_pad_hub_.load_original_snapshot.publish_count ≠ pc.await_publish_count_ ∧
          link.real_pad_hub_.load_original_snapshot.last_rx_command =
            (Measure.request_of console pc.state_).command)) ∧
      ((pc.tick link now_us console send_ok).1.state_ = Measure.next_of pc.state_ →
        pc.tick link now_us console send_ok =
          ({ pc.bookkept link now_us with
              state_ := Measure.next_of pc.state_
              await_command_ := Command.Invalid.toByte
              response_deadline_us_ := 0
              next_status_due_us_ :=
                if pc.state_ = Measure.State.WarmStatus then now_us % 4294967296
                else pc.next_status_due_us_ },
            { link with pad_state_ := Measure.published_state (Measure.next_of pc.state_) },
            none)) ∧
      ((pc.tick link now_us console send_ok).1.state_ ≠ Measure.next_of pc.state_ →
        Measure.PadClient.is_timeout_reached now_us pc.response_deadline_us_ = true →
        pc.tick link now_us console send_ok =
          ({ pc.bookkept link now_us with
              await_command_ := Command.Invalid.toByte, response_deadline_us_ := 0 },
            link, none)) ∧
      ((pc.tick link now_us console send_ok).1.state_ ≠ Measure.next_of pc.state_ →
        Measure.PadClient.is_timeout_reached now_us pc.response_deadline_us_ = false →
        pc.tick link now_us console send_ok = (pc.bookkept link now_us, link, none))) ∧
    ((pc.tick link now_us console send_ok).1.state_ ≠ pc.state_ →
      (pc.tick link now_us console send_ok).1.await_command_ = Command.Invalid.toByte) ∧
    (∀ other : Measure.PadClient,
      (other.tick link now_us console send_ok).1.state_ = Measure.State.Ready →
        other.state_ = Measure.State.Ready ∨ other.state_ = Measure.State.WarmStatus) := by
  have hq := Measure.PadClient.tick_quiet pc link now_us console send_ok hlive hreset
  have hne : Measure.next_of pc.state_ ≠ pc.state_ := by
    revert hs
    cases pc.state_ <;> simp [Measure.next_of]
  refine ⟨?_, ?_, ?_, fun other => Measure.PadClient.ready_from other link now_us console send_ok⟩
  · intro hidle
    rw [hq]
    exact Measure.PadClient.dispatch_idle (pc.bookkept link now_us) link _ now_us console
      send_ok pc.state_ rfl hs hidle
  · intro hwait
    obtain ⟨hb, hc, hd⟩ := Measure.PadClient.dispatch_awaited (pc.bookkept link now_us) link
      link.real_pad_hub_.load_original_snapshot now_us console send_ok pc.state_ rfl hs hwait
    have hiff : (pc.tick link now_us console send_ok).1.state_ = Measure.next_of pc.state_ ↔
        (pc.await_command_ = (Measure.request_of console pc.state_).command ∧
          link.real_pad_hub_.load_original_snapshot.publish_count ≠ pc.await_publish_count_ ∧
          link.real_pad_hub_.load_original_snapshot.last_rx_command =
            (Measure.request_of console pc.state_).command) := by
      constructor
      · intro hmoved
        by_contra hg
        by_cases ht : Measure.PadClient.is_timeout_reached now_us pc.response_deadline_us_ = true
        · rw [hq, hc hg ht] at hmoved
          exact hne hmoved.symm
        · rw [hq, hd hg (by simpa using ht)] at hmoved
          exact hne hmoved.symm
      · intro hg
        rw [hq, hb hg]
    refine ⟨hiff, ?_, ?_, ?_⟩
    · intro hmoved
      rw [hq, hb (hiff.mp hmoved)]
      cases hst : pc.state_ <;> first | exact absurd hst hs | simp [Measure.PadClient.bookkept, Measure.STATUS_PERIOD_US]
    · intro hstay ht
      rw [hq]
      exact hc (fun hg => hstay (hiff.mpr hg)) ht
    · intro hstay ht
      rw [hq]
      exact hd (fun hg => hstay (hiff.mpr hg)) ht
  · intro hchanged
    rw [hq] at hchanged ⊢
    rcases Measure.PadClient.tick_dispatch_moves (pc.bookkept link now_us) link
      link.real_pad_hub_.load_original_snapshot now_us console send_ok with h | ⟨h, -⟩
    · exact absurd h hchanged
    · exact h

/-- C33 at a fresh client on a fresh link at 1000 us: nothing is awaited, so the tick hands
the Id request to the port, awaits Id until 31000 us and stays Disconnected. -/
theorem tick_boot_step_witness :
    (({} : Measure.PadClient).state_ ≠ Measure.State.Ready ∧
      is_valid_command ({} : Measure.PadClient).await_command_ = false) ∧
    (Measure.PadClient.tick {} {} 1000 {} true).2.2 = some [0x00] ∧
    (Measure.PadClient.tick {} {} 1000 {} true).1.state_ = Measure.State.Disconnected ∧
    (Measure.PadClient.tick {} {} 1000 {} true).1.await_command_ = 0x00 ∧
    (Measure.PadClient.tick {} {} 1000 {} true).1.response_deadline_us_ = 31000 := by
  have h := (tick_boot_step {} {} 1000 {} true (by decide) (Or.inr rfl) (Or.inl rfl)).1
    (by decide)
  rw [h]
  decide

/-! ## Pad client: the liveness step -/

/-- C34 counterexample: a client that sent Id at 4294966296 us and received the reply in
the tick at 0 us is in BootOrigin with last_seen_us 0; the liveness step of the next tick,
at 1000 us, forces it to Disconnected. -/
theorem never_seen_is_dead :
    (Measure.boot_run boot_reply [(4294966296, {}), (0, {})]).1.state_ =
      Measure.State.BootOrigin ∧
    (Measure.boot_run boot_reply [(4294966296, {}), (0, {})]).1.last_seen_us_ = 0 ∧
    Measure.PadClient.seen_after (Measure.boot_run boot_reply [(4294966296, {}), (0, {})]).1
      (Measure.boot_run boot_reply [(4294966296, {}), (0, {})]).2 1000 = 0 ∧
    ((Measure.boot_run boot_reply [(4294966296, {}), (0, {})]).1.tick_liveness
      (Measure.boot_run boot_reply [(4294966296, {}), (0, {})]).2
      (Measure.boot_run boot_reply
        [(4294966296, {}), (0, {})]).2.real_pad_hub_.load_original_snapshot 1000).1.state_ =
      Measure.State.Disconnected ∧
    (Measure.boot_run boot_reply [(4294966296, {}), (0, {}), (1000, {})]).1.state_ =
      Measure.State.Disconnected := by
  decide!

/-- C34 (amended): the liveness step treats the pad as dead exactly when last_seen_us,
after this tick's update, is 0 or the wrap-safe deadline last_seen_us + 100000 is reached;
a dead pad forces a non-Disconnected client to Disconnected with the wait cleared and the
status schedule reset, and otherwise the step only does the bookkeeping. -/
theorem liveness_step (pc : Measure.PadClient) (link : Measure.PadConsoleLink) (now_us : Nat) :
    (pc.pad_alive link now_us = false ↔
      (pc.seen_after link now_us = 0 ∨
        Measure.PadClient.is_timeout_reached now_us
          ((pc.seen_after link now_us + 100000) % 4294967296) = true)) ∧
    (pc.pad_alive link now_us = false → pc.state_ ≠ Measure.State.Disconnected →
      pc.tick_liveness link link.real_pad_hub_.load_original_snapshot now_us =
        ({ pc with
            state_ := Measure.State.Disconnected
            await_command_ := Command.Invalid.toByte
            response_deadline_us_ := 0
            next_status_due_us_ := 0
            last_publish_count_ := link.real_pad_hub_.load_original_snapshot.publish_count
            last_seen_us_ := pc.seen_after link now_us },
          { link with pad_state_ := PadConnectionState.Disconnected })) ∧
    ((pc.pad_alive link now_us = true ∨ pc.state_ = Measure.State.Disconnected) →
      pc.tick_liveness link link.real_pad_hub_.load_original_snapshot now_us =
        ({ pc with
            last_publish_count_ := link.real_pad_hub_.load_original_snapshot.publish_count
            last_seen_us_ := pc.seen_after link now_us }, link)) := by
  obtain ⟨st, apc, rd, ac, ls, lpc, lre, nsd⟩ := pc
  simp only [Measure.PadClient.pad_alive, Measure.PadClient.seen_after,
    Measure.PadClient.tick_liveness, Measure.PAD_TIMEOUT_US]
  by_cases hc : link.real_pad_hub_.load_original_snapshot.publish_count = lpc
  · simp only [hc, ne_eq, not_true_eq_false, if_false]
    refine ⟨?_, ?_, ?_⟩
    · cases h0 : (ls != 0) <;> cases ht : Measure.PadClient.is_timeout_reached now_us
        ((ls + 100000) % 4294967296) <;> simp_all
    · intro h hs
      simp [h, hs, Measure.PadClient.enter_state_, Measure.PadClient.abort_wait_,
        Measure.PadClient.publish_pad_state_to_link,
        Measure.PadConsoleLink.publish_pad_state_from_main]
    · rintro (h | h)
      · simp [h]
      · simp [h]
  · simp only [hc, ne_eq, not_false_eq_true, if_true]
    refine ⟨?_, ?_, ?_⟩
    · cases h0 : (now_us != 0) <;> cases ht : Measure.PadClient.is_timeout_reached now_us
        ((now_us + 100000) % 4294967296) <;> simp_all
    · intro h hs
      simp [h, hs, Measure.PadClient.enter_state_, Measure.PadClient.abort_wait_,
        Measure.PadClient.publish_pad_state_to_link,
        Measure.PadConsoleLink.publish_pad_state_from_main]
    · rintro (h | h)
      · simp [h]
      · simp [h]

/-! ## Seeding the measure hub -/

/-- C38 (as the code behaves): `seed_initial_responses` encodes the neutral Status reply
in the poll mode of the console, and the hub decodes every Status reply in the pinned Mode3
layout. On a fresh link the seeded snapshot.status is the neutral state for the console
modes Mode0, Mode3 and Mode4, but for Mode1 and Mode2 it has c_stick_x 0x88 and c_stick_y
0x00: the Mode1 frame is 0x80 0x00 0x80 0x80 0x88 0x00 0x00 0x00. -/
theorem seed_status_layout_mismatch :
    ((Measure.seed_initial_responses {} { poll_mode := PollMode.Mode1 } {}
      ).measure_pad_hub_.load_original_snapshot.status.input.analog.c_stick_x = 0x88 ∧
     (Measure.seed_initial_responses {} { poll_mode := PollMode.Mode1 } {}
      ).measure_pad_hub_.load_original_snapshot.status.input.analog.c_stick_y = 0x00 ∧
     (Measure.seed_initial_responses {} { poll_mode := PollMode.Mode1 } {}
      ).measure_pad_hub_.load_original_snapshot.status ≠ Measure.make_neutral_pad_state) ∧
    ((Measure.seed_initial_responses {} { poll_mode := PollMode.Mode2 } {}
      ).measure_pad_hub_.load_original_snapshot.status.input.analog.c_stick_x = 0x88 ∧
     (Measure.seed_initial_responses {} { poll_mode := PollMode.Mode2 } {}
      ).measure_pad_hub_.load_original_snapshot.status.input.analog.c_stick_y = 0x00) ∧
    (∀ m, m = PollMode.Mode0 ∨ m = PollMode.Mode3 ∨ m = PollMode.Mode4 →
      (Measure.seed_initial_responses {} { poll_mode := m } {}
        ).measure_pad_hub_.load_original_snapshot.status = Measure.make_neutral_pad_state) ∧
    Measure.make_neutral_pad_state.input.analog =
      { stick_x := 0x80, stick_y := 0x80, c_stick_x := 0x80, c_stick_y := 0x80,
        l_analog := 0x00, r_analog := 0x00, a_analog := 0x00, b_analog := 0x00 } ∧
    (encode_status Measure.make_neutral_pad_state PollMode.Mode1).view =
      [0x80, 0x00, 0x80, 0x80, 0x88, 0x00, 0x00, 0x00] := by
  refine ⟨by decide!, by decide!, ?_, by decide!, by decide!⟩
  rintro m (h | h | h) <;> subst h <;> decide!

/-! ## Stick grid sweep -/

namespace Measure

theorem count_range_eq (r : Uint8bitRange) (h : r.inRange) :
    count_range r =
      (if r.step = 0 ∨ r.end_ < r.begin then 0 else (r.end_ - r.begin) / r.step + 1) ∧
    count_range r ≤ 256 := by
  obtain ⟨hb, he, hs⟩ := h
  unfold count_range
  by_cases h0 : r.step = 0
  · simp [h0]
  by_cases h1 : r.begin > r.end_
  · simp [h0, h1]
  have hspan : (r.end_ - r.begin) / r.step ≤ 255 :=
    le_trans (Nat.div_le_self _ _) (by omega)
  have hm : (r.end_ - r.begin) % 4294967296 = r.end_ - r.begin := Nat.mod_eq_of_lt (by omega)
  have hm2 : ((r.end_ - r.begin) / r.step + 1) % 4294967296 = (r.end_ - r.begin) / r.step + 1 :=
    Nat.mod_eq_of_lt (by omega)
  have h1' : ¬ r.end_ < r.begin := h1
  simp only [h0, h1, h1', if_false, hm, hm2, false_or]
  exact ⟨trivial, by omega⟩

theorem count_range_point (r : Uint8bitRange) (h : r.inRange) (i : Nat)
    (hi : i < count_range r) :
    r.begin ≤ r.begin + i * r.step ∧ r.begin + i * r.step ≤ r.end_ := by
  have hc := (count_range_eq r h).1
  by_cases h0 : r.step = 0 ∨ r.end_ < r.begin
  · rw [if_pos h0] at hc; omega
  rw [if_neg h0] at hc
  push_neg at h0
  have hle : i ≤ (r.end_ - r.begin) / r.step := by omega
  have hmul : i * r.step ≤ r.end_ - r.begin :=
    le_trans (Nat.mul_le_mul_right _ hle) (Nat.div_mul_le_self _ _)
  omega

theorem StickGridSweep.create_none_iff (config : StickGridSweep.Config) :
    StickGridSweep.create config = none ↔ count_range config.x = 0 := by
  unfold StickGridSweep.create checked_div
  by_cases hc : config.base_is_custom = true
  · by_cases h : count_range config.x = 0 <;> simp [hc, h]
  · by_cases h : count_range config.x = 0 <;> simp [hc, h]

theorem StickGridSweep.create_built (config : StickGridSweep.Config)
    (hx : config.x.inRange) (hy : config.y.inRange) (hne : count_range config.x ≠ 0) :
    ∃ sw, StickGridSweep.create config = some sw ∧ sw.Built ∧
      sw.config_.x = config.x ∧ sw.config_.y = config.y ∧
      sw.config_.loop = config.loop ∧ sw.config_.target = config.target ∧
      sw.index_ = 0 ∧
      sw.total_steps = count_range config.x * count_range config.y ∧
      sw.total_steps ≤ 65536 := by
  have hxc := (count_range_eq config.x hx).2
  have hyc := (count_range_eq config.y hy).2
  have hq : ¬ 4294967295 / count_range config.x < count_range config.y := by
    have : 256 ≤ 4294967295 / count_range config.x := by
      rw [Nat.le_div_iff_mul_le (Nat.pos_of_ne_zero hne)]
      calc 256 * count_range config.x ≤ 256 * 256 := Nat.mul_le_mul_left _ hxc
        _ ≤ 4294967295 := by norm_num
    omega
  have hprod : count_range config.x * count_range config.y ≤ 65536 :=
    calc count_range config.x * count_range config.y ≤ 256 * 256 := Nat.mul_le_mul hxc hyc
      _ = 65536 := by norm_num
  have hmod : (count_range config.x * count_range config.y) % 4294967296 =
      count_range config.x * count_range config.y := Nat.mod_eq_of_lt (by omega)
  unfold StickGridSweep.create checked_div
  by_cases hc : config.base_is_custom = true
  · simp only [hc, Bool.not_true, Bool.false_eq_true, if_false, hne, Option.map_some']
    refine ⟨_, rfl, ⟨hx, hy, rfl, rfl, ?_, hne⟩, rfl, rfl, rfl, rfl, rfl, ?_, ?_⟩
    · simp only [hq, if_false, hmod]
    · simp only [StickGridSweep.total_steps, hq, if_false, hmod]
    · simp only [StickGridSweep.total_steps, hq, if_false, hmod]; exact hprod
  · have hc' : config.base_is_custom = false := by simpa using hc
    simp only [hc', Bool.not_false, if_true, hne, if_false, Option.map_some']
    refine ⟨_, rfl, ⟨hx, hy, rfl, rfl, ?_, hne⟩, rfl, rfl, rfl, rfl, rfl, ?_, ?_⟩
    · simp only [hq, if_false, hmod]
    · simp only [StickGridSweep.total_steps, hq, if_false, hmod]
    · simp only [StickGridSweep.total_steps, hq, if_false, hmod]; exact hprod

theorem StickGridSweep.place_coordinates (target : StickGridSweep.Target) (base : PadState)
    (x y : Nat) :
    StickGridSweep.coordinates target (StickGridSweep.place target base x y) =
      (x % 256, y % 256) := by
  cases target <;> rfl

theorem StickGridSweep.advance_built (sw : StickGridSweep) (steps : Nat)
    (ht : sw.total_ ≠ 0) :
    sw.advance steps = some none ∨
      ∃ out_index index, sw.advance steps = some (some (out_index, { sw with index_ := index })) ∧
        out_index < sw.total_ := by
  unfold StickGridSweep.advance checked_mod
  by_cases hl : sw.config_.loop = true
  · right
    simp only [hl, if_true, ht, if_false, Option.some_bind, Option.map_some']
    exact ⟨_, _, rfl, Nat.mod_lt _ (Nat.pos_of_ne_zero ht)⟩
  · by_cases hge : (sw.index_ + (steps - 1)) % 4294967296 ≥ sw.total_
    · left; simp only [hl, if_false, hge, if_true, Bool.false_eq_true]
    · right
      simp only [hl, if_false, hge, Bool.false_eq_true]
      exact ⟨_, _, rfl, by omega⟩

theorem StickGridSweep.sample_and_advance_built (sw : StickGridSweep) (h : sw.Built)
    (out : PadState) (steps : Nat) :
    ∃ r, sw.sample_and_advance out steps = some r ∧
      r.2.1.Built ∧ r.2.1.config_ = sw.config_ ∧ r.2.1.total_ = sw.total_ ∧
      (sw.total_ = 0 → r = (false, sw, out)) ∧
      (r.1 = false → r = (false, sw, out)) ∧
      (r.1 = true →
        sw.config_.x.begin ≤ (StickGridSweep.coordinates sw.config_.target r.2.2).1 ∧
        (StickGridSweep.coordinates sw.config_.target r.2.2).1 ≤ sw.config_.x.end_ ∧
        sw.config_.y.begin ≤ (StickGridSweep.coordinates sw.config_.target r.2.2).2 ∧
        (StickGridSweep.coordinates sw.config_.target r.2.2).2 ≤ sw.config_.y.end_) := by
  unfold StickGridSweep.sample_and_advance
  by_cases ht : sw.total_ = 0
  · simp only [ht, if_true]
    exact ⟨_, rfl, h, rfl, ht, fun _ => rfl, fun _ => rfl, fun hf => by simp at hf⟩
  simp only [ht, if_false]
  rcases StickGridSweep.advance_built sw (if steps = 0 then 1 else steps) ht with
    ha | ⟨oi, idx, ha, hlt⟩
  · rw [ha]
    exact ⟨_, rfl, h, rfl, rfl, fun h0 => h0.elim, fun _ => rfl, fun hf => by simp at hf⟩
  · rw [ha]
    have hxne : sw.x_count_ ≠ 0 := h.x_nonempty
    simp only [checked_mod, checked_div, hxne, if_false, Option.some_bind, Option.map_some']
    have hxi : oi % sw.x_count_ < count_range sw.config_.x := by
      rw [← h.x_count]; exact Nat.mod_lt _ (Nat.pos_of_ne_zero hxne)
    have hyi : oi / sw.x_count_ < count_range sw.config_.y := by
      rw [← h.y_count, Nat.div_lt_iff_lt_mul (Nat.pos_of_ne_zero hxne), Nat.mul_comm, ← h.total]
      exact hlt
    have px := count_range_point sw.config_.x h.x_range _ hxi
    have py := count_range_point sw.config_.y h.y_range _ hyi
    obtain ⟨_, hxe, _⟩ := h.x_range
    obtain ⟨_, hye, _⟩ := h.y_range
    have ex : ((sw.config_.x.begin + (oi % sw.x_count_ * sw.config_.x.step) % 4294967296)
        % 4294967296) % 256 = sw.config_.x.begin + oi % sw.x_count_ * sw.config_.x.step := by
      omega
    have ey : ((sw.config_.y.begin + (oi / sw.x_count_ * sw.config_.y.step) % 4294967296)
        % 4294967296) % 256 = sw.config_.y.begin + oi / sw.x_count_ * sw.config_.y.step := by
      omega
    refine ⟨_, rfl, ⟨h.x_range, h.y_range, h.x_count, h.y_count, h.total, h.x_nonempty⟩,
      rfl, rfl, fun h0 => h0.elim, fun hf => by simp at hf, fun _ => ?_⟩
    simp only [StickGridSweep.place_coordinates, ex, ey]
    exact ⟨px.1, px.2, py.1, py.2⟩

end Measure

/-- C39 (as the code behaves): the constructor of `StickGridSweep` divides `UINT32_MAX` by
the element count of the x range, so it divides by zero exactly when that range is empty, as
for step 0 or for begin above end; an empty y range alone gives a sweep of zero steps whose
`sample_and_advance` returns false and leaves the output alone. -/
theorem sweep_empty_x_divides_by_zero :
    (∀ config, Measure.StickGridSweep.create config = none ↔
      Measure.count_range config.x = 0) ∧
    Measure.count_range { begin := 0, end_ := 255, step := 0 } = 0 ∧
    Measure.StickGridSweep.create { x := { begin := 0, end_ := 255, step := 0 } } = none ∧
    Measure.count_range { begin := 10, end_ := 5, step := 1 } = 0 ∧
    Measure.StickGridSweep.create { x := { begin := 10, end_ := 5, step := 1 } } = none ∧
    (Measure.StickGridSweep.create { y := { begin := 0, end_ := 255, step := 0 } }).map
      (fun sw => (sw.total_steps, sw.sample_and_advance sample_state 1)) =
      some (0, some (false,
        { config_ := { y := { begin := 0, end_ := 255, step := 0 } },
          x_count_ := 256, y_count_ := 0, total_ := 0, index_ := 0 }, sample_state)) := by
  refine ⟨Measure.StickGridSweep.create_none_iff, by decide, by decide, by decide, by decide,
    by decide!⟩

/-! ## Schedule -/

namespace Measure

theorem Schedule.late_eq (now_us due_us : Nat) (hn : now_us < 4294967296)
    (hd : due_us < 4294967296) :
    (((now_us : Int) - (due_us : Int)) % 4294967296).toNat =
      (now_us + 4294967296 - due_us) % 4294967296 := by
  omega

theorem Schedule.poll_steps_first (s : Schedule) (now_us : Nat)
    (harmed : s.armed_ = false) :
    (s.poll_steps now_us).1 = 1 ∧
    (s.poll_steps now_us).2 =
      { s with armed_ := true, next_due_us_ := (now_us + s.interval) % 4294967296 } := by
  have hp : Schedule.has_passed_due now_us now_us = true := by
    simp [Schedule.has_passed_due]
  have hl : (((now_us : Int) - (now_us : Int)) % 4294967296).toNat = 0 := by simp
  by_cases hc : s.catch_up = true
  · simp [Schedule.poll_steps, harmed, hp, hc, Schedule.interval]
  · simp [Schedule.poll_steps, harmed, hp, hc, Schedule.interval]

theorem Schedule.poll_steps_early (s : Schedule) (now_us : Nat) (harmed : s.armed_ = true)
    (h : Schedule.has_passed_due now_us s.next_due_us_ = false) :
    s.poll_steps now_us = (0, s) := by
  simp [Schedule.poll_steps, harmed, h]

theorem Schedule.poll_steps_strict (s : Schedule) (now_us : Nat) (harmed : s.armed_ = true)
    (h : Schedule.has_passed_due now_us s.next_due_us_ = true) (hc : s.catch_up = false) :
    s.poll_steps now_us =
      (1, { s with next_due_us_ := (now_us + s.interval) % 4294967296 }) := by
  simp [Schedule.poll_steps, harmed, h, hc, Schedule.interval]

theorem Schedule.poll_steps_catch_up (s : Schedule) (now_us : Nat)
    (hn : now_us < 4294967296) (hd : s.next_due_us_ < 4294967296)
    (harmed : s.armed_ = true)
    (h : Schedule.has_passed_due now_us s.next_due_us_ = true) (hc : s.catch_up = true) :
    s.poll_steps now_us =
      (1 + s.late now_us / s.interval,
        { s with next_due_us_ :=
            (s.next_due_us_ + (1 + s.late now_us / s.interval) * s.interval) % 4294967296 }) := by
  have hl := Schedule.late_eq now_us s.next_due_us_ hn hd
  have hlate : s.late now_us < 2147483648 := by
    simp only [Schedule.has_passed_due, decide_eq_true_eq] at h
    simp only [Schedule.late]
    omega
  have hpos : 0 < s.interval := by
    unfold Schedule.interval
    split_ifs <;> omega
  have hq : s.late now_us / s.interval ≤ s.late now_us := Nat.div_le_self _ _
  have hmod : (1 + s.late now_us / s.interval) % 4294967296 = 1 + s.late now_us / s.interval :=
    Nat.mod_eq_of_lt (by omega)
  simp only [Schedule.poll_steps, harmed, Bool.not_true, Bool.false_eq_true, if_false, h, hc,
    if_true, hl]
  simp only [Schedule.interval, Schedule.late] at hmod ⊢
  rw [hmod]

end Measure

/-- C40: for a schedule and a time within 32 bits, `poll_steps` returns 1 and arms the
schedule one interval ahead on the first call after construction or `reset`; returns 0 and
changes nothing before the due time under the wrap-safe comparison; at or after the due
time returns 1 and sets the due time to now plus the interval without catch-up, and with
catch-up returns 1 plus the whole intervals the call is late by and advances the due time by
that many intervals, so the count is the number of scheduled intervals elapsed and the new
due time is at least 1 us and at most one interval after now; `interval_us` 0 counts as 1. -/
theorem poll_steps_contract (s : Measure.Schedule) (now_us : Nat)
    (hi : s.interval_us < 4294967296) (hd : s.next_due_us_ < 4294967296)
    (hn : now_us < 4294967296) :
    (s.armed_ = false →
      (s.poll_steps now_us).1 = 1 ∧
      (s.poll_steps now_us).2 =
        { s with armed_ := true, next_due_us_ := (now_us + s.interval) % 4294967296 }) ∧
    (s.reset.poll_steps now_us).1 = 1 ∧
    (s.armed_ = true → Measure.Schedule.has_passed_due now_us s.next_due_us_ = false →
      s.poll_steps now_us = (0, s)) ∧
    (s.armed_ = true → Measure.Schedule.has_passed_due now_us s.next_due_us_ = true →
      s.catch_up = false →
      s.poll_steps now_us =
        (1, { s with next_due_us_ := (now_us + s.interval) % 4294967296 })) ∧
    (s.armed_ = true → Measure.Schedule.has_passed_due now_us s.next_due_us_ = true →
      s.catch_up = true →
      (s.poll_steps now_us).1 = 1 + s.late now_us / s.interval ∧
      (s.poll_steps now_us).2 =
        { s with next_due_us_ :=
            (s.next_due_us_ + (s.poll_steps now_us).1 * s.interval) % 4294967296 } ∧
      ((s.poll_steps now_us).1 - 1) * s.interval ≤ s.late now_us ∧
      s.late now_us < (s.poll_steps now_us).1 * s.interval ∧
      1 ≤ ((s.poll_steps now_us).2.next_due_us_ + 4294967296 - now_us) % 4294967296 ∧
      ((s.poll_steps now_us).2.next_due_us_ + 4294967296 - now_us) % 4294967296 ≤ s.interval ∧
      (s.interval ≤ 2147483648 →
        Measure.Schedule.has_passed_due now_us (s.poll_steps now_us).2.next_due_us_ = false)) ∧
    (s.interval_us = 0 → s.interval = 1) ∧ (s.interval_us ≠ 0 → s.interval = s.interval_us) := by
  refine ⟨Measure.Schedule.poll_steps_first s now_us,
    (Measure.Schedule.poll_steps_first s.reset now_us rfl).1,
    Measure.Schedule.poll_steps_early s now_us,
    Measure.Schedule.poll_steps_strict s now_us, ?_, ?_, ?_⟩
  · intro harmed hp hc
    have hps := Measure.Schedule.poll_steps_catch_up s now_us hn hd harmed hp hc
    have hint : s.interval < 4294967296 := by
      unfold Measure.Schedule.interval
      split_ifs <;> omega
    have hpos : 0 < s.interval := by
      unfold Measure.Schedule.interval
      split_ifs <;> omega
    have hdm := Nat.div_add_mod (s.late now_us) s.interval
    have hr := Nat.mod_lt (s.late now_us) hpos
    have hlate : s.late now_us = (now_us + 4294967296 - s.next_due_us_) % 4294967296 := rfl
    have hlt : s.late now_us < 2147483648 := by
      simp only [Measure.Schedule.has_passed_due, decide_eq_true_eq] at hp
      rw [hlate]
      omega
    rw [hps]
    simp only [Nat.add_sub_cancel_left, Nat.add_mul, Nat.one_mul]
    generalize hP : s.late now_us / s.interval * s.interval = P
    have hP2 : s.interval * (s.late now_us / s.interval) = P := by rw [Nat.mul_comm]; exact hP
    rw [hP2] at hdm
    generalize s.late now_us % s.interval = r at hdm hr
    generalize s.interval = iv at *
    generalize s.late now_us = lt at *
    refine ⟨trivial, trivial, by omega, by omega, by omega, by omega, ?_⟩
    intro hsmall
    simp only [Measure.Schedule.has_passed_due, decide_eq_false_iff_not]
    omega
  · intro h
    simp [Measure.Schedule.interval, h]
  · intro h
    simp [Measure.Schedule.interval, h]

/-- C40 at a 1 ms catch-up schedule due at 10000 us and polled at 12500 us: three steps
are returned and the new due time 13000 us has not passed. -/
theorem poll_steps_contract_witness :
    (Measure.sample_schedule.interval_us < 4294967296 ∧
      Measure.sample_schedule.next_due_us_ < 4294967296 ∧ 12500 < 4294967296) ∧
    (Measure.sample_schedule.poll_steps 12500).1 = 3 ∧
    (Measure.sample_schedule.poll_steps 12500).2.next_due_us_ = 13000 ∧
    Measure.Schedule.has_passed_due 12500
      (Measure.sample_schedule.poll_steps 12500).2.next_due_us_ = false :=
  ⟨by decide,
    ((poll_steps_contract Measure.sample_schedule 12500 (by decide) (by decide)
      (by decide)).2.2.2.2.1 rfl (by decide) rfl).1.trans (by decide),
    by decide,
    ((poll_steps_contract Measure.sample_schedule 12500 (by decide) (by decide)
      (by decide)).2.2.2.2.1 rfl (by decide) rfl).2.2.2.2.2.2 (by decide)⟩

end GcInput
